import Mathlib

/-!
g3log: the asynchronous fan-out engine, the fatal pipeline and the contract checks.

A shallow embedding of `src/g3log.cpp`, `src/logworker.cpp` and the check
macros of `src/g3log/g3log.hpp`.

* The process-wide variables of the anonymous namespace of `g3log.cpp`, the
  workers, the standard error stream and three ghost traces (sink sends, hook
  invocations, fatal-dispatch invocations) are the fields of `World`.
* A function of the source that runs on a producer thread is a function
  `World → World × Outcome`; the outcome says whether the call returned, threw,
  parked the thread for ever or terminated the process.
* The background thread of a worker is the step function `LogWorker.step`,
  which takes the job at the head of the FIFO and runs it.
* Collaborators whose source is not part of the repository snapshot
  (`loglevels`, `logmessage`, `active`, `sinkwrapper`, `crashhandler`) are
  parameters (`Externals`) or are modelled from the specification; each such
  definition says so.
-/

namespace g3

/-- A severity level (`LEVELS` of loglevels.hpp): numeric value and text. -/
structure LEVELS where
  value : Int
  text : String
deriving DecidableEq, Repr

/-- Modelled from the spec: the Record (`LogMessage`, logmessage.hpp is not
among the sources). Fields as listed in the data model: timestamp, thread
identifier, file, line, function, level, boolean-expression text, text body. -/
structure LogMessage where
  timestamp : Nat
  call_thread_id : Nat
  file : String
  line : Int
  function : String
  _level : LEVELS
  expression : String
  message : String
deriving DecidableEq, Repr

/-- Modelled from the spec: the fatal record, a Record plus a signal id. -/
structure FatalMessage extends LogMessage where
  _signal_id : Int
deriving DecidableEq, Repr

/-- Modelled from the spec: the constructor `LogMessage(file, line, function, level)`;
it stamps the record with the clock and the calling thread, the expression and
the body start empty. -/
def LogMessage.create (clock thread : Nat) (file : String) (line : Int)
    (function : String) (level : LEVELS) : LogMessage :=
  { timestamp := clock, call_thread_id := thread, file := file, line := line,
    function := function, _level := level, expression := "", message := "" }

/-- The call `m.write().append(s)`: append to the text body. -/
def LogMessage.append (m : LogMessage) (s : String) : LogMessage :=
  { m with message := m.message ++ s }

/-- The call `m.setExpression(e)`. -/
def LogMessage.setExpression (m : LogMessage) (e : String) : LogMessage :=
  { m with expression := e }

/-- The copy constructor `LogMessage msg(other)`: a new record, field by field. -/
def LogMessage.copy (other : LogMessage) : LogMessage :=
  { timestamp := other.timestamp, call_thread_id := other.call_thread_id,
    file := other.file, line := other.line, function := other.function,
    _level := other._level, expression := other.expression,
    message := other.message }

/-- The accessor `m.level()`: the text of the level. -/
def LogMessage.level (m : LogMessage) : String := m._level.text

/-- The constructor `FatalMessage(const LogMessage&, int signal_id)`. -/
def FatalMessage.create (m : LogMessage) (signal_id : Int) : FatalMessage :=
  { toLogMessage := m.copy, _signal_id := signal_id }

/-- The eight arguments of one call of `saveMessage`. -/
structure SaveArgs where
  entry : String
  file : String
  line : Int
  function : String
  level : LEVELS
  boolean_expression : String
  fatal_signal : Int
  stack_trace : String
deriving DecidableEq, Repr

/-- The values a `std::function<void(void)>` pre-fatal hook takes in this
development: the empty function object (the value of the global before the
first `setFatalPreLoggingHook`; calling it throws `std::bad_function_call`),
the built-in no-op, a user callback that returns without calling into the
logger (identified by a number), and a user callback that itself makes a log
call with the given arguments. -/
inductive Hook where
  | empty
  | g_pre_fatal_hook_that_does_nothing
  | callback (id : Nat)
  | logs (call : SaveArgs)
deriving DecidableEq, Repr

/-- The values of the fatal-dispatch function pointer: the default
`pushFatalMessageToLogger`, a replacement that throws (the unit-test mock) and
a replacement that returns. -/
inductive FatalHandler where
  | pushFatalMessageToLogger
  | mock_throws (id : Nat)
  | mock_returns (id : Nat)
deriving DecidableEq, Repr

/-- A closure in the FIFO of a worker. -/
inductive Job where
  | bgSave (msg : LogMessage)
  | bgFatal (msg : FatalMessage)
  | addSink (sink : Nat)
  | clearSinks
deriving DecidableEq, Repr

/-- The state of one `LogWorker`: the FIFO of its background thread (`_bg`,
head of the list is the next job) and the sink registry (`_sinks`). -/
structure LogWorker where
  _bg : List Job
  _sinks : List Nat
deriving DecidableEq, Repr

/-- How the process was terminated. -/
inductive ExitCall where
  | exit_failure
  | exitWithDefaultSignalHandler (level : LEVELS) (signal_id : Int)
deriving DecidableEq, Repr

/-- How a call on a producer thread ends. -/
inductive Outcome where
  | returned
  | threw
  | parked
  | exited
deriving DecidableEq, Repr

/-- One invocation of a pre-fatal hook, with what the hook could observe: the
hook installed and the recursive-fatal counter at that moment. -/
structure HookCall where
  hook : Hook
  installed : Hook
  counter : Nat
deriving DecidableEq, Repr

/-- The process: the globals of g3log.cpp, the workers (a non-null
`LogWorker*` is a number), stderr, and the ghost traces. -/
structure World where
  FLAGS_minloglevel : Int
  clock : Nat
  thread_id : Nat
  g_initialize_flag : Bool
  g_logger_instance : Option Nat
  g_first_unintialized_msg : Option LogMessage
  g_set_first_uninitialized_flag : Bool
  g_save_first_unintialized_flag : Bool
  g_fatal_pre_logging_hook : Hook
  g_fatal_hook_recursive_counter : Nat
  first_stack_trace : Option String
  g_fatal_to_g3logworker_function_ptr : FatalHandler
  workers : Nat → LogWorker
  stderr : String
  sends : List (Nat × LogMessage)
  hook_calls : List HookCall
  fatal_calls : List (FatalHandler × FatalMessage)
  exit_call : Option ExitCall

/-- Collaborators that are declared outside the sources at hand. -/
structure Externals where
  /-- The predicate `g3::internal::wasFatal` of loglevels. -/
  wasFatal : LEVELS → Bool
  /-- The rendering `LogMessage::toString`. -/
  toString : LogMessage → String
  /-- The text `FatalMessage::reason`. -/
  reason : FatalMessage → String
  /-- The expansion of `__FILE__` in g3log.cpp. -/
  source_file : String

/-- Replace the state of worker `k`. -/
def World.setWorker (w : World) (k : Nat) (v : LogWorker) : World :=
  { w with workers := fun j => if j = k then v else w.workers j }

/-- Modelled from the spec: `Active::send` (active.hpp is not among the
sources), the unbounded FIFO of closures of the background worker: a
submission is appended at the tail. -/
def Active.send (k : Nat) (job : Job) (w : World) : World :=
  w.setWorker k { w.workers k with _bg := (w.workers k)._bg ++ [job] }

/-- Modelled from the spec: `SinkWrapper::send` (sinkwrapper.hpp is not among
the sources): the sink takes ownership of the record; the ghost trace `sends`
notes which sink was handed which record. -/
def SinkWrapper.send (sink : Nat) (msg : LogMessage) (w : World) : World :=
  { w with sends := w.sends ++ [(sink, msg)] }

/-- Writing `s` to `std::cerr`. -/
def World.cerr (w : World) (s : String) : World :=
  { w with stderr := w.stderr ++ s }

/-- Modelled from the spec: `exitWithDefaultSignalHandler` (crashhandler is not
among the sources) terminates the process and does not return. -/
def internal.exitWithDefaultSignalHandler (level : LEVELS) (signal_id : Int)
    (w : World) : World :=
  { w with exit_call := some (ExitCall.exitWithDefaultSignalHandler level signal_id) }

/-- The sink-side view: the records handed to `sink`, oldest first. -/
def receipts (sink : Nat) (sends : List (Nat × LogMessage)) : List LogMessage :=
  (sends.filter (fun p => p.1 == sink)).map (fun p => p.2)

/-! ## logworker.cpp -/

/-- The loop `for (auto& sink : _sinks) ... sink->send(copy of msg)`. -/
def fanOut (sinks : List Nat) (uniqueMsg : LogMessage) (w : World) : World :=
  sinks.foldl (fun acc sink => SinkWrapper.send sink (LogMessage.copy uniqueMsg) acc) w

/-- The method `LogWorkerImpl::bgSave` of worker `self`. -/
def LogWorkerImpl.bgSave (x : Externals) (self : Nat) (msgPtr : LogMessage)
    (w : World) : World :=
  let uniqueMsg := msgPtr
  let w1 := fanOut (w.workers self)._sinks uniqueMsg w
  if (w1.workers self)._sinks.isEmpty then
    w1.cerr (("g3logworker has no sinks. Message: [" ++ x.toString uniqueMsg) ++ "]\n")
  else w1

/-- The function `g3::internal::shutDownLogging`. -/
def internal.shutDownLogging (w : World) : World :=
  { w with g_logger_instance := none }

/-- The method `LogWorkerImpl::bgFatal` of worker `self`. -/
def LogWorkerImpl.bgFatal (x : Externals) (self : Nat) (msgPtr : FatalMessage)
    (w : World) : World :=
  let w1 := internal.shutDownLogging w
  let reason := x.reason msgPtr
  let level := msgPtr._level
  let fatal_id := msgPtr._signal_id
  let uniqueMsg := msgPtr.toLogMessage
  let uniqueMsg := (uniqueMsg.append "\nExiting after fatal event  (").append uniqueMsg.level
  let exiting := "Fatal type: "
  let uniqueMsg := ((((uniqueMsg.append "). ").append exiting).append " ").append reason).append
    "\nLog content flushed sucessfully to sink\n\n"
  let w2 := w1.cerr (x.toString uniqueMsg)
  let w3 := fanOut (w2.workers self)._sinks uniqueMsg w2
  let w4 := w3.setWorker self { w3.workers self with _sinks := [] }
  internal.exitWithDefaultSignalHandler level fatal_id w4

/-- The method `LogWorker::save`: enqueue the closure that calls `bgSave`. -/
def LogWorker.save (self : Nat) (msg : LogMessage) (w : World) : World :=
  Active.send self (Job.bgSave msg) w

/-- The method `LogWorker::fatal`: enqueue the closure that calls `bgFatal`. -/
def LogWorker.fatal (self : Nat) (fatal_message : FatalMessage) (w : World) : World :=
  Active.send self (Job.bgFatal fatal_message) w

/-- Run one closure on the background thread of worker `self`. -/
def Job.run (x : Externals) (self : Nat) (job : Job) (w : World) : World :=
  match job with
  | Job.bgSave msg => LogWorkerImpl.bgSave x self msg w
  | Job.bgFatal msg => LogWorkerImpl.bgFatal x self msg w
  | Job.addSink sink =>
      w.setWorker self { w.workers self with _sinks := (w.workers self)._sinks ++ [sink] }
  | Job.clearSinks => w.setWorker self { w.workers self with _sinks := [] }

/-- One turn of the background thread of worker `self`: nothing happens once
the process has exited or while the FIFO is empty, otherwise the job at the
head is removed and run. -/
def LogWorker.step (x : Externals) (self : Nat) (w : World) : World :=
  match w.exit_call with
  | some _ => w
  | none =>
    match (w.workers self)._bg with
    | [] => w
    | job :: rest => Job.run x self job (w.setWorker self { w.workers self with _bg := rest })

/-- The background thread of worker `self` taking `n` turns. -/
def LogWorker.steps (x : Externals) (self : Nat) : Nat → World → World
  | 0, w => w
  | n + 1, w => LogWorker.steps x self n (LogWorker.step x self w)

/-- The background thread of worker `self` running until every job that is in
the FIFO now has had its turn. -/
def LogWorker.drain (x : Externals) (self : Nat) (w : World) : World :=
  LogWorker.steps x self (w.workers self)._bg.length w

/-! ## g3log.cpp -/

/-- The function `g3::setFatalPreLoggingHook`. -/
def setFatalPreLoggingHook (pre_fatal_hook : Hook) (w : World) : World :=
  { w with g_fatal_pre_logging_hook := pre_fatal_hook }

/-- The function `g3::setFatalExitHandler`. -/
def setFatalExitHandler (fatal_call : FatalHandler) (w : World) : World :=
  { w with g_fatal_to_g3logworker_function_ptr := fatal_call }

/-- The function `g3::internal::isLoggingInitialized`. -/
def internal.isLoggingInitialized (w : World) : Bool :=
  w.g_logger_instance != none

/-- The stream manipulator `std::boolalpha`. -/
def boolalpha (b : Bool) : String := if b then "true" else "false"

/-- The text `exitMsg` assembled by `initializeLogging` before `std::exit`. -/
def initializeLogging.exitMsg (x : Externals) (bgworker : Option Nat) (w : World) : String :=
  ((((((((x.source_file ++ "->") ++ "initializeLogging") ++ ":") ++ "111") ++ "\n")
    ++ "\tFatal exit due to illegal initialization of g3::LogWorker\n")
    ++ ("\t(due to multiple initializations? : " ++ boolalpha (internal.isLoggingInitialized w)))
    ++ (", due to nullptr == bgworker? : " ++ boolalpha (bgworker == none))) ++ ")"

/-- The function `g3::initializeLogging`; `bgworker = none` is the null pointer.
The test `isLoggingInitialized() || nullptr == bgworker` is taken by cases on
the pointer; the two `std::call_once` flags are the booleans
`g_initialize_flag` (crash handler installed) and
`g_save_first_unintialized_flag`. -/
def initializeLogging (x : Externals) (bgworker : Option Nat) (w : World) : World × Outcome :=
  let w := { w with g_initialize_flag := true }
  match bgworker with
  | none =>
      (({ w.cerr (initializeLogging.exitMsg x bgworker w ++ "\n") with
          exit_call := some ExitCall.exit_failure }), Outcome.exited)
  | some k =>
    if internal.isLoggingInitialized w then
      (({ w.cerr (initializeLogging.exitMsg x bgworker w ++ "\n") with
          exit_call := some ExitCall.exit_failure }), Outcome.exited)
    else
      let w :=
        if w.g_save_first_unintialized_flag then w
        else
          let w := { w with g_save_first_unintialized_flag := true }
          match w.g_first_unintialized_msg with
          | some m => LogWorker.save k m { w with g_first_unintialized_msg := none }
          | none => w
      let w := { w with g_logger_instance := some k }
      let w := setFatalPreLoggingHook Hook.g_pre_fatal_hook_that_does_nothing w
      ({ w with g_fatal_hook_recursive_counter := 0 }, Outcome.returned)

/-- The function `g3::internal::pushMessageToLogger`. -/
def internal.pushMessageToLogger (incoming : LogMessage) (w : World) : World :=
  if !internal.isLoggingInitialized w then
    if w.g_set_first_uninitialized_flag then w
    else
      let w := { w with g_set_first_uninitialized_flag := true }
      let err := "LOGGER NOT INITIALIZED:\n\t\t" ++ incoming.message
      let stored := { incoming with message := "" ++ err }
      let w := { w with g_first_unintialized_msg := some stored }
      w.cerr (stored.message ++ "\n")
  else
    match w.g_logger_instance with
    | some k => LogWorker.save k incoming w
    | none => w

/-- The function `g3::internal::pushFatalMessageToLogger`. After the fatal
closure is enqueued the caller sleeps while `shouldBlockForFatalHandling()`
holds (crashhandler is not among the sources; by the specification the thread
stays parked until the process exits). -/
def internal.pushFatalMessageToLogger (x : Externals) (message : FatalMessage)
    (w : World) : World × Outcome :=
  match w.g_logger_instance with
  | none =>
      let error := ((("FATAL CALL but logger is NOT initialized\n" ++ "CAUSE: ")
        ++ x.reason message) ++ "\nMessage: \n") ++ x.toString message.toLogMessage
      (internal.exitWithDefaultSignalHandler message._level message._signal_id (w.cerr error),
        Outcome.exited)
  | some k => (LogWorker.fatal k message w, Outcome.parked)

/-- The function `g3::internal::fatalCall`: call through the fatal-dispatch
function pointer; the ghost trace `fatal_calls` notes the call. -/
def internal.fatalCall (x : Externals) (message : FatalMessage) (w : World) : World × Outcome :=
  let handler := w.g_fatal_to_g3logworker_function_ptr
  let w := { w with fatal_calls := w.fatal_calls ++ [(handler, message)] }
  match handler with
  | FatalHandler.pushFatalMessageToLogger => internal.pushFatalMessageToLogger x message w
  | FatalHandler.mock_throws _ => (w, Outcome.threw)
  | FatalHandler.mock_returns _ => (w, Outcome.returned)

/-- The call `hook()` of a pre-fatal hook; `log` is what a log call made from
inside the hook does. The empty function object throws, the no-op and a
callback return. -/
def Hook.invoke (log : SaveArgs → World → Option (World × Outcome)) :
    Hook → World → Option (World × Outcome)
  | Hook.empty, w => some (w, Outcome.threw)
  | Hook.g_pre_fatal_hook_that_does_nothing, w => some (w, Outcome.returned)
  | Hook.callback _, w => some (w, Outcome.returned)
  | Hook.logs c, w => log c w

/-- The text appended to a fatal record when the recursive-fatal counter exceeds one. -/
def recursiveCrashBanner (first_stack_trace : String) : String :=
  (("\n\n\nWARNING\nA recursive crash detected. It is likely the hook set with 'setFatalPreLoggingHook(...)' is responsible\n\n"
    ++ "---First crash stacktrace: ") ++ first_stack_trace) ++ "\n---End of first stacktrace\n"

/-- The function `g3::internal::saveMessage`. The first argument bounds the
nesting of log calls made from inside a pre-fatal hook; `none` means the bound
was reached. -/
def internal.saveMessage : Nat → Externals → String → String → Int → String → LEVELS →
    String → Int → String → World → Option (World × Outcome)
  | 0, _, _, _, _, _, _, _, _, _, _ => none
  | fuel + 1, x, entry, file, line, function, level, boolean_expression, fatal_signal,
      stack_trace, w =>
    if level.value < w.FLAGS_minloglevel then some (w, Outcome.returned)
    else
      let msgLevel := level
      let message := LogMessage.create w.clock w.thread_id file line function msgLevel
      let message := message.append entry
      let message := message.setExpression boolean_expression
      if x.wasFatal level then
        let fatalhook := w.g_fatal_pre_logging_hook
        let w := setFatalPreLoggingHook Hook.g_pre_fatal_hook_that_does_nothing w
        let w := { w with g_fatal_hook_recursive_counter := w.g_fatal_hook_recursive_counter + 1 }
        let w := { w with first_stack_trace := some (w.first_stack_trace.getD stack_trace) }
        let w := { w with hook_calls := w.hook_calls ++
          [HookCall.mk fatalhook w.g_fatal_pre_logging_hook w.g_fatal_hook_recursive_counter] }
        let called : Option (World × Outcome) :=
          Hook.invoke (fun c w => internal.saveMessage fuel x c.entry c.file c.line c.function
            c.level c.boolean_expression c.fatal_signal c.stack_trace w) fatalhook w
        match called with
        | none => none
        | some (w, Outcome.returned) =>
            let message := message.append stack_trace
            let message :=
              if w.g_fatal_hook_recursive_counter > 1 then
                message.append (recursiveCrashBanner (w.first_stack_trace.getD ""))
              else message
            let fatal_message := FatalMessage.create message fatal_signal
            some (internal.fatalCall x fatal_message w)
        | some (w, o) => some (w, o)
      else some (internal.pushMessageToLogger message w, Outcome.returned)

/-! ## Observers used in the statements -/

/-- The trace of sends of one fan-out of `msg` over `sinks`. -/
def fanTrace (sinks : List Nat) (msg : LogMessage) : List (Nat × LogMessage) :=
  sinks.map (fun s => (s, msg))

/-- A sink appending `s` to the body of the record of delivery number `i`. -/
def mutateDelivery : Nat → String → List (Nat × LogMessage) → List (Nat × LogMessage)
  | _, _, [] => []
  | 0, s, d :: ds => (d.1, d.2.append s) :: ds
  | i + 1, s, d :: ds => d :: mutateDelivery i s ds

/-- The traces of sends of the fan-outs of `msgs`, one after the other. -/
def fanTraces (sinks : List Nat) : List LogMessage → List (Nat × LogMessage)
  | [] => []
  | m :: ms => fanTrace sinks m ++ fanTraces sinks ms

/-- What happens next in a run with one producer thread and the background
thread of the current worker: the producer submits a record through
`pushMessageToLogger`, or the background thread takes one turn. -/
inductive Event where
  | submit (msg : LogMessage)
  | turn
deriving DecidableEq, Repr

/-- The effect of one event; `k` is the worker whose thread takes the turns. -/
def Event.run (x : Externals) (k : Nat) : Event → World → World
  | Event.submit msg, w => internal.pushMessageToLogger msg w
  | Event.turn, w => LogWorker.step x k w

/-- The effect of a schedule, first event first. -/
def runSchedule (x : Externals) (k : Nat) : List Event → World → World
  | [], w => w
  | e :: es, w => runSchedule x k es (Event.run x k e w)

/-- The records the producer submits in a schedule, in submission order. -/
def submitted : List Event → List LogMessage
  | [] => []
  | Event.submit msg :: es => msg :: submitted es
  | Event.turn :: es => submitted es

/-- The record `bgFatal` hands to the sinks: the fatal record with the exit
banner appended to its body. -/
def fatalExitRecord (x : Externals) (m : FatalMessage) : LogMessage :=
  { m.toLogMessage with
    message := m.message ++ ("\nExiting after fatal event  (" ++ (m._level.text ++
      ("). Fatal type:  " ++ (x.reason m ++
        "\nLog content flushed sucessfully to sink\n\n")))) }

/-- The process is running, the current worker is `k`, the FIFO of `k` holds the
save closures of the records `Q` (oldest first) followed by the jobs `tail`,
and the registry of `k` is `S`. -/
structure Serving (k : Nat) (S : List Nat) (Q : List LogMessage) (tail : List Job)
    (w : World) : Prop where
  running : w.exit_call = none
  current : w.g_logger_instance = some k
  queue : (w.workers k)._bg = Q.map Job.bgSave ++ tail
  sinks : (w.workers k)._sinks = S

/-! ## Sample inputs for the worked examples -/

/-- A sample level below the fatal cutoff of `sampleExternals`. -/
def sampleINFO : LEVELS := { value := 0, text := "INFO" }

/-- A sample level at the fatal cutoff of `sampleExternals`. -/
def sampleFATAL : LEVELS := { value := 3, text := "FATAL" }

/-- Sample collaborators: levels with value at least 3 are fatal, a record is
rendered as its level text, a blank and its body. -/
def sampleExternals : Externals :=
  { wasFatal := fun l => decide (3 ≤ l.value)
    toString := fun m => (m._level.text ++ " ") ++ m.message
    reason := fun m => m._level.text
    source_file := "g3log.cpp" }

/-- The process at start-up: no logger, nothing stashed, the hook an empty
function object, the default fatal dispatch, threshold 0; worker 0 has the
registry `sinks`, every FIFO is empty. -/
def startWorld (sinks : List Nat) : World :=
  { FLAGS_minloglevel := 0
    clock := 0
    thread_id := 0
    g_initialize_flag := false
    g_logger_instance := none
    g_first_unintialized_msg := none
    g_set_first_uninitialized_flag := false
    g_save_first_unintialized_flag := false
    g_fatal_pre_logging_hook := Hook.empty
    g_fatal_hook_recursive_counter := 0
    first_stack_trace := none
    g_fatal_to_g3logworker_function_ptr := FatalHandler.pushFatalMessageToLogger
    workers := fun k => if k = 0 then { _bg := [], _sinks := sinks } else { _bg := [], _sinks := [] }
    stderr := ""
    sends := []
    hook_calls := []
    fatal_calls := []
    exit_call := none }

/-- The process after `initializeLogging` with worker 0, which has the sinks 1 and 2. -/
def sampleWorld : World := (initializeLogging sampleExternals (some 0) (startWorld [1, 2])).1

/-- A sample record with the given body. -/
def sampleRecord (body : String) : LogMessage :=
  (LogMessage.create 0 0 "main.cpp" 10 "main" sampleINFO).append body

/-- A sample fatal record: body "boom" at the sample fatal level, signal 6. -/
def sampleFatalMessage : FatalMessage :=
  FatalMessage.create
    ((LogMessage.create 0 0 "main.cpp" 20 "main" sampleFATAL).append "boom") 6

/-- The invocation of hook `h` returns to `saveMessage` without itself taking
the fatal path: `h` is the no-op or a callback, or the log call it makes is
below the threshold `minloglevel` or at a level that is not fatal. -/
def Hook.returnsOffFatalPath (x : Externals) (minloglevel : Int) : Hook → Bool
  | Hook.empty => false
  | Hook.g_pre_fatal_hook_that_does_nothing => true
  | Hook.callback _ => true
  | Hook.logs c => decide (c.level.value < minloglevel) || !x.wasFatal c.level

/-- The sample process with the threshold raised above the sample fatal level. -/
def highThresholdWorld : World := { sampleWorld with FLAGS_minloglevel := 4 }

/-- The arguments of a fatal check made from inside a pre-fatal hook. -/
def hookCheck : SaveArgs :=
  { entry := "inner", file := "hook.cpp", line := 5, function := "hook", level := sampleFATAL,
    boolean_expression := "false", fatal_signal := 0, stack_trace := "trace-inner" }

/-- The sample process after `setFatalPreLoggingHook` with a hook that makes the
fatal check `hookCheck`. -/
def loggingHookWorld : World := setFatalPreLoggingHook (Hook.logs hookCheck) sampleWorld

/-- The record kept in the first-uninitialized cell for the submission `m`: its
body is replaced by the marker, a newline and two tabs, then the old body. -/
def stashed (m : LogMessage) : LogMessage :=
  { m with message := "LOGGER NOT INITIALIZED:\n\t\t" ++ m.message }

/-- A sequence of submissions through `pushMessageToLogger`, first one first. -/
def pushAll : List LogMessage → World → World
  | [], w => w
  | m :: ms, w => pushAll ms (internal.pushMessageToLogger m w)

/-! ## The lifecycle of the global logger slot -/

/-- Collaborators of a log capture that are declared outside the sources at hand. -/
structure CaptureExternals where
  /-- The predicate `g3::logLevel` of loglevels. -/
  logLevel : LEVELS → World → Bool
  /-- The level `WARNING` of loglevels, which `G3LOG_WARNING` stands for. -/
  G3LOG_WARNING : LEVELS
  /-- The signal id a `LogCapture` built without one hands to `saveMessage`. -/
  fatal_signal : Int
  /-- The stack trace such a `LogCapture` hands to `saveMessage`. -/
  stack_trace : String
  /-- The expansion of `__PRETTY_FUNCTION__` in `shutDownLoggingForActiveOnly`. -/
  pretty_function : String

/-- Modelled from the spec: the statement `LOG(level) << text`, that is the
macro `LOG` of g3log.hpp with the capture scope `LogCapture` (logcapture.hpp is
not among the sources). Nothing happens when `logLevel(level)` is false;
otherwise the capture scope is built from the site metadata and at scope exit
hands the accumulated text to `saveMessage`, with an empty boolean expression. -/
def LOG (fuel : Nat) (x : Externals) (cx : CaptureExternals) (file : String) (line : Int)
    (function : String) (level : LEVELS) (text : String) (w : World) :
    Option (World × Outcome) :=
  if !cx.logLevel level w then some (w, Outcome.returned)
  else internal.saveMessage fuel x text file line function level "" cx.fatal_signal
    cx.stack_trace w

/-- The text streamed into the warning of `shutDownLoggingForActiveOnly`. -/
def wrongWorkerWarning : String :=
  "\n\t\tAttempted to shut down logging, but the ID of the Logger is not the one that is active."
    ++ ("\n\t\tHaving multiple instances of the g3::LogWorker is likely a BUG"
    ++ ("\n\t\tEither way, this call to shutDownLogging was ignored"
    ++ "\n\t\tTry g3::internal::shutDownLogging() instead"))

/-- The function `g3::internal::shutDownLoggingForActiveOnly`; the third
component of the result is the value returned, when the call returns. -/
def internal.shutDownLoggingForActiveOnly (fuel : Nat) (x : Externals) (cx : CaptureExternals)
    (active : Option Nat) (w : World) : Option (World × Outcome × Option Bool) :=
  if internal.isLoggingInitialized w && active != none && active != w.g_logger_instance then
    match LOG fuel x cx x.source_file 187 cx.pretty_function cx.G3LOG_WARNING
        wrongWorkerWarning w with
    | none => none
    | some (w', Outcome.returned) => some (w', Outcome.returned, some false)
    | some (w', o) => some (w', o, none)
  else some (internal.shutDownLogging w, Outcome.returned, some true)

/-- A call of one of the three functions that write the global logger slot. -/
inductive LifecycleCall where
  | initializeLogging (bgworker : Option Nat)
  | shutDownLogging
  | shutDownLoggingForActiveOnly (active : Option Nat)
deriving DecidableEq, Repr

/-- The effect of one lifecycle call. -/
def LifecycleCall.run (fuel : Nat) (x : Externals) (cx : CaptureExternals) :
    LifecycleCall → World → Option (World × Outcome)
  | LifecycleCall.initializeLogging bgworker, w => some (g3.initializeLogging x bgworker w)
  | LifecycleCall.shutDownLogging, w => some (g3.internal.shutDownLogging w, Outcome.returned)
  | LifecycleCall.shutDownLoggingForActiveOnly active, w =>
      (g3.internal.shutDownLoggingForActiveOnly fuel x cx active w).map (fun r => (r.1, r.2.1))

/-- The values of the global logger slot along a sequence of lifecycle calls:
the value before the first call, then the value after each call; the first
call that does not return is the last one of the sequence. -/
def slotHistory (fuel : Nat) (x : Externals) (cx : CaptureExternals) :
    List LifecycleCall → World → List (Option Nat)
  | [], w => [w.g_logger_instance]
  | c :: cs, w =>
      w.g_logger_instance ::
        (match c.run fuel x cx w with
          | some (w', Outcome.returned) => slotHistory fuel x cx cs w'
          | some (w', _) => [w'.g_logger_instance]
          | none => [])

/-- The steps of the slot the code allows: it stays, it is set from null, or it
is cleared; it never goes from one worker to another in one step. -/
def SlotStep (s s' : Option Nat) : Prop := s' = s ∨ s = none ∨ s' = none

/-- Sample capture collaborators: every level is enabled, WARNING has value 1. -/
def sampleCapture : CaptureExternals :=
  { logLevel := fun _ _ => true
    G3LOG_WARNING := { value := 1, text := "WARNING" }
    fatal_signal := 6
    stack_trace := ""
    pretty_function := "bool g3::internal::shutDownLoggingForActiveOnly(g3::LogWorker*)" }

/-- What a log call leaves alone: the global logger slot, the threshold, the
fatal-dispatch function and a first stack trace once it is stored; the
recursive-fatal counter does not go down. -/
structure SaveFrame (w w' : World) : Prop where
  slot : w'.g_logger_instance = w.g_logger_instance
  threshold : w'.FLAGS_minloglevel = w.FLAGS_minloglevel
  handler : w'.g_fatal_to_g3logworker_function_ptr = w.g_fatal_to_g3logworker_function_ptr
  first : ∀ t, w.first_stack_trace = some t → w'.first_stack_trace = some t
  counter : w.g_fatal_hook_recursive_counter ≤ w'.g_fatal_hook_recursive_counter

/-- The sample process with the threshold raised above the sample WARNING level. -/
def quietWorld : World := { sampleWorld with FLAGS_minloglevel := 2 }

/-! ## Observers of the fatal path of saveMessage -/

/-- The state at the moment `saveMessage` calls the pre-fatal hook: the no-op
is installed, the recursive-fatal counter is incremented, the first stack
trace is stored if none was, and the ghost trace notes the call. -/
def internal.saveMessage.atHook (stack_trace : String) (w : World) : World :=
  { w with
    g_fatal_pre_logging_hook := Hook.g_pre_fatal_hook_that_does_nothing
    g_fatal_hook_recursive_counter := w.g_fatal_hook_recursive_counter + 1
    first_stack_trace := some (w.first_stack_trace.getD stack_trace)
    hook_calls := w.hook_calls ++ [HookCall.mk w.g_fatal_pre_logging_hook
      Hook.g_pre_fatal_hook_that_does_nothing (w.g_fatal_hook_recursive_counter + 1)] }

/-- The call `fatalhook()` made by `saveMessage` in state `w`; a log call made
from inside the hook runs with nesting bound `fuel`. -/
def internal.saveMessage.hookCall (fuel : Nat) (x : Externals) (stack_trace : String)
    (w : World) : Option (World × Outcome) :=
  Hook.invoke (fun c v => internal.saveMessage fuel x c.entry c.file c.line c.function
    c.level c.boolean_expression c.fatal_signal c.stack_trace v)
    w.g_fatal_pre_logging_hook (internal.saveMessage.atHook stack_trace w)

/-- The fatal record `saveMessage` builds once the hook has returned in state
`wn`, for a call made in state `w`. -/
def internal.saveMessage.fatalRecord (entry file : String) (line : Int) (function : String)
    (level : LEVELS) (boolean_expression : String) (fatal_signal : Int) (stack_trace : String)
    (w wn : World) : FatalMessage :=
  FatalMessage.create
    (if wn.g_fatal_hook_recursive_counter > 1 then
      ((((LogMessage.create w.clock w.thread_id file line function level).append
        entry).setExpression boolean_expression).append stack_trace).append
          (recursiveCrashBanner (wn.first_stack_trace.getD ""))
    else (((LogMessage.create w.clock w.thread_id file line function level).append
        entry).setExpression boolean_expression).append stack_trace) fatal_signal

/-- The sample process with a hook that makes a fatal check and a fatal
dispatch that returns. -/
def returningDispatchWorld : World :=
  setFatalExitHandler (FatalHandler.mock_returns 1) loggingHookWorld

/-! ## The comparison checks of g3log.hpp and g3log.cpp -/

/-- The text `os << v` inserts for an `int` with the default stream flags:
decimal digits, with a minus sign for a negative value. -/
def decimal (v : Int) : String := toString v

/-- The class `CheckOpMessageBuilder`: the text in its `std::ostringstream`. -/
structure CheckOpMessageBuilder where
  stream_ : String
deriving DecidableEq, Repr

/-- The constructor `CheckOpMessageBuilder(exprtext)`: inserts the text and ` (`. -/
def CheckOpMessageBuilder.create (exprtext : String) : CheckOpMessageBuilder :=
  { stream_ := ("" ++ exprtext) ++ " (" }

/-- The method `ForVar1`: the stream, for inserting the first variable. -/
def CheckOpMessageBuilder.ForVar1 (comb : CheckOpMessageBuilder) : CheckOpMessageBuilder :=
  comb

/-- The method `ForVar2`: inserts ` vs. ` and gives the stream. -/
def CheckOpMessageBuilder.ForVar2 (comb : CheckOpMessageBuilder) : CheckOpMessageBuilder :=
  { stream_ := comb.stream_ ++ " vs. " }

/-- The method `NewString`: inserts `)` and gives the text of the stream. -/
def CheckOpMessageBuilder.NewString (comb : CheckOpMessageBuilder) : String :=
  comb.stream_ ++ ")"

/-- The primary template `MakeCheckOpValueString(os, v)`, at type `int`:
`(*os) << v`. -/
def MakeCheckOpValueString (os : CheckOpMessageBuilder) (v : Int) : CheckOpMessageBuilder :=
  { stream_ := os.stream_ ++ decimal v }

/-- The template `MakeCheckOpString(v1, v2, exprtext)`, at type `int`. -/
def MakeCheckOpString (v1 v2 : Int) (exprtext : String) : String :=
  let comb := CheckOpMessageBuilder.create exprtext
  let comb := MakeCheckOpValueString comb.ForVar1 v1
  let comb := MakeCheckOpValueString comb.ForVar2 v2
  comb.NewString

/-- The macro `DEFINE_CHECK_OP_IMPL(name, op)`, at type `int`: the body of
`name##Impl`; `none` is the `NULL` result. -/
def DEFINE_CHECK_OP_IMPL (op : Int → Int → Bool) (v1 v2 : Int) (exprtext : String) :
    Option String :=
  if op v1 v2 then none else some (MakeCheckOpString v1 v2 exprtext)

/-- The function of `DEFINE_CHECK_OP_IMPL(Check_EQ, ==)`. -/
def Check_EQImpl : Int → Int → String → Option String :=
  DEFINE_CHECK_OP_IMPL (fun v1 v2 => decide (v1 = v2))

/-- The function of `DEFINE_CHECK_OP_IMPL(Check_NE, !=)`. -/
def Check_NEImpl : Int → Int → String → Option String :=
  DEFINE_CHECK_OP_IMPL (fun v1 v2 => decide (v1 ≠ v2))

/-- The function of `DEFINE_CHECK_OP_IMPL(Check_LE, <=)`. -/
def Check_LEImpl : Int → Int → String → Option String :=
  DEFINE_CHECK_OP_IMPL (fun v1 v2 => decide (v1 ≤ v2))

/-- The function of `DEFINE_CHECK_OP_IMPL(Check_LT, < )`. -/
def Check_LTImpl : Int → Int → String → Option String :=
  DEFINE_CHECK_OP_IMPL (fun v1 v2 => decide (v1 < v2))

/-- The function of `DEFINE_CHECK_OP_IMPL(Check_GE, >=)`. -/
def Check_GEImpl : Int → Int → String → Option String :=
  DEFINE_CHECK_OP_IMPL (fun v1 v2 => decide (v1 ≥ v2))

/-- The function of `DEFINE_CHECK_OP_IMPL(Check_GT, > )`. -/
def Check_GTImpl : Int → Int → String → Option String :=
  DEFINE_CHECK_OP_IMPL (fun v1 v2 => decide (v1 > v2))

/-- The third argument the macro `CHECK_OP_LOG` builds: the source text of the
first operand, the operator and the second operand, joined by blanks. -/
def CHECK_OP_LOG.exprtext (val1 op val2 : String) : String :=
  val1 ++ (" " ++ (op ++ (" " ++ val2)))

/-- The condition of the loop of `CHECK_EQ(val1, val2)`: the result of
`Check_EQImpl`; the fatal capture is entered when it is not `NULL`. The first
two arguments are the source texts of the operands. -/
def CHECK_EQ (text1 text2 : String) (val1 val2 : Int) : Option String :=
  Check_EQImpl val1 val2 (CHECK_OP_LOG.exprtext text1 "==" text2)

/-- The conversion `(short)v`. -/
def toShort (v : Int) : Int := (v + 32768) % 65536 - 32768

/-- The conversion `(unsigned short)v`. -/
def toUnsignedShort (v : Int) : Int := v % 65536

/-- The text `os << v` inserts for a value of a character type: the character. -/
def characterOf (v : Int) : String := String.singleton (Char.ofNat (v % 256).toNat)

/-- The specialization of `MakeCheckOpValueString` for `char`. -/
def MakeCheckOpValueString.char (os : String) (v : Int) : String :=
  if v ≥ 32 ∧ v ≤ 126 then ((os ++ "'") ++ characterOf v) ++ "'"
  else (os ++ "char value ") ++ decimal (toShort v)

/-- The specialization of `MakeCheckOpValueString` for `signed char`. -/
def MakeCheckOpValueString.signed_char (os : String) (v : Int) : String :=
  if v ≥ 32 ∧ v ≤ 126 then ((os ++ "'") ++ characterOf v) ++ "'"
  else (os ++ "signed char value ") ++ decimal (toShort v)

/-- The specialization of `MakeCheckOpValueString` for `unsigned char`. -/
def MakeCheckOpValueString.unsigned_char (os : String) (v : Int) : String :=
  if v ≥ 32 ∧ v ≤ 126 then ((os ++ "'") ++ characterOf v) ++ "'"
  else (os ++ "unsigned char value ") ++ decimal (toUnsignedShort v)

/-- A `const char*` that is not null: where it points and the characters up to
the terminating zero. The null pointer is `none` of `Option CString`. -/
structure CString where
  addr : Nat
  chars : String
deriving DecidableEq, Repr

/-- The comparison loop of the C library functions `strcmp` and `strcasecmp`
(`fold` is the identity, or the lower-casing of the latter): zero when both
strings end together, else the sign of the first difference. -/
def strcmpLoop (fold : Char → Char) : List Char → List Char → Int
  | [], [] => 0
  | [], _ :: _ => -1
  | _ :: _, [] => 1
  | a :: as, b :: bs =>
      if fold a = fold b then strcmpLoop fold as bs
      else if (fold a).toNat < (fold b).toNat then -1 else 1

/-- The C library function `strcmp`. -/
def strcmp (s1 s2 : String) : Int := strcmpLoop id s1.data s2.data

/-- The C library function `strcasecmp`. -/
def strcasecmp (s1 s2 : String) : Int := strcmpLoop Char.toLower s1.data s2.data

/-- The pointer comparison `s1 == s2`. -/
def CString.ptrEq : Option CString → Option CString → Bool
  | none, none => true
  | some a, some b => a.addr == b.addr
  | _, _ => false

/-- What `ss << s` inserts for the pointer after `if (!s) s = ""`. -/
def CString.printed : Option CString → String
  | none => ""
  | some a => a.chars

/-- The macro `DEFINE_CHECK_STROP_IMPL(name, func, expected)`: the body of
`Check##func##expected##Impl`; `none` is the `NULL` result. -/
def DEFINE_CHECK_STROP_IMPL (name : String) (func : String → String → Int) (expected : Bool)
    (s1 s2 : Option CString) (names : String) : Option String :=
  let equal := CString.ptrEq s1 s2 ||
    (match s1, s2 with
      | some a, some b => func a.chars b.chars == 0
      | _, _ => false)
  if equal == expected then none
  else
    some (((((((name ++ " failed: ") ++ names) ++ " (") ++ CString.printed s1) ++ " vs. ")
      ++ CString.printed s2) ++ ")")

/-- The function of `DEFINE_CHECK_STROP_IMPL(CHECK_STREQ, strcmp, true)`. -/
def CheckstrcmptrueImpl : Option CString → Option CString → String → Option String :=
  DEFINE_CHECK_STROP_IMPL "CHECK_STREQ" strcmp true

/-- The function of `DEFINE_CHECK_STROP_IMPL(CHECK_STRNE, strcmp, false)`. -/
def CheckstrcmpfalseImpl : Option CString → Option CString → String → Option String :=
  DEFINE_CHECK_STROP_IMPL "CHECK_STRNE" strcmp false

/-- The function of `DEFINE_CHECK_STROP_IMPL(CHECK_STRCASEEQ, strcasecmp, true)`. -/
def CheckstrcasecmptrueImpl : Option CString → Option CString → String → Option String :=
  DEFINE_CHECK_STROP_IMPL "CHECK_STRCASEEQ" strcasecmp true

/-- The function of `DEFINE_CHECK_STROP_IMPL(CHECK_STRCASENE, strcasecmp, false)`. -/
def CheckstrcasecmpfalseImpl : Option CString → Option CString → String → Option String :=
  DEFINE_CHECK_STROP_IMPL "CHECK_STRCASENE" strcasecmp false

/-- The null pointer of a `const char*` operand replaced by a pointer to the
empty string (at the address `addr`). -/
def CString.nullAsEmpty (addr : Nat) : Option CString → Option CString
  | none => some { addr := addr, chars := "" }
  | some a => some a

/-- The comparison a string check makes, as a relation of its operands: two
null pointers are equal, a null pointer and a string are not, two strings are
equal when `func` gives zero for their characters. -/
def operandsEqual (func : String → String → Int) : Option CString → Option CString → Bool
  | none, none => true
  | some a, some b => func a.chars b.chars == 0
  | _, _ => false

/-- A process in which a user hook is installed and the recursive-fatal counter
stands at 5, with no logger initialized. -/
def usedWorld : World :=
  { startWorld [1, 2] with
    g_fatal_pre_logging_hook := Hook.callback 7
    g_fatal_hook_recursive_counter := 5 }

/-- The sample process after `setFatalPreLoggingHook` with a user callback. -/
def callbackHookWorld : World := setFatalPreLoggingHook (Hook.callback 7) sampleWorld

/-! ## filesinkhelper.ipp -/

/-- The constant `file_name_time_formatted`. -/
def internal.file_name_time_formatted : String := "%Y%m%d-%H%M%S"

/-- The method `std::string::find_first_of(chars, 0)`: the first position that
holds one of `chars`; `none` is `npos`. -/
def find_first_of (chars : List Char) : List Char → Option Nat
  | [] => none
  | c :: cs => if c ∈ chars then some 0 else (find_first_of chars cs).map (fun i => i + 1)

/-- The local `illegal_characters` of `isValidFilename`. -/
def internal.isValidFilename.illegal_characters : String :=
  "/,|<>:#$%\x7b\x7d[]\x27\x22^!?+* "

/-- The function `g3::internal::isValidFilename`: the value returned and the
text written to `std::cerr`. -/
def internal.isValidFilename (prefix_filename : String) : Bool × String :=
  match find_first_of internal.isValidFilename.illegal_characters.data prefix_filename.data with
  | some pos =>
      (false, ((((("Illegal character [" ++ String.singleton (prefix_filename.data.getD pos ' '))
        ++ "] in logname prefix: ") ++ "[") ++ prefix_filename) ++ "]") ++ "\n")
  | none =>
      if prefix_filename.data.isEmpty then (false, "Empty filename prefix is not allowed" ++ "\n")
      else (true, "")

/-- The C library function `isspace` in the C locale: the space and the
characters 9 to 13 (tab, newline, vertical tab, form feed, carriage return). -/
def isspace (c : Char) : Bool := c.toNat == 32 || (decide (9 ≤ c.toNat) && decide (c.toNat ≤ 13))

/-- The idiom `s.erase(std::remove_if(s.begin(), s.end(), pred), s.end())`. -/
def erase_remove_if (pred : Char → Bool) (s : String) : String :=
  String.mk (s.data.filter (fun c => !pred c))

/-- The idiom `s.erase(std::remove(s.begin(), s.end(), value), s.end())`. -/
def erase_remove (value : Char) (s : String) : String :=
  String.mk (s.data.filter (fun c => !(c == value)))

/-- The function `g3::internal::prefixSanityFix`: the value returned and the
text written to `std::cerr`. -/
def internal.prefixSanityFix (prefix_name : String) : String × String :=
  let prefix_name := erase_remove_if isspace prefix_name
  let prefix_name := erase_remove '/' prefix_name
  let prefix_name := erase_remove '\\' prefix_name
  let prefix_name := erase_remove ':' prefix_name
  let valid := internal.isValidFilename prefix_name
  if !valid.1 then ("", valid.2) else (prefix_name, valid.2)

/-- The algorithm `std::replace(s.begin(), s.end(), old_value, new_value)`. -/
def std_replace (old_value new_value : Char) (s : List Char) : List Char :=
  s.map (fun c => if c = old_value then new_value else c)

/-- The lambda `contains_end` of `pathSanityFix`. -/
def internal.pathSanityFix.contains_end (s : List Char) : Bool :=
  match s.getLast? with
  | none => false
  | some last => last == '/' || last == ' '

/-- The loop `while (contains_end(path)) path.erase(path.size() - 1)`; the
first argument bounds the number of rounds. -/
def internal.pathSanityFix.loop : Nat → List Char → List Char
  | 0, path => path
  | fuel + 1, path =>
      if internal.pathSanityFix.contains_end path then
        internal.pathSanityFix.loop fuel path.dropLast
      else path

/-- The function `g3::internal::pathSanityFix`; the loop gets one round for
every character of the path. -/
def internal.pathSanityFix (path file_name : String) : String :=
  let path := std_replace '\\' '/' path.data
  let path := internal.pathSanityFix.loop path.length path
  let path := if !path.isEmpty then path ++ ['/'] else path
  String.mk (path ++ file_name.data)

/-- The function `g3::internal::createLogFileName`. The clock read by
`std::chrono::system_clock::now()` is `now`; `localtime_formatted` is declared
outside the sources at hand. -/
def internal.createLogFileName (localtime_formatted : Nat → String → String) (now : Nat)
    (verified_name logger_id : String) : String :=
  let oss_name := ("" ++ verified_name) ++ "."
  let oss_name := if logger_id != "" then (oss_name ++ logger_id) ++ "." else oss_name
  let oss_name := oss_name ++ localtime_formatted now internal.file_name_time_formatted
  oss_name ++ ".log"

/-- Follows the spec's words: the characters a prefix keeps when every
whitespace character, `/`, `\` and `:` is removed. -/
def strippedPrefix (p : String) : String :=
  String.mk (p.data.filter (fun c => !(isspace c || c == '/' || c == '\\' || c == ':')))

/-- Follows the spec's words: a string that is not empty and has none of the
characters of the illegal set. -/
def acceptablePrefix (s : String) : Prop :=
  s ≠ "" ∧ ∀ c ∈ s.data,
    c ∉ ['/', ',', '|', '<', '>', ':', '#', '$', '%', '\x7b', '\x7d', '[', ']', '\x27', '\x22',
      '^', '!', '?', '+', '*', ' ']

instance acceptablePrefix.decidable (s : String) : Decidable (acceptablePrefix s) := by
  unfold acceptablePrefix
  exact inferInstance

/-- Follows the spec's words: the path with every backslash replaced by `/` and
then all trailing `/` and space characters removed. -/
def trimmedDirectory (path : String) : List Char :=
  ((std_replace '\\' '/' path.data).reverse.dropWhile (fun c => c == '/' || c == ' ')).reverse

/-- A sample time formatter for the worked examples: the clock value in decimal. -/
def sampleFormatter (now : Nat) (_format : String) : String := toString now

/-! ## LOG_EVERY_N (g3log.hpp) -/

/-- The value an `int` holds after an arithmetic result `v` is stored in it:
`int` has 32 bits, and a result outside `-2147483648 .. 2147483647`, for which
C++ defines no behaviour, wraps around as two's-complement hardware does. -/
def wrapInt32 (v : Int) : Int := (v + 2147483648) % 4294967296 - 2147483648

/-- The two `static int` counters that one `LOG_EVERY_N` statement declares. -/
structure LogEveryNStatics where
  LOG_OCCURRENCES : Int
  LOG_OCCURRENCES_MOD_N : Int
deriving DecidableEq, Repr

/-- The initializers `LOG_OCCURRENCES = 0, LOG_OCCURRENCES_MOD_N = 0`. -/
def LogEveryNStatics.initial : LogEveryNStatics :=
  { LOG_OCCURRENCES := 0, LOG_OCCURRENCES_MOD_N := 0 }

/-- The macro `SOME_KIND_OF_LOG_EVERY_N(level, n, what_to_do)`, one execution:
the counters afterwards and whether `INTERNAL_LOG_MESSAGE(level)` was
reached, which opens a log capture. -/
def SOME_KIND_OF_LOG_EVERY_N (n : Int) (s : LogEveryNStatics) : LogEveryNStatics × Bool :=
  let LOG_OCCURRENCES := wrapInt32 (s.LOG_OCCURRENCES + 1)
  let LOG_OCCURRENCES_MOD_N := wrapInt32 (s.LOG_OCCURRENCES_MOD_N + 1)
  let LOG_OCCURRENCES_MOD_N :=
    if LOG_OCCURRENCES_MOD_N > n then wrapInt32 (LOG_OCCURRENCES_MOD_N - n)
    else LOG_OCCURRENCES_MOD_N
  ({ LOG_OCCURRENCES := LOG_OCCURRENCES, LOG_OCCURRENCES_MOD_N := LOG_OCCURRENCES_MOD_N },
    LOG_OCCURRENCES_MOD_N == 1)

/-- The macro `LOG_EVERY_N(level, n)` executed `k` times from program start: the
counters after the `k`-th execution and whether that execution opened a log
capture. -/
def LOG_EVERY_N : Int → Nat → LogEveryNStatics × Bool
  | _, 0 => (LogEveryNStatics.initial, false)
  | n, k + 1 => SOME_KIND_OF_LOG_EVERY_N n (LOG_EVERY_N n k).1

/-! ## Basic facts -/

theorem LogMessage.copy_eq (m : LogMessage) : m.copy = m := rfl

theorem fanOut_eq (sinks : List Nat) (m : LogMessage) (w : World) :
    fanOut sinks m w = { w with sends := w.sends ++ fanTrace sinks m } := by
  induction sinks generalizing w with
  | nil => simp [fanOut, fanTrace]
  | cons s rest ih =>
    have h := ih (SinkWrapper.send s m.copy w)
    simp only [fanOut, List.foldl_cons] at h ⊢
    rw [h]
    simp [SinkWrapper.send, fanTrace, LogMessage.copy_eq]

theorem mutateDelivery_other (i j : Nat) (s : String) (ds : List (Nat × LogMessage))
    (h : i ≠ j) : (mutateDelivery i s ds)[j]? = ds[j]? := by
  induction ds generalizing i j with
  | nil => simp [mutateDelivery]
  | cons d rest ih =>
    cases i with
    | zero =>
      cases j with
      | zero => exact absurd rfl h
      | succ j => simp [mutateDelivery]
    | succ i =>
      cases j with
      | zero => simp [mutateDelivery]
      | succ j =>
        simp only [mutateDelivery, List.getElem?_cons_succ]
        exact ih i j (fun e => h (by rw [e]))

theorem bgSave_sends (x : Externals) (self : Nat) (R : LogMessage) (w : World) :
    (LogWorkerImpl.bgSave x self R w).sends = w.sends ++ fanTrace (w.workers self)._sinks R := by
  unfold LogWorkerImpl.bgSave
  simp only [fanOut_eq]
  split <;> simp [World.cerr]

theorem bgSave_workers (x : Externals) (self : Nat) (R : LogMessage) (w : World) :
    (LogWorkerImpl.bgSave x self R w).workers = w.workers := by
  unfold LogWorkerImpl.bgSave
  simp only [fanOut_eq]
  split <;> simp [World.cerr]

/-- C1. Fan-out completeness: `bgSave` of worker `self` with record `R` adds to
the trace of sends exactly one send per registered sink, in registry order,
each of a record equal to `R`; the deliveries are separate values (a sink that
appends to the body of delivery `i` changes no other delivery `j`); and the
workers, hence the registry, are left as they were. -/
theorem bgSave_fan_out_complete (x : Externals) (self : Nat) (R : LogMessage) (w : World) :
    (LogWorkerImpl.bgSave x self R w).sends
        = w.sends ++ (w.workers self)._sinks.map (fun s => (s, R))
    ∧ ((LogWorkerImpl.bgSave x self R w).sends.drop w.sends.length).length
        = (w.workers self)._sinks.length
    ∧ (∀ i : Fin (w.workers self)._sinks.length,
        ((LogWorkerImpl.bgSave x self R w).sends.drop w.sends.length)[i.val]?
          = some ((w.workers self)._sinks.get i, R))
    ∧ (∀ (i j : Nat) (s : String), i ≠ j →
        (mutateDelivery i s ((LogWorkerImpl.bgSave x self R w).sends.drop w.sends.length))[j]?
          = ((LogWorkerImpl.bgSave x self R w).sends.drop w.sends.length)[j]?)
    ∧ ((LogWorkerImpl.bgSave x self R w).workers self)._sinks = (w.workers self)._sinks
    ∧ (LogWorkerImpl.bgSave x self R w).workers = w.workers := by
  have hs := bgSave_sends x self R w
  have hw := bgSave_workers x self R w
  have hd : (LogWorkerImpl.bgSave x self R w).sends.drop w.sends.length
      = (w.workers self)._sinks.map (fun s => (s, R)) := by
    rw [hs]; simp [fanTrace]
  refine ⟨hs, ?_, ?_, ?_, ?_, hw⟩
  · rw [hd]; simp
  · intro i
    rw [hd]
    simp [List.getElem?_map, List.getElem?_eq_getElem i.isLt]
  · intro i j s hij
    exact mutateDelivery_other i j s _ hij
  · rw [hw]

/-! ## The FIFO invariant -/

theorem fanTraces_append (S : List Nat) (a b : List LogMessage) :
    fanTraces S (a ++ b) = fanTraces S a ++ fanTraces S b := by
  induction a with
  | nil => simp [fanTraces]
  | cons m ms ih => simp [fanTraces, ih]

theorem receipts_append (s : Nat) (a b : List (Nat × LogMessage)) :
    receipts s (a ++ b) = receipts s a ++ receipts s b := by
  simp [receipts]

theorem receipts_fanTrace (s : Nat) (S : List Nat) (m : LogMessage)
    (hn : S.Nodup) (hs : s ∈ S) : receipts s (fanTrace S m) = [m] := by
  induction S with
  | nil => simp at hs
  | cons a rest ih =>
    rw [List.nodup_cons] at hn
    by_cases h : a = s
    · subst h
      have : receipts a (fanTrace rest m) = [] := by
        simp only [receipts, fanTrace, List.map_eq_nil_iff, List.filter_eq_nil_iff]
        intro p hp
        simp only [List.mem_map] at hp
        obtain ⟨b, hb, rfl⟩ := hp
        simp only [beq_iff_eq]
        intro e
        exact hn.1 (e ▸ hb)
      have h2 : receipts a (fanTrace (a :: rest) m) = m :: receipts a (fanTrace rest m) := by
        simp [receipts, fanTrace]
      rw [h2, this]
    · have hs2 : s ∈ rest := by
        rcases List.mem_cons.mp hs with e | e
        · exact absurd e.symm h
        · exact e
      have h2 : receipts s (fanTrace (a :: rest) m) = receipts s (fanTrace rest m) := by
        simp [receipts, fanTrace, h]
      rw [h2, ih hn.2 hs2]

theorem receipts_fanTraces (s : Nat) (S : List Nat) (ms : List LogMessage)
    (hn : S.Nodup) (hs : s ∈ S) : receipts s (fanTraces S ms) = ms := by
  induction ms with
  | nil => simp [fanTraces, receipts]
  | cons m rest ih =>
    simp only [fanTraces, receipts_append, receipts_fanTrace s S m hn hs, ih]
    rfl

theorem serving_submit {k : Nat} {S : List Nat} {Q : List LogMessage} {w : World}
    (h : Serving k S Q [] w) (m : LogMessage) :
    Serving k S (Q ++ [m]) [] (internal.pushMessageToLogger m w)
    ∧ (internal.pushMessageToLogger m w).sends = w.sends := by
  obtain ⟨h1, h2, h3, h4⟩ := h
  have e : internal.pushMessageToLogger m w = LogWorker.save k m w := by
    simp [internal.pushMessageToLogger, internal.isLoggingInitialized, h2]
  rw [e]
  refine ⟨⟨?_, ?_, ?_, ?_⟩, ?_⟩ <;>
    simp [LogWorker.save, Active.send, World.setWorker, h1, h2, h3, h4]

theorem serving_turn_nil (x : Externals) {k : Nat} {S : List Nat} {w : World}
    (h : Serving k S [] [] w) : LogWorker.step x k w = w := by
  obtain ⟨h1, _, h3, _⟩ := h
  simp only [List.map_nil, List.append_nil] at h3
  simp [LogWorker.step, h1, h3]

theorem serving_turn_cons (x : Externals) {k : Nat} {S : List Nat} {m : LogMessage}
    {Q : List LogMessage} {tail : List Job} {w : World} (h : Serving k S (m :: Q) tail w) :
    Serving k S Q tail (LogWorker.step x k w)
    ∧ (LogWorker.step x k w).sends = w.sends ++ fanTrace S m := by
  obtain ⟨h1, h2, h3, h4⟩ := h
  simp only [List.map_cons, List.cons_append] at h3
  have e : LogWorker.step x k w
      = LogWorkerImpl.bgSave x k m
          (w.setWorker k { w.workers k with _bg := Q.map Job.bgSave ++ tail }) := by
    simp [LogWorker.step, h1, h3, Job.run]
  rw [e]
  refine ⟨⟨?_, ?_, ?_, ?_⟩, ?_⟩
  · unfold LogWorkerImpl.bgSave
    simp only [fanOut_eq]
    split <;> simp [World.cerr, World.setWorker, h1]
  · unfold LogWorkerImpl.bgSave
    simp only [fanOut_eq]
    split <;> simp [World.cerr, World.setWorker, h2]
  · rw [bgSave_workers]; simp [World.setWorker]
  · rw [bgSave_workers]; simp [World.setWorker, h4]
  · rw [bgSave_sends]; simp [World.setWorker, h4]

theorem serving_run (x : Externals) (k : Nat) (S : List Nat) (evs : List Event) :
    ∀ (Q : List LogMessage) (w : World), Serving k S Q [] w →
      ∃ Q', Serving k S Q' [] (runSchedule x k evs w)
        ∧ (runSchedule x k evs w).sends ++ fanTraces S Q'
            = w.sends ++ fanTraces S (Q ++ submitted evs) := by
  induction evs with
  | nil => intro Q w h; exact ⟨Q, h, by simp [runSchedule, submitted]⟩
  | cons e es ih =>
    intro Q w h
    cases e with
    | submit m =>
      obtain ⟨h1, h2⟩ := serving_submit h m
      obtain ⟨Q', h3, h4⟩ := ih (Q ++ [m]) _ h1
      refine ⟨Q', h3, ?_⟩
      simp only [runSchedule, Event.run, submitted]
      rw [h4, h2]; simp
    | turn =>
      cases Q with
      | nil =>
        obtain ⟨Q', h3, h4⟩ := ih [] _ h
        refine ⟨Q', ?_, ?_⟩
        · simp only [runSchedule, Event.run]; rw [serving_turn_nil x h]; exact h3
        · simp only [runSchedule, Event.run, submitted]; rw [serving_turn_nil x h]; exact h4
      | cons m Q =>
        obtain ⟨h1, h2⟩ := serving_turn_cons x h
        obtain ⟨Q', h3, h4⟩ := ih Q _ h1
        refine ⟨Q', h3, ?_⟩
        simp only [runSchedule, Event.run, submitted]
        rw [h4, h2]; simp [fanTraces, fanTraces_append]

theorem serving_steps (x : Externals) (k : Nat) (S : List Nat) (tail : List Job) :
    ∀ (Q : List LogMessage) (w : World), Serving k S Q tail w →
      Serving k S [] tail (LogWorker.steps x k Q.length w)
        ∧ (LogWorker.steps x k Q.length w).sends = w.sends ++ fanTraces S Q := by
  intro Q
  induction Q with
  | nil => intro w h; exact ⟨h, by simp [LogWorker.steps, fanTraces]⟩
  | cons m Q ih =>
    intro w h
    obtain ⟨h1, h2⟩ := serving_turn_cons x h
    obtain ⟨h3, h4⟩ := ih _ h1
    refine ⟨h3, ?_⟩
    simp only [List.length_cons, LogWorker.steps]
    rw [h4, h2]; simp [fanTraces]

theorem serving_drain (x : Externals) (k : Nat) (S : List Nat) (Q : List LogMessage)
    (w : World) (h : Serving k S Q [] w) :
    Serving k S [] [] (LogWorker.drain x k w)
      ∧ (LogWorker.drain x k w).sends = w.sends ++ fanTraces S Q := by
  have e : (w.workers k)._bg.length = Q.length := by rw [h.queue]; simp
  unfold LogWorker.drain
  rw [e]
  exact serving_steps x k S [] Q w h

theorem steps_add (x : Externals) (k : Nat) (a b : Nat) (w : World) :
    LogWorker.steps x k (a + b) w = LogWorker.steps x k b (LogWorker.steps x k a w) := by
  induction a generalizing w with
  | zero => simp [LogWorker.steps]
  | succ a ih =>
    rw [Nat.succ_add]
    simp only [LogWorker.steps]
    exact ih _

/-- C2. Ordering per producer: with the logger initialized with worker `k`, whose
FIFO is empty, for every schedule of submissions by the producer (through
`pushMessageToLogger`, which appends one save closure to the FIFO) and turns
of the background thread, once the background thread has drained the FIFO the
sends added are the fan-outs of the submitted records in submission order, so
every sink of the registry has received exactly the submitted records, in
submission order. -/
theorem ordering_per_producer (x : Externals) (k : Nat) (w : World) (evs : List Event)
    (hrun : w.exit_call = none) (hcur : w.g_logger_instance = some k)
    (hq : (w.workers k)._bg = []) :
    (LogWorker.drain x k (runSchedule x k evs w)).sends
        = w.sends ++ fanTraces (w.workers k)._sinks (submitted evs)
    ∧ ∀ s, s ∈ (w.workers k)._sinks → (w.workers k)._sinks.Nodup →
        receipts s (LogWorker.drain x k (runSchedule x k evs w)).sends
          = receipts s w.sends ++ submitted evs := by
  have h0 : Serving k (w.workers k)._sinks [] [] w := ⟨hrun, hcur, by simp [hq], rfl⟩
  obtain ⟨Q', h1, h2⟩ := serving_run x k _ evs [] w h0
  obtain ⟨_, h4⟩ := serving_drain x k _ Q' _ h1
  have h5 : (LogWorker.drain x k (runSchedule x k evs w)).sends
      = w.sends ++ fanTraces (w.workers k)._sinks (submitted evs) := by
    rw [h4, h2]; simp
  refine ⟨h5, ?_⟩
  intro s hs hn
  rw [h5, receipts_append, receipts_fanTraces s _ _ hn hs]

/-- Witness of C2: bodies "a", "b", "c" submitted, with a turn of the worker in
between, arrive at sink 1 as "a", "b", "c". -/
theorem ordering_per_producer_witness :
    sampleWorld.exit_call = none ∧ sampleWorld.g_logger_instance = some 0
    ∧ (sampleWorld.workers 0)._bg = []
    ∧ receipts 1 (LogWorker.drain sampleExternals 0 (runSchedule sampleExternals 0
        [Event.submit (sampleRecord "a"), Event.turn, Event.submit (sampleRecord "b"),
          Event.submit (sampleRecord "c")] sampleWorld)).sends
      = [sampleRecord "a", sampleRecord "b", sampleRecord "c"] :=
  ⟨rfl, rfl, rfl,
    (ordering_per_producer sampleExternals 0 sampleWorld
      [Event.submit (sampleRecord "a"), Event.turn, Event.submit (sampleRecord "b"),
        Event.submit (sampleRecord "c")] rfl rfl rfl).2 1 (by decide) (by decide)⟩

/-! ## The terminal task -/

theorem bgSave_handler (x : Externals) (k : Nat) (m : LogMessage) (w : World) :
    (LogWorkerImpl.bgSave x k m w).g_fatal_to_g3logworker_function_ptr
      = w.g_fatal_to_g3logworker_function_ptr := by
  unfold LogWorkerImpl.bgSave
  simp only [fanOut_eq]
  split <;> simp [World.cerr]

theorem step_handler (x : Externals) (k : Nat) (w : World) :
    (LogWorker.step x k w).g_fatal_to_g3logworker_function_ptr
      = w.g_fatal_to_g3logworker_function_ptr := by
  unfold LogWorker.step
  split
  · rfl
  · split
    · rfl
    · rename_i job rest _
      cases job with
      | bgSave m => simp [Job.run, bgSave_handler, World.setWorker]
      | bgFatal m =>
        simp [Job.run, LogWorkerImpl.bgFatal, fanOut_eq, World.setWorker, World.cerr,
          internal.exitWithDefaultSignalHandler, internal.shutDownLogging]
      | addSink s => simp [Job.run, World.setWorker]
      | clearSinks => simp [Job.run, World.setWorker]

theorem push_handler (m : LogMessage) (w : World) :
    (internal.pushMessageToLogger m w).g_fatal_to_g3logworker_function_ptr
      = w.g_fatal_to_g3logworker_function_ptr := by
  unfold internal.pushMessageToLogger
  split
  · split <;> simp [World.cerr]
  · split <;> simp [LogWorker.save, Active.send, World.setWorker]

theorem runSchedule_handler (x : Externals) (k : Nat) (evs : List Event) (w : World) :
    (runSchedule x k evs w).g_fatal_to_g3logworker_function_ptr
      = w.g_fatal_to_g3logworker_function_ptr := by
  induction evs generalizing w with
  | nil => rfl
  | cons e es ih =>
    simp only [runSchedule]
    rw [ih]
    cases e with
    | submit m => exact push_handler m w
    | turn => exact step_handler x k w

theorem fatalCall_default {k : Nat} {S : List Nat} {Q : List LogMessage} {w : World}
    (x : Externals) (F : FatalMessage) (h : Serving k S Q [] w)
    (hd : w.g_fatal_to_g3logworker_function_ptr = FatalHandler.pushFatalMessageToLogger) :
    (internal.fatalCall x F w).2 = Outcome.parked
    ∧ Serving k S Q [Job.bgFatal F] (internal.fatalCall x F w).1
    ∧ (internal.fatalCall x F w).1.sends = w.sends := by
  obtain ⟨h1, h2, h3, h4⟩ := h
  simp only [List.append_nil] at h3
  refine ⟨?_, ⟨?_, ?_, ?_, ?_⟩, ?_⟩ <;>
    simp [internal.fatalCall, hd, internal.pushFatalMessageToLogger, h2, LogWorker.fatal,
      Active.send, World.setWorker, h1, h3, h4]

theorem terminal_turn (x : Externals) {k : Nat} {S : List Nat} {F : FatalMessage} {w : World}
    (h : Serving k S [] [Job.bgFatal F] w) :
    (LogWorker.step x k w).exit_call
        = some (ExitCall.exitWithDefaultSignalHandler F._level F._signal_id)
    ∧ (LogWorker.step x k w).sends = w.sends ++ fanTrace S (fatalExitRecord x F) := by
  obtain ⟨h1, _, h3, h4⟩ := h
  simp only [List.map_nil, List.nil_append] at h3
  have e : LogWorker.step x k w
      = LogWorkerImpl.bgFatal x k F (w.setWorker k { w.workers k with _bg := [] }) := by
    simp [LogWorker.step, h1, h3, Job.run]
  rw [e]
  unfold LogWorkerImpl.bgFatal
  simp only [fanOut_eq]
  constructor <;>
    simp [internal.exitWithDefaultSignalHandler, World.setWorker, World.cerr,
      internal.shutDownLogging, h4, LogMessage.append, LogMessage.level, fatalExitRecord,
      String.append_assoc]

/-- C3. Fatal flush: with the logger initialized with worker `k` (empty FIFO) and
the default fatal dispatch installed, after any schedule of submissions and
worker turns the dispatch of the fatal record `F` parks the producer, and when
the background thread has then worked through the FIFO: until its last turn
the process has not exited; in the last turn the exit primitive is called with
the level and signal of `F`; and at that moment the sends added are the
fan-outs of the submitted records in submission order followed by the fan-out
of the fatal record (its body extended by the exit banner), so every sink of
the registry has received the N submitted records in order and then the fatal
record as the last one. -/
theorem fatal_flush (x : Externals) (k : Nat) (w : World) (evs : List Event) (F : FatalMessage)
    (hrun : w.exit_call = none) (hcur : w.g_logger_instance = some k)
    (hq : (w.workers k)._bg = [])
    (hd : w.g_fatal_to_g3logworker_function_ptr = FatalHandler.pushFatalMessageToLogger) :
    (internal.fatalCall x F (runSchedule x k evs w)).2 = Outcome.parked
    ∧ (LogWorker.steps x k
        (((internal.fatalCall x F (runSchedule x k evs w)).1.workers k)._bg.length - 1)
        (internal.fatalCall x F (runSchedule x k evs w)).1).exit_call = none
    ∧ (LogWorker.drain x k (internal.fatalCall x F (runSchedule x k evs w)).1).exit_call
        = some (ExitCall.exitWithDefaultSignalHandler F._level F._signal_id)
    ∧ (LogWorker.drain x k (internal.fatalCall x F (runSchedule x k evs w)).1).sends
        = (w.sends ++ fanTraces (w.workers k)._sinks (submitted evs))
          ++ fanTrace (w.workers k)._sinks (fatalExitRecord x F)
    ∧ ∀ s, s ∈ (w.workers k)._sinks → (w.workers k)._sinks.Nodup →
        receipts s (LogWorker.drain x k (internal.fatalCall x F (runSchedule x k evs w)).1).sends
          = (receipts s w.sends ++ submitted evs) ++ [fatalExitRecord x F] := by
  have h0 : Serving k (w.workers k)._sinks [] [] w := ⟨hrun, hcur, by simp [hq], rfl⟩
  obtain ⟨Q', h1, h2⟩ := serving_run x k _ evs [] w h0
  have hd1 := (runSchedule_handler x k evs w).trans hd
  obtain ⟨h3, h4, h5⟩ := fatalCall_default x F h1 hd1
  have hlen : ((internal.fatalCall x F (runSchedule x k evs w)).1.workers k)._bg.length
      = Q'.length + 1 := by rw [h4.queue]; simp
  obtain ⟨h6, h7⟩ := serving_steps x k _ _ Q' _ h4
  obtain ⟨h8, h9⟩ := terminal_turn x h6
  have hdrain : LogWorker.drain x k (internal.fatalCall x F (runSchedule x k evs w)).1
      = LogWorker.step x k
          (LogWorker.steps x k Q'.length (internal.fatalCall x F (runSchedule x k evs w)).1) := by
    unfold LogWorker.drain
    rw [hlen, steps_add]
    rfl
  have hsends : (LogWorker.drain x k (internal.fatalCall x F (runSchedule x k evs w)).1).sends
      = (w.sends ++ fanTraces (w.workers k)._sinks (submitted evs))
        ++ fanTrace (w.workers k)._sinks (fatalExitRecord x F) := by
    rw [hdrain, h9, h7, h5, h2]; simp
  refine ⟨h3, ?_, ?_, hsends, ?_⟩
  · rw [hlen, Nat.add_sub_cancel]; exact h6.running
  · rw [hdrain]; exact h8
  · intro s hs hn
    rw [hsends, receipts_append, receipts_append, receipts_fanTraces s _ _ hn hs,
      receipts_fanTrace s _ _ hn hs]

/-- Witness of C3: two records, then the fatal one; sink 1 has received three
records at the exit, the fatal record last. -/
theorem fatal_flush_witness :
    sampleWorld.exit_call = none ∧ sampleWorld.g_logger_instance = some 0
    ∧ (sampleWorld.workers 0)._bg = []
    ∧ sampleWorld.g_fatal_to_g3logworker_function_ptr = FatalHandler.pushFatalMessageToLogger
    ∧ receipts 1 (LogWorker.drain sampleExternals 0 (internal.fatalCall sampleExternals
        sampleFatalMessage (runSchedule sampleExternals 0
          [Event.submit (sampleRecord "a"), Event.submit (sampleRecord "b")] sampleWorld)).1).sends
      = [sampleRecord "a", sampleRecord "b", fatalExitRecord sampleExternals sampleFatalMessage] :=
  ⟨rfl, rfl, rfl, rfl,
    (fatal_flush sampleExternals 0 sampleWorld
      [Event.submit (sampleRecord "a"), Event.submit (sampleRecord "b")] sampleFatalMessage
      rfl rfl rfl rfl).2.2.2.2 1 (by decide) (by decide)⟩

/-! ## saveMessage -/

/-- C4. Threshold filter: a call of `saveMessage` whose level value is below
`FLAGS_minloglevel` returns and leaves the whole process state as it was: no
FIFO, not the first-uninitialized cell, not stderr, not the installed hook,
not the trace of hook invocations, not the recursive-fatal counter changes. -/
theorem saveMessage_below_threshold (fuel : Nat) (x : Externals) (entry file : String)
    (line : Int) (function : String) (level : LEVELS) (boolean_expression : String)
    (fatal_signal : Int) (stack_trace : String) (w : World)
    (h : level.value < w.FLAGS_minloglevel) :
    internal.saveMessage (fuel + 1) x entry file line function level boolean_expression
      fatal_signal stack_trace w = some (w, Outcome.returned) := by
  simp [internal.saveMessage, h]

/-- Witness of C4: threshold 3, a record at level 2. -/
theorem saveMessage_below_threshold_witness :
    (2 : Int) < ({ sampleWorld with FLAGS_minloglevel := 3 } : World).FLAGS_minloglevel
    ∧ internal.saveMessage 1 sampleExternals "dropped" "main.cpp" 7 "main"
        { value := 2, text := "ERROR" } "" 0 "" { sampleWorld with FLAGS_minloglevel := 3 }
      = some ({ sampleWorld with FLAGS_minloglevel := 3 }, Outcome.returned) :=
  ⟨by decide, saveMessage_below_threshold 0 sampleExternals "dropped" "main.cpp" 7 "main"
      { value := 2, text := "ERROR" } "" 0 "" { sampleWorld with FLAGS_minloglevel := 3 }
      (by decide)⟩

/-- C5. Non-fatal submission: for a level that is not fatal and not below the
threshold, with the logger initialized with worker `k`, `saveMessage` returns
after `LogWorker::save` of exactly one record on `k`: the FIFO of `k` grows
at its tail by one save closure whose record has body `entry` and the given
file, line, function, level and expression; the other workers, the trace of
fatal-dispatch invocations, the installed hook, the trace of hook invocations
and the recursive-fatal counter are unchanged. -/
theorem saveMessage_non_fatal (fuel : Nat) (x : Externals) (entry file : String)
    (line : Int) (function : String) (level : LEVELS) (boolean_expression : String)
    (fatal_signal : Int) (stack_trace : String) (w : World) (k : Nat)
    (hnf : x.wasFatal level = false) (hthr : w.FLAGS_minloglevel ≤ level.value)
    (hcur : w.g_logger_instance = some k) :
    ∃ w', internal.saveMessage (fuel + 1) x entry file line function level boolean_expression
        fatal_signal stack_trace w = some (w', Outcome.returned)
      ∧ (w'.workers k)._bg = (w.workers k)._bg ++ [Job.bgSave
          { timestamp := w.clock, call_thread_id := w.thread_id, file := file, line := line,
            function := function, _level := level, expression := boolean_expression,
            message := entry }]
      ∧ (w'.workers k)._sinks = (w.workers k)._sinks
      ∧ (∀ j, j ≠ k → w'.workers j = w.workers j)
      ∧ w'.fatal_calls = w.fatal_calls
      ∧ w'.g_fatal_pre_logging_hook = w.g_fatal_pre_logging_hook
      ∧ w'.hook_calls = w.hook_calls
      ∧ w'.g_fatal_hook_recursive_counter = w.g_fatal_hook_recursive_counter
      ∧ w'.sends = w.sends ∧ w'.stderr = w.stderr ∧ w'.exit_call = w.exit_call
      ∧ w'.g_logger_instance = w.g_logger_instance := by
  have hlt : ¬ level.value < w.FLAGS_minloglevel := not_lt.mpr hthr
  refine ⟨LogWorker.save k
    { timestamp := w.clock, call_thread_id := w.thread_id, file := file, line := line,
      function := function, _level := level, expression := boolean_expression,
      message := entry } w, ?_, ?_⟩
  · simp [internal.saveMessage, hlt, hnf, internal.pushMessageToLogger,
      internal.isLoggingInitialized, hcur, LogMessage.create, LogMessage.append,
      LogMessage.setExpression]
  · simp [LogWorker.save, Active.send, World.setWorker]
    intro j hj
    simp [hj]

/-- Witness of C5: the record "hello" at the sample INFO level. -/
theorem saveMessage_non_fatal_witness :
    sampleExternals.wasFatal sampleINFO = false
    ∧ sampleWorld.FLAGS_minloglevel ≤ sampleINFO.value
    ∧ sampleWorld.g_logger_instance = some 0
    ∧ ∃ w', internal.saveMessage 1 sampleExternals "hello" "main.cpp" 10 "main" sampleINFO "" 0 ""
          sampleWorld = some (w', Outcome.returned)
      ∧ (w'.workers 0)._bg = (sampleWorld.workers 0)._bg ++ [Job.bgSave
          { timestamp := sampleWorld.clock, call_thread_id := sampleWorld.thread_id,
            file := "main.cpp", line := 10, function := "main", _level := sampleINFO,
            expression := "", message := "hello" }]
      ∧ (w'.workers 0)._sinks = (sampleWorld.workers 0)._sinks
      ∧ (∀ j, j ≠ 0 → w'.workers j = sampleWorld.workers j)
      ∧ w'.fatal_calls = sampleWorld.fatal_calls
      ∧ w'.g_fatal_pre_logging_hook = sampleWorld.g_fatal_pre_logging_hook
      ∧ w'.hook_calls = sampleWorld.hook_calls
      ∧ w'.g_fatal_hook_recursive_counter = sampleWorld.g_fatal_hook_recursive_counter
      ∧ w'.sends = sampleWorld.sends ∧ w'.stderr = sampleWorld.stderr
      ∧ w'.exit_call = sampleWorld.exit_call
      ∧ w'.g_logger_instance = sampleWorld.g_logger_instance :=
  ⟨rfl, by decide, rfl,
    saveMessage_non_fatal 0 sampleExternals "hello" "main.cpp" 10 "main" sampleINFO "" 0 ""
      sampleWorld 0 rfl (by decide) rfl⟩

theorem push_effects (m : LogMessage) (w : World) :
    (internal.pushMessageToLogger m w).fatal_calls = w.fatal_calls
    ∧ (internal.pushMessageToLogger m w).g_fatal_to_g3logworker_function_ptr
        = w.g_fatal_to_g3logworker_function_ptr
    ∧ (internal.pushMessageToLogger m w).g_fatal_hook_recursive_counter
        = w.g_fatal_hook_recursive_counter
    ∧ (internal.pushMessageToLogger m w).first_stack_trace = w.first_stack_trace
    ∧ (internal.pushMessageToLogger m w).g_fatal_pre_logging_hook = w.g_fatal_pre_logging_hook
    ∧ (internal.pushMessageToLogger m w).hook_calls = w.hook_calls
    ∧ (∀ j m', Job.bgSave m' ∈ ((internal.pushMessageToLogger m w).workers j)._bg →
        Job.bgSave m' ∈ (w.workers j)._bg ∨ m'._level = m._level)
    ∧ (∀ m', (internal.pushMessageToLogger m w).g_first_unintialized_msg = some m' →
        w.g_first_unintialized_msg = some m' ∨ m'._level = m._level) := by
  unfold internal.pushMessageToLogger
  split
  · split
    · exact ⟨rfl, rfl, rfl, rfl, rfl, rfl, fun _ _ h => Or.inl h, fun _ h => Or.inl h⟩
    · refine ⟨rfl, rfl, rfl, rfl, rfl, rfl, fun _ _ h => Or.inl h, ?_⟩
      intro m' e
      right
      simp only [World.cerr, Option.some.injEq] at e
      rw [← e]
  · split
    · rename_i k hk
      refine ⟨rfl, rfl, rfl, rfl, rfl, rfl, ?_, fun _ h => Or.inl h⟩
      simp only [LogWorker.save, Active.send, World.setWorker]
      intro j m' hm
      by_cases hj : j = k
      · simp only [hj, if_true, List.mem_append, List.mem_singleton] at hm
        rcases hm with hm | hm
        · left; rw [hj]; exact hm
        · right; injection hm with e; rw [e]
      · simp only [hj, if_false] at hm
        left; exact hm
    · exact ⟨rfl, rfl, rfl, rfl, rfl, rfl, fun _ _ h => Or.inl h, fun _ h => Or.inl h⟩

theorem fatalCall_effects (x : Externals) (F : FatalMessage) (w : World) :
    (internal.fatalCall x F w).1.fatal_calls
        = w.fatal_calls ++ [(w.g_fatal_to_g3logworker_function_ptr, F)]
    ∧ (∀ j m', Job.bgSave m' ∈ ((internal.fatalCall x F w).1.workers j)._bg →
        Job.bgSave m' ∈ (w.workers j)._bg)
    ∧ (internal.fatalCall x F w).1.g_first_unintialized_msg = w.g_first_unintialized_msg
    ∧ (internal.fatalCall x F w).1.g_fatal_pre_logging_hook = w.g_fatal_pre_logging_hook := by
  unfold internal.fatalCall
  cases hh : w.g_fatal_to_g3logworker_function_ptr with
  | pushFatalMessageToLogger =>
    simp only [internal.pushFatalMessageToLogger]
    cases hk : w.g_logger_instance with
    | none => simp [internal.exitWithDefaultSignalHandler, World.cerr]
    | some k =>
      simp only [LogWorker.fatal, Active.send, World.setWorker, true_and, and_true]
      intro j m' hm
      by_cases hj : j = k
      · simp only [hj, if_true, List.mem_append, List.mem_singleton] at hm
        rcases hm with hm | hm
        · rw [hj]; exact hm
        · exact absurd hm (by simp)
      · simp only [hj, if_false] at hm
        exact hm
  | mock_throws id => simp
  | mock_returns id => simp

theorem hook_invoke_off_fatal_path (fuel : Nat) (x : Externals) (h : Hook) (w : World)
    (hh : h.returnsOffFatalPath x w.FLAGS_minloglevel = true) :
    ∃ wn, Hook.invoke (fun c w => internal.saveMessage (fuel + 1) x c.entry c.file c.line
          c.function c.level c.boolean_expression c.fatal_signal c.stack_trace w) h w
        = some (wn, Outcome.returned)
      ∧ wn.fatal_calls = w.fatal_calls
      ∧ wn.g_fatal_to_g3logworker_function_ptr = w.g_fatal_to_g3logworker_function_ptr
      ∧ wn.g_fatal_hook_recursive_counter = w.g_fatal_hook_recursive_counter
      ∧ wn.first_stack_trace = w.first_stack_trace
      ∧ wn.g_fatal_pre_logging_hook = w.g_fatal_pre_logging_hook
      ∧ wn.hook_calls = w.hook_calls
      ∧ (∀ j m', Job.bgSave m' ∈ (wn.workers j)._bg →
          Job.bgSave m' ∈ (w.workers j)._bg ∨ x.wasFatal m'._level = false)
      ∧ (∀ m', wn.g_first_unintialized_msg = some m' →
          w.g_first_unintialized_msg = some m' ∨ x.wasFatal m'._level = false) := by
  cases h with
  | empty => simp [Hook.returnsOffFatalPath] at hh
  | g_pre_fatal_hook_that_does_nothing =>
    exact ⟨w, rfl, rfl, rfl, rfl, rfl, rfl, rfl, fun _ _ h => Or.inl h, fun _ h => Or.inl h⟩
  | callback id =>
    exact ⟨w, rfl, rfl, rfl, rfl, rfl, rfl, rfl, fun _ _ h => Or.inl h, fun _ h => Or.inl h⟩
  | logs c =>
    by_cases hlt : c.level.value < w.FLAGS_minloglevel
    · refine ⟨w, ?_, rfl, rfl, rfl, rfl, rfl, rfl, fun _ _ h => Or.inl h, fun _ h => Or.inl h⟩
      simp [Hook.invoke, internal.saveMessage, hlt]
    · have hnf : x.wasFatal c.level = false := by
        simpa [Hook.returnsOffFatalPath, hlt] using hh
      obtain ⟨p1, p2, p3, p4, p5, p6, p7, p8⟩ := push_effects
        (((LogMessage.create w.clock w.thread_id c.file c.line c.function c.level).append
          c.entry).setExpression c.boolean_expression) w
      refine ⟨_, ?_, p1, p2, p3, p4, p5, p6, ?_, ?_⟩
      · simp only [Hook.invoke, internal.saveMessage, hlt, if_false, hnf, Bool.false_eq_true]
      · intro j m' hm
        rcases p7 j m' hm with h1 | h1
        · exact Or.inl h1
        · right; rw [h1]; exact hnf
      · intro m' hm
        rcases p8 m' hm with h1 | h1
        · exact Or.inl h1
        · right; rw [h1]; exact hnf

/-- C6 (amended). Fatal routing: a call of `saveMessage` whose level is fatal and
not below the threshold, made while the installed pre-fatal hook returns
without itself taking the fatal path, invokes the installed fatal-dispatch
function exactly once, with a fatal record that carries the given level,
boolean expression and signal id; and the record does not go the non-fatal
way: no save closure with a fatal-level record is added to any FIFO and no
fatal-level record is put in the first-uninitialized cell. -/
theorem saveMessage_fatal_routing (fuel : Nat) (x : Externals) (entry file : String)
    (line : Int) (function : String) (level : LEVELS) (boolean_expression : String)
    (fatal_signal : Int) (stack_trace : String) (w : World)
    (hf : x.wasFatal level = true) (hthr : w.FLAGS_minloglevel ≤ level.value)
    (hh : w.g_fatal_pre_logging_hook.returnsOffFatalPath x w.FLAGS_minloglevel = true) :
    ∃ w' o F, internal.saveMessage (fuel + 2) x entry file line function level
        boolean_expression fatal_signal stack_trace w = some (w', o)
      ∧ w'.fatal_calls = w.fatal_calls ++ [(w.g_fatal_to_g3logworker_function_ptr, F)]
      ∧ F._level = level ∧ F.expression = boolean_expression ∧ F._signal_id = fatal_signal
      ∧ (∀ j m, Job.bgSave m ∈ (w'.workers j)._bg → x.wasFatal m._level = true →
          Job.bgSave m ∈ (w.workers j)._bg)
      ∧ (∀ m, w'.g_first_unintialized_msg = some m → x.wasFatal m._level = true →
          w.g_first_unintialized_msg = some m) := by
  have hlt : ¬ level.value < w.FLAGS_minloglevel := not_lt.mpr hthr
  obtain ⟨wn, hcall, q1, q2, _, _, _, _, q7, q8⟩ := hook_invoke_off_fatal_path fuel x
    w.g_fatal_pre_logging_hook
    { w with
      g_fatal_pre_logging_hook := Hook.g_pre_fatal_hook_that_does_nothing
      g_fatal_hook_recursive_counter := w.g_fatal_hook_recursive_counter + 1
      first_stack_trace := some (w.first_stack_trace.getD stack_trace)
      hook_calls := w.hook_calls ++ [HookCall.mk w.g_fatal_pre_logging_hook
        Hook.g_pre_fatal_hook_that_does_nothing (w.g_fatal_hook_recursive_counter + 1)] } hh
  rw [internal.saveMessage]
  simp only [hlt, if_false, hf, if_true, setFatalPreLoggingHook]
  rw [hcall]
  simp only
  have key : ∀ FF : FatalMessage, FF._level = level → FF.expression = boolean_expression →
      FF._signal_id = fatal_signal →
      ∃ w' o F, some (internal.fatalCall x FF wn) = some (w', o)
        ∧ w'.fatal_calls = w.fatal_calls ++ [(w.g_fatal_to_g3logworker_function_ptr, F)]
        ∧ F._level = level ∧ F.expression = boolean_expression ∧ F._signal_id = fatal_signal
        ∧ (∀ j m, Job.bgSave m ∈ (w'.workers j)._bg → x.wasFatal m._level = true →
            Job.bgSave m ∈ (w.workers j)._bg)
        ∧ (∀ m, w'.g_first_unintialized_msg = some m → x.wasFatal m._level = true →
            w.g_first_unintialized_msg = some m) := by
    intro FF e1 e2 e3
    obtain ⟨r1, r2, r3, _⟩ := fatalCall_effects x FF wn
    refine ⟨(internal.fatalCall x FF wn).1, (internal.fatalCall x FF wn).2, FF, rfl, ?_, e1, e2,
      e3, ?_, ?_⟩
    · rw [r1, q1, q2]
    · intro j m hm hfm
      rcases q7 j m (r2 j m hm) with h1 | h1
      · exact h1
      · rw [h1] at hfm; exact absurd hfm (by simp)
    · intro m hm hfm
      rw [r3] at hm
      rcases q8 m hm with h1 | h1
      · exact h1
      · rw [h1] at hfm; exact absurd hfm (by simp)
  exact key _ (by split <;> rfl) (by split <;> rfl) rfl

/-- C6, counterexample. Three calls of `saveMessage` at the fatal sample level
that do not hand their record to the fatal dispatch: (1) with the threshold at
4 the call returns with the state unchanged, the dispatch is never invoked;
(2) with a pre-fatal hook that itself makes a fatal check, the only record
handed to the dispatch is the one of the hook (file hook.cpp, signal 0), not
the one of the call (file main.cpp, signal 6), and the caller is parked inside
the hook; (3) before initialization the hook is the empty function object, the
call ends with the exception of the hook and the dispatch is never invoked. -/
theorem saveMessage_fatal_routing_counterexample :
    sampleExternals.wasFatal sampleFATAL = true
    ∧ internal.saveMessage 2 sampleExternals "boom" "main.cpp" 20 "main" sampleFATAL "" 6 ""
        highThresholdWorld = some (highThresholdWorld, Outcome.returned)
    ∧ highThresholdWorld.fatal_calls = []
    ∧ (internal.saveMessage 2 sampleExternals "outer" "main.cpp" 20 "main" sampleFATAL "" 6
        "trace-outer" loggingHookWorld).map
          (fun r => (r.1.fatal_calls.map (fun p => (p.2.file, p.2._signal_id)), r.2))
        = some ([("hook.cpp", 0)], Outcome.parked)
    ∧ (internal.saveMessage 2 sampleExternals "boom" "main.cpp" 20 "main" sampleFATAL "" 6 ""
        (startWorld [1, 2])).map (fun r => (r.1.fatal_calls, r.2))
        = some ([], Outcome.threw) := by
  refine ⟨rfl, rfl, rfl, ?_, ?_⟩
  · decide
  · decide

/-- Witness of C6 (amended): a fatal record right after initialization, when the
installed hook is the no-op. -/
theorem saveMessage_fatal_routing_witness :
    sampleExternals.wasFatal sampleFATAL = true
    ∧ sampleWorld.FLAGS_minloglevel ≤ sampleFATAL.value
    ∧ sampleWorld.g_fatal_pre_logging_hook.returnsOffFatalPath sampleExternals
        sampleWorld.FLAGS_minloglevel = true
    ∧ ∃ w' o F, internal.saveMessage 2 sampleExternals "boom" "main.cpp" 20 "main" sampleFATAL
          "1 == 2" 6 "" sampleWorld = some (w', o)
      ∧ w'.fatal_calls
          = sampleWorld.fatal_calls ++ [(sampleWorld.g_fatal_to_g3logworker_function_ptr, F)]
      ∧ F._level = sampleFATAL ∧ F.expression = "1 == 2" ∧ F._signal_id = 6
      ∧ (∀ j m, Job.bgSave m ∈ (w'.workers j)._bg → sampleExternals.wasFatal m._level = true →
          Job.bgSave m ∈ (sampleWorld.workers j)._bg)
      ∧ (∀ m, w'.g_first_unintialized_msg = some m → sampleExternals.wasFatal m._level = true →
          sampleWorld.g_first_unintialized_msg = some m) :=
  ⟨rfl, by decide, rfl,
    saveMessage_fatal_routing 0 sampleExternals "boom" "main.cpp" 20 "main" sampleFATAL
      "1 == 2" 6 "" sampleWorld rfl (by decide) rfl⟩

/-! ## Submissions before initialization -/

theorem push_stash (m : LogMessage) (w : World)
    (hcur : w.g_logger_instance = none) (hflag : w.g_set_first_uninitialized_flag = false) :
    (internal.pushMessageToLogger m w).g_first_unintialized_msg
        = some { m with message := "LOGGER NOT INITIALIZED:\n\t\t" ++ m.message }
    ∧ (internal.pushMessageToLogger m w).stderr
        = w.stderr ++ (("LOGGER NOT INITIALIZED:\n\t\t" ++ m.message) ++ "\n")
    ∧ (internal.pushMessageToLogger m w).workers = w.workers
    ∧ (internal.pushMessageToLogger m w).g_set_first_uninitialized_flag = true
    ∧ (internal.pushMessageToLogger m w).g_logger_instance = none
    ∧ (internal.pushMessageToLogger m w).sends = w.sends := by
  simp [internal.pushMessageToLogger, internal.isLoggingInitialized, hcur, hflag, World.cerr]

/-- C7. Pre-init stash: with no logger initialized and the once-flag of the
first-uninitialized cell not yet used, `pushMessageToLogger m` puts `m` in the
cell with its body rewritten to the marker `LOGGER NOT INITIALIZED:`, a
newline, two tabs and the old body, writes the rewritten body (and the newline
of `std::endl`) to stderr, uses up the once-flag and leaves every worker,
hence every FIFO, as it was. -/
theorem pushMessageToLogger_pre_init_stash (m : LogMessage) (w : World)
    (hcur : w.g_logger_instance = none) (hflag : w.g_set_first_uninitialized_flag = false) :
    (internal.pushMessageToLogger m w).g_first_unintialized_msg
        = some { m with message := "LOGGER NOT INITIALIZED:\n\t\t" ++ m.message }
    ∧ (internal.pushMessageToLogger m w).stderr
        = w.stderr ++ (("LOGGER NOT INITIALIZED:\n\t\t" ++ m.message) ++ "\n")
    ∧ (internal.pushMessageToLogger m w).workers = w.workers
    ∧ (internal.pushMessageToLogger m w).g_set_first_uninitialized_flag = true
    ∧ (internal.pushMessageToLogger m w).g_logger_instance = none
    ∧ (internal.pushMessageToLogger m w).sends = w.sends := by
  simp [internal.pushMessageToLogger, internal.isLoggingInitialized, hcur, hflag, World.cerr]

/-- Witness of C7: the record "early" submitted to the process at start-up. -/
theorem pushMessageToLogger_pre_init_stash_witness :
    (startWorld [1]).g_logger_instance = none
    ∧ (startWorld [1]).g_set_first_uninitialized_flag = false
    ∧ ((internal.pushMessageToLogger (sampleRecord "early") (startWorld [1])).g_first_unintialized_msg.map
        (fun r => r.message) = some "LOGGER NOT INITIALIZED:\n\t\tearly"
      ∧ (internal.pushMessageToLogger (sampleRecord "early") (startWorld [1])).stderr
        = "LOGGER NOT INITIALIZED:\n\t\tearly\n") :=
  ⟨rfl, rfl, by
    have h := pushMessageToLogger_pre_init_stash (sampleRecord "early") (startWorld [1]) rfl rfl
    refine ⟨?_, ?_⟩
    · rw [h.1]; decide
    · rw [h.2.1]; decide⟩

theorem push_dropped (m : LogMessage) (w : World) (hcur : w.g_logger_instance = none)
    (hflag : w.g_set_first_uninitialized_flag = true) :
    internal.pushMessageToLogger m w = w := by
  simp [internal.pushMessageToLogger, internal.isLoggingInitialized, hcur, hflag]

theorem pushAll_dropped (ms : List LogMessage) (w : World) (hcur : w.g_logger_instance = none)
    (hflag : w.g_set_first_uninitialized_flag = true) : pushAll ms w = w := by
  induction ms with
  | nil => rfl
  | cons m rest ih => simp only [pushAll]; rw [push_dropped m w hcur hflag]; exact ih

/-- C8. Pre-init drop: for submissions `m1`, `m2` and any further ones made
through `pushMessageToLogger` while no logger is initialized (starting with
the once-flag of the cell unused), the state after all of them is the state
after the first alone: the cell holds the first record (rewritten), and the
second and every later submission leaves the whole state, hence the cell,
stderr and every FIFO, unchanged. -/
theorem pushMessageToLogger_pre_init_drop (m1 m2 : LogMessage) (rest : List LogMessage)
    (w : World) (hcur : w.g_logger_instance = none)
    (hflag : w.g_set_first_uninitialized_flag = false) :
    pushAll (m1 :: m2 :: rest) w = internal.pushMessageToLogger m1 w
    ∧ (pushAll (m1 :: m2 :: rest) w).g_first_unintialized_msg = some (stashed m1)
    ∧ internal.pushMessageToLogger m2 (internal.pushMessageToLogger m1 w)
        = internal.pushMessageToLogger m1 w
    ∧ (∀ (n : Nat) (m : LogMessage),
        internal.pushMessageToLogger m (pushAll (m1 :: ((m2 :: rest).take n)) w)
          = pushAll (m1 :: ((m2 :: rest).take n)) w)
    ∧ (pushAll (m1 :: m2 :: rest) w).stderr = (internal.pushMessageToLogger m1 w).stderr
    ∧ (pushAll (m1 :: m2 :: rest) w).workers = w.workers := by
  obtain ⟨h1, _, h3, h4, h5, _⟩ := push_stash m1 w hcur hflag
  have hall : ∀ ms, pushAll (m1 :: ms) w = internal.pushMessageToLogger m1 w := by
    intro ms
    simp only [pushAll]
    exact pushAll_dropped ms _ h5 h4
  refine ⟨hall _, ?_, push_dropped m2 _ h5 h4, ?_, ?_, ?_⟩
  · rw [hall, h1]; rfl
  · intro n m
    rw [hall]
    exact push_dropped m _ h5 h4
  · rw [hall]
  · rw [hall, h3]

/-- Witness of C8: "first", "second", "third" before initialization. -/
theorem pushMessageToLogger_pre_init_drop_witness :
    (startWorld [1]).g_logger_instance = none
    ∧ (startWorld [1]).g_set_first_uninitialized_flag = false
    ∧ (pushAll [sampleRecord "first", sampleRecord "second", sampleRecord "third"]
        (startWorld [1])).g_first_unintialized_msg = some (stashed (sampleRecord "first"))
    ∧ (pushAll [sampleRecord "first", sampleRecord "second", sampleRecord "third"]
        (startWorld [1])).stderr = "LOGGER NOT INITIALIZED:\n\t\tfirst\n" :=
  ⟨rfl, rfl,
    (pushMessageToLogger_pre_init_drop (sampleRecord "first") (sampleRecord "second")
      [sampleRecord "third"] (startWorld [1]) rfl rfl).2.1, by decide⟩

theorem initializeLogging_after_stash (x : Externals) (k : Nat) (w : World) (m : LogMessage)
    (hrun : w.exit_call = none) (hcur : w.g_logger_instance = none)
    (hflag : w.g_set_first_uninitialized_flag = false)
    (hsave : w.g_save_first_unintialized_flag = false) (hq : (w.workers k)._bg = []) :
    (initializeLogging x (some k) (internal.pushMessageToLogger m w)).2 = Outcome.returned
    ∧ Serving k (w.workers k)._sinks [stashed m] []
        (initializeLogging x (some k) (internal.pushMessageToLogger m w)).1
    ∧ (initializeLogging x (some k) (internal.pushMessageToLogger m w)).1.sends = w.sends
    ∧ (initializeLogging x (some k)
        (internal.pushMessageToLogger m w)).1.g_first_unintialized_msg = none := by
  refine ⟨?_, ⟨?_, ?_, ?_, ?_⟩, ?_, ?_⟩ <;>
    simp [initializeLogging, internal.pushMessageToLogger, internal.isLoggingInitialized, hcur,
      hflag, hsave, World.cerr, LogWorker.save, Active.send, World.setWorker,
      setFatalPreLoggingHook, hrun, hq, stashed]

/-- C9. Pre-init preservation: when exactly one record `m` was submitted before
any initialization and `initializeLogging` is then called with worker `k`
(empty FIFO), the call returns, the FIFO of `k` holds exactly the save closure
of the stashed record, whose body is the marker `LOGGER NOT INITIALIZED:`, a
newline, two tabs and the body of `m`; so for every later schedule of
submissions and worker turns the sinks of `k` receive the stashed record
first, before the later submissions. When the cell is empty, a successful
initialization leaves every worker, hence every FIFO, as it was. -/
theorem initializeLogging_pre_init_preservation (x : Externals) (k : Nat) (w : World)
    (m : LogMessage) (evs : List Event)
    (hrun : w.exit_call = none) (hcur : w.g_logger_instance = none)
    (hflag : w.g_set_first_uninitialized_flag = false)
    (hsave : w.g_save_first_unintialized_flag = false) (hq : (w.workers k)._bg = []) :
    (initializeLogging x (some k) (internal.pushMessageToLogger m w)).2 = Outcome.returned
    ∧ ((initializeLogging x (some k) (internal.pushMessageToLogger m w)).1.workers k)._bg
        = [Job.bgSave (stashed m)]
    ∧ (stashed m).message = "LOGGER NOT INITIALIZED:\n\t\t" ++ m.message
    ∧ (LogWorker.drain x k (runSchedule x k evs
          (initializeLogging x (some k) (internal.pushMessageToLogger m w)).1)).sends
        = w.sends ++ fanTraces (w.workers k)._sinks (stashed m :: submitted evs)
    ∧ (∀ s, s ∈ (w.workers k)._sinks → (w.workers k)._sinks.Nodup →
        receipts s (LogWorker.drain x k (runSchedule x k evs
          (initializeLogging x (some k) (internal.pushMessageToLogger m w)).1)).sends
          = receipts s w.sends ++ stashed m :: submitted evs)
    ∧ (∀ w0 : World, w0.g_logger_instance = none → w0.g_first_unintialized_msg = none →
        (initializeLogging x (some k) w0).2 = Outcome.returned
        ∧ (initializeLogging x (some k) w0).1.workers = w0.workers) := by
  obtain ⟨h1, h2, h3, _⟩ := initializeLogging_after_stash x k w m hrun hcur hflag hsave hq
  obtain ⟨Q', h5, h6⟩ := serving_run x k _ evs _ _ h2
  obtain ⟨_, h8⟩ := serving_drain x k _ Q' _ h5
  have hsends : (LogWorker.drain x k (runSchedule x k evs
        (initializeLogging x (some k) (internal.pushMessageToLogger m w)).1)).sends
      = w.sends ++ fanTraces (w.workers k)._sinks (stashed m :: submitted evs) := by
    rw [h8, h6, h3]; rfl
  refine ⟨h1, ?_, rfl, hsends, ?_, ?_⟩
  · rw [h2.queue]; rfl
  · intro s hs hn
    rw [hsends, receipts_append, receipts_fanTraces s _ _ hn hs]
  · intro w0 hc hcell
    by_cases hs : w0.g_save_first_unintialized_flag <;>
      simp [initializeLogging, internal.isLoggingInitialized, hc, hcell, hs,
        setFatalPreLoggingHook]

/-- Witness of C9: the record "early" before initialization, then
`initializeLogging` with worker 0: the first record sink 1 receives has the
body `LOGGER NOT INITIALIZED:`, newline, two tabs, `early`. -/
theorem initializeLogging_pre_init_preservation_witness :
    (startWorld [1]).exit_call = none ∧ (startWorld [1]).g_logger_instance = none
    ∧ (startWorld [1]).g_set_first_uninitialized_flag = false
    ∧ (startWorld [1]).g_save_first_unintialized_flag = false
    ∧ ((startWorld [1]).workers 0)._bg = []
    ∧ (receipts 1 (LogWorker.drain sampleExternals 0 (runSchedule sampleExternals 0
          [Event.submit (sampleRecord "later")]
          (initializeLogging sampleExternals (some 0)
            (internal.pushMessageToLogger (sampleRecord "early") (startWorld [1]))).1)).sends).map
        (fun r => r.message) = ["LOGGER NOT INITIALIZED:\n\t\tearly", "later"] :=
  ⟨rfl, rfl, rfl, rfl, rfl, by
    rw [(initializeLogging_pre_init_preservation sampleExternals 0 (startWorld [1])
      (sampleRecord "early") [Event.submit (sampleRecord "later")] rfl rfl rfl rfl rfl).2.2.2.2.1
      1 (by decide) (by decide)]
    decide⟩

/-! ## Illegal initialization -/

/-- C10. Illegal initialization: `initializeLogging` called while a logger is
initialized, or with the null pointer, writes its message to stderr and ends
the process through `std::exit(EXIT_FAILURE)`; in every other case it returns
with the global logger slot set to the given worker, writes nothing to stderr
and does not end the process. -/
theorem initializeLogging_illegal (x : Externals) (bgworker : Option Nat) (w : World) :
    ((internal.isLoggingInitialized w = true ∨ bgworker = none) →
        (initializeLogging x bgworker w).2 = Outcome.exited
        ∧ (initializeLogging x bgworker w).1.exit_call = some ExitCall.exit_failure
        ∧ (initializeLogging x bgworker w).1.stderr
            = w.stderr ++ (initializeLogging.exitMsg x bgworker w ++ "\n")
        ∧ (initializeLogging x bgworker w).1.g_logger_instance = w.g_logger_instance)
    ∧ (¬ (internal.isLoggingInitialized w = true ∨ bgworker = none) →
        (initializeLogging x bgworker w).2 = Outcome.returned
        ∧ (initializeLogging x bgworker w).1.g_logger_instance = bgworker
        ∧ (initializeLogging x bgworker w).1.exit_call = w.exit_call
        ∧ (initializeLogging x bgworker w).1.stderr = w.stderr)
    ∧ ((initializeLogging x bgworker w).2 = Outcome.exited
        ↔ (internal.isLoggingInitialized w = true ∨ bgworker = none)) := by
  cases bgworker with
  | none =>
    simp [initializeLogging, World.cerr, initializeLogging.exitMsg,
      internal.isLoggingInitialized]
  | some k =>
    cases hc : w.g_logger_instance with
    | some j =>
      simp [initializeLogging, World.cerr, initializeLogging.exitMsg,
        internal.isLoggingInitialized, hc]
    | none =>
      have hstep : ∀ v : World, v.g_logger_instance = none →
          (initializeLogging x (some k) v).2 = Outcome.returned
          ∧ (initializeLogging x (some k) v).1.g_logger_instance = some k
          ∧ (initializeLogging x (some k) v).1.exit_call = v.exit_call
          ∧ (initializeLogging x (some k) v).1.stderr = v.stderr := by
        intro v hv
        cases hs : v.g_save_first_unintialized_flag <;>
          cases hm : v.g_first_unintialized_msg <;>
          simp [initializeLogging, internal.isLoggingInitialized, hv, hs, hm,
            setFatalPreLoggingHook, LogWorker.save, Active.send, World.setWorker]
      have h := hstep w hc
      simp [internal.isLoggingInitialized, hc, h]

/-! ## The bound on nested log calls is never reached -/

theorem saveMessage_leaf_hook (fuel : Nat) (x : Externals) (entry file : String)
    (line : Int) (function : String) (level : LEVELS) (boolean_expression : String)
    (fatal_signal : Int) (stack_trace : String) (w : World)
    (hh : ∀ c, w.g_fatal_pre_logging_hook ≠ Hook.logs c) :
    internal.saveMessage (fuel + 1) x entry file line function level boolean_expression
        fatal_signal stack_trace w
      = internal.saveMessage 1 x entry file line function level boolean_expression
        fatal_signal stack_trace w
    ∧ (internal.saveMessage 1 x entry file line function level boolean_expression
        fatal_signal stack_trace w).isSome = true := by
  rw [internal.saveMessage, internal.saveMessage]
  by_cases hlt : level.value < w.FLAGS_minloglevel
  · simp [hlt]
  · cases hf : x.wasFatal level
    · simp [hlt, hf]
    · cases hk : w.g_fatal_pre_logging_hook with
      | logs c => exact absurd hk (hh c)
      | empty => simp [hlt, hf, hk, Hook.invoke]
      | g_pre_fatal_hook_that_does_nothing => simp [hlt, hf, hk, Hook.invoke]
      | callback id => simp [hlt, hf, hk, Hook.invoke]

theorem saveMessage_fuel (fuel : Nat) (x : Externals) (entry file : String)
    (line : Int) (function : String) (level : LEVELS) (boolean_expression : String)
    (fatal_signal : Int) (stack_trace : String) (w : World) :
    internal.saveMessage (fuel + 2) x entry file line function level boolean_expression
        fatal_signal stack_trace w
      = internal.saveMessage 2 x entry file line function level boolean_expression
        fatal_signal stack_trace w
    ∧ (internal.saveMessage 2 x entry file line function level boolean_expression
        fatal_signal stack_trace w).isSome = true := by
  rw [internal.saveMessage, internal.saveMessage]
  by_cases hlt : level.value < w.FLAGS_minloglevel
  · simp [hlt]
  · cases hf : x.wasFatal level
    · simp [hlt, hf]
    · cases hk : w.g_fatal_pre_logging_hook with
      | empty => simp [hlt, hf, hk, Hook.invoke]
      | g_pre_fatal_hook_that_does_nothing => simp [hlt, hf, hk, Hook.invoke]
      | callback id => simp [hlt, hf, hk, Hook.invoke]
      | logs c =>
        simp only [hlt, if_false, if_true, Hook.invoke, setFatalPreLoggingHook]
        obtain ⟨h1, h2⟩ := saveMessage_leaf_hook fuel x c.entry c.file c.line c.function c.level
          c.boolean_expression c.fatal_signal c.stack_trace
          { w with
            g_fatal_pre_logging_hook := Hook.g_pre_fatal_hook_that_does_nothing
            g_fatal_hook_recursive_counter := w.g_fatal_hook_recursive_counter + 1
            first_stack_trace := some (w.first_stack_trace.getD stack_trace)
            hook_calls := w.hook_calls ++ [HookCall.mk (Hook.logs c)
              Hook.g_pre_fatal_hook_that_does_nothing (w.g_fatal_hook_recursive_counter + 1)] }
          (by intro c' h; cases h)
        rw [h1]
        refine ⟨rfl, ?_⟩
        revert h2
        cases internal.saveMessage 1 x c.entry c.file c.line c.function c.level
          c.boolean_expression c.fatal_signal c.stack_trace
          { w with
            g_fatal_pre_logging_hook := Hook.g_pre_fatal_hook_that_does_nothing
            g_fatal_hook_recursive_counter := w.g_fatal_hook_recursive_counter + 1
            first_stack_trace := some (w.first_stack_trace.getD stack_trace)
            hook_calls := w.hook_calls ++ [HookCall.mk (Hook.logs c)
              Hook.g_pre_fatal_hook_that_does_nothing (w.g_fatal_hook_recursive_counter + 1)] } with
        | none => intro h2; simp at h2
        | some r =>
          intro _
          obtain ⟨wn, o⟩ := r
          cases o <;> simp

/-! ## Empty registry -/

theorem bgSave_stderr (x : Externals) (self : Nat) (R : LogMessage) (w : World) :
    (LogWorkerImpl.bgSave x self R w).stderr
      = if (w.workers self)._sinks.isEmpty then
          w.stderr ++ (("g3logworker has no sinks. Message: [" ++ x.toString R) ++ "]\n")
        else w.stderr := by
  unfold LogWorkerImpl.bgSave
  simp only [fanOut_eq]
  split <;> simp [World.cerr]

theorem String.append_ne_self (s t : String) (h : 0 < t.length) : s ++ t ≠ s := by
  intro e
  have h1 : (s ++ t).length = s.length := by rw [e]
  rw [String.length_append] at h1
  omega

/-- C16. Empty registry: `bgSave` of worker `self` with record `R` writes to stderr
exactly when the registry of `self` is empty. With an empty registry the text
appended to stderr is `g3logworker has no sinks. Message: [`, the rendered
record and `]` with a newline (so stderr has changed); with a registry that is
not empty stderr is left as it was. -/
theorem bgSave_empty_registry (x : Externals) (self : Nat) (R : LogMessage) (w : World) :
    ((w.workers self)._sinks = [] →
        (LogWorkerImpl.bgSave x self R w).stderr
          = w.stderr ++ (("g3logworker has no sinks. Message: [" ++ x.toString R) ++ "]\n")
        ∧ (LogWorkerImpl.bgSave x self R w).stderr ≠ w.stderr)
    ∧ ((w.workers self)._sinks ≠ [] → (LogWorkerImpl.bgSave x self R w).stderr = w.stderr)
    ∧ ((LogWorkerImpl.bgSave x self R w).stderr ≠ w.stderr ↔ (w.workers self)._sinks = []) := by
  have hs := bgSave_stderr x self R w
  have hne : w.stderr ++ (("g3logworker has no sinks. Message: [" ++ x.toString R) ++ "]\n")
      ≠ w.stderr := by
    apply String.append_ne_self
    simp only [String.length_append]
    have : 0 < "]\n".length := by decide
    omega
  by_cases he : (w.workers self)._sinks = []
  · have h1 : (LogWorkerImpl.bgSave x self R w).stderr
        = w.stderr ++ (("g3logworker has no sinks. Message: [" ++ x.toString R) ++ "]\n") := by
      rw [hs, he]; rfl
    refine ⟨fun _ => ⟨h1, by rw [h1]; exact hne⟩, fun h => absurd he h, ?_⟩
    exact ⟨fun _ => he, fun _ => by rw [h1]; exact hne⟩
  · have h1 : (LogWorkerImpl.bgSave x self R w).stderr = w.stderr := by
      rw [hs]
      cases hl : (w.workers self)._sinks with
      | nil => exact absurd hl he
      | cons a l => rfl
    refine ⟨fun h => absurd h he, fun _ => h1, ?_⟩
    exact ⟨fun h => absurd h1 h, fun h => absurd h he⟩

/-! ## Submissions after a shutdown -/

/-- C14. The declaration comment of `shutDownLogging` says that further
`LOG(...)` calls will be ignored. At this input they are not: the logger is
initialized with worker 0 (no submission was made before), then shut down,
and the next record submitted through `pushMessageToLogger`, with body
`late`, is stored in the first-uninitialized cell and written to stderr under
`LOGGER NOT INITIALIZED`. -/
theorem shutDownLogging_then_push_stashes :
    sampleWorld.g_logger_instance = some 0
    ∧ (internal.shutDownLogging sampleWorld).g_first_unintialized_msg = none
    ∧ (internal.shutDownLogging sampleWorld).stderr = ""
    ∧ (internal.pushMessageToLogger (sampleRecord "late")
        (internal.shutDownLogging sampleWorld)).g_first_unintialized_msg
        = some (stashed (sampleRecord "late"))
    ∧ (internal.pushMessageToLogger (sampleRecord "late")
        (internal.shutDownLogging sampleWorld)).stderr = "LOGGER NOT INITIALIZED:\n\t\tlate\n" := by
  refine ⟨rfl, rfl, rfl, rfl, ?_⟩
  decide

/-- What the code does with submissions after `shutDownLogging`: no record
is enqueued on any worker. When the once-flag of the first-uninitialized cell
has been used before, every submission leaves the whole state unchanged; when
it has not, the first submission is stored in the cell with the rewritten
body and written to stderr, which the declaration comment of
`shutDownLogging` does not allow, and every later one leaves the state
unchanged. -/
theorem pushMessageToLogger_after_shutdown (m : LogMessage) (ms : List LogMessage) (w : World) :
    (pushAll (m :: ms) (internal.shutDownLogging w)).workers = w.workers
    ∧ (w.g_set_first_uninitialized_flag = true →
        pushAll (m :: ms) (internal.shutDownLogging w) = internal.shutDownLogging w)
    ∧ (w.g_set_first_uninitialized_flag = false →
        pushAll (m :: ms) (internal.shutDownLogging w)
          = internal.pushMessageToLogger m (internal.shutDownLogging w)
        ∧ (pushAll (m :: ms) (internal.shutDownLogging w)).g_first_unintialized_msg
          = some (stashed m)
        ∧ (pushAll (m :: ms) (internal.shutDownLogging w)).stderr
          = w.stderr ++ (("LOGGER NOT INITIALIZED:\n\t\t" ++ m.message) ++ "\n")) := by
  have hcur : (internal.shutDownLogging w).g_logger_instance = none := rfl
  cases hflag : w.g_set_first_uninitialized_flag with
  | true =>
    have hf : (internal.shutDownLogging w).g_set_first_uninitialized_flag = true := hflag
    have hall := pushAll_dropped (m :: ms) _ hcur hf
    refine ⟨by rw [hall]; rfl, fun _ => hall, fun h => absurd h (by simp)⟩
  | false =>
    have hf : (internal.shutDownLogging w).g_set_first_uninitialized_flag = false := hflag
    obtain ⟨h1, h2, h3, h4, h5, _⟩ := push_stash m _ hcur hf
    have hall : pushAll (m :: ms) (internal.shutDownLogging w)
        = internal.pushMessageToLogger m (internal.shutDownLogging w) := by
      simp only [pushAll]
      exact pushAll_dropped ms _ h5 h4
    refine ⟨by rw [hall, h3]; rfl, fun h => absurd h (by simp), fun _ => ⟨hall, ?_, ?_⟩⟩
    · rw [hall, h1]; rfl
    · rw [hall, h2]; rfl

/-! ## What a log call leaves alone -/

theorem SaveFrame.refl (w : World) : SaveFrame w w :=
  ⟨rfl, rfl, rfl, fun _ h => h, Nat.le_refl _⟩

theorem SaveFrame.trans {a b c : World} (h1 : SaveFrame a b) (h2 : SaveFrame b c) :
    SaveFrame a c :=
  ⟨h2.slot.trans h1.slot, h2.threshold.trans h1.threshold, h2.handler.trans h1.handler,
    fun t h => h2.first t (h1.first t h), Nat.le_trans h1.counter h2.counter⟩

theorem push_frame (m : LogMessage) (w : World) :
    SaveFrame w (internal.pushMessageToLogger m w) := by
  unfold internal.pushMessageToLogger
  split
  · split
    · exact SaveFrame.refl w
    · exact ⟨rfl, rfl, rfl, fun _ h => h, Nat.le_refl _⟩
  · split
    · exact ⟨rfl, rfl, rfl, fun _ h => h, Nat.le_refl _⟩
    · exact SaveFrame.refl w

theorem fatalCall_frame (x : Externals) (F : FatalMessage) (w : World) :
    SaveFrame w (internal.fatalCall x F w).1 := by
  unfold internal.fatalCall
  cases hh : w.g_fatal_to_g3logworker_function_ptr with
  | pushFatalMessageToLogger =>
    simp only [internal.pushFatalMessageToLogger]
    cases hk : w.g_logger_instance with
    | none => exact ⟨hk.symm, rfl, hh.symm, fun _ h => h, Nat.le_refl _⟩
    | some k => exact ⟨hk.symm, rfl, hh.symm, fun _ h => h, Nat.le_refl _⟩
  | mock_throws id => exact ⟨rfl, rfl, hh.symm, fun _ h => h, Nat.le_refl _⟩
  | mock_returns id => exact ⟨rfl, rfl, hh.symm, fun _ h => h, Nat.le_refl _⟩

theorem atHook_frame (fatalhook : Hook) (stack_trace : String) (w : World) :
    SaveFrame w
      { w with
        g_fatal_pre_logging_hook := Hook.g_pre_fatal_hook_that_does_nothing
        g_fatal_hook_recursive_counter := w.g_fatal_hook_recursive_counter + 1
        first_stack_trace := some (w.first_stack_trace.getD stack_trace)
        hook_calls := w.hook_calls ++ [HookCall.mk fatalhook
          Hook.g_pre_fatal_hook_that_does_nothing (w.g_fatal_hook_recursive_counter + 1)] } :=
  ⟨rfl, rfl, rfl, fun t h => by simp [h], Nat.le_succ _⟩

theorem saveMessage_frame (fuel : Nat) (x : Externals) :
    ∀ (entry file : String) (line : Int) (function : String) (level : LEVELS)
      (boolean_expression : String) (fatal_signal : Int) (stack_trace : String) (w : World)
      (r : World × Outcome),
      internal.saveMessage fuel x entry file line function level boolean_expression
        fatal_signal stack_trace w = some r → SaveFrame w r.1 := by
  induction fuel with
  | zero => intro _ _ _ _ _ _ _ _ w r h; simp [internal.saveMessage] at h
  | succ fuel ih =>
    intro entry file line function level boolean_expression fatal_signal stack_trace w r h
    rw [internal.saveMessage] at h
    by_cases hlt : level.value < w.FLAGS_minloglevel
    · simp only [hlt, if_true, Option.some.injEq] at h
      rw [← h]; exact SaveFrame.refl w
    · cases hf : x.wasFatal level with
      | false =>
        simp only [hlt, if_false, hf, Bool.false_eq_true, Option.some.injEq] at h
        rw [← h]; exact push_frame _ w
      | true =>
        simp only [hlt, if_false, hf, if_true, setFatalPreLoggingHook] at h
        have h3 := atHook_frame w.g_fatal_pre_logging_hook stack_trace w
        cases hk : w.g_fatal_pre_logging_hook with
        | empty =>
          simp only [hk, Hook.invoke, Option.some.injEq] at h
          rw [← h]; rw [hk] at h3; exact h3
        | g_pre_fatal_hook_that_does_nothing =>
          simp only [hk, Hook.invoke, Option.some.injEq] at h
          rw [← h]; rw [hk] at h3; exact h3.trans (fatalCall_frame x _ _)
        | callback id =>
          simp only [hk, Hook.invoke, Option.some.injEq] at h
          rw [← h]; rw [hk] at h3; exact h3.trans (fatalCall_frame x _ _)
        | logs c =>
          simp only [hk, Hook.invoke] at h
          rw [hk] at h3
          cases hn : internal.saveMessage fuel x c.entry c.file c.line c.function c.level
              c.boolean_expression c.fatal_signal c.stack_trace
              { w with
                g_fatal_pre_logging_hook := Hook.g_pre_fatal_hook_that_does_nothing
                g_fatal_hook_recursive_counter := w.g_fatal_hook_recursive_counter + 1
                first_stack_trace := some (w.first_stack_trace.getD stack_trace)
                hook_calls := w.hook_calls ++ [HookCall.mk (Hook.logs c)
                  Hook.g_pre_fatal_hook_that_does_nothing
                  (w.g_fatal_hook_recursive_counter + 1)] } with
          | none => rw [hn] at h; simp at h
          | some rn =>
            have hfr := ih _ _ _ _ _ _ _ _ _ rn hn
            rw [hn] at h
            obtain ⟨wn, o⟩ := rn
            cases o <;> simp only [Option.some.injEq] at h <;> rw [← h]
            · exact (h3.trans hfr).trans (fatalCall_frame x _ _)
            · exact h3.trans hfr
            · exact h3.trans hfr
            · exact h3.trans hfr

/-! ## The lifecycle of the global logger slot -/

theorem nonfatal_saveMessage_eq (fuel : Nat) (x : Externals) (entry file : String)
    (line : Int) (function : String) (level : LEVELS) (boolean_expression : String)
    (fatal_signal : Int) (stack_trace : String) (w : World)
    (hnf : x.wasFatal level = false) (hthr : w.FLAGS_minloglevel ≤ level.value) :
    internal.saveMessage (fuel + 1) x entry file line function level boolean_expression
        fatal_signal stack_trace w
      = some (internal.pushMessageToLogger
          { timestamp := w.clock, call_thread_id := w.thread_id, file := file, line := line,
            function := function, _level := level, expression := boolean_expression,
            message := entry } w, Outcome.returned) := by
  have hlt : ¬ level.value < w.FLAGS_minloglevel := not_lt.mpr hthr
  simp [internal.saveMessage, hlt, hnf, LogMessage.create, LogMessage.append,
    LogMessage.setExpression]

theorem LOG_frame (fuel : Nat) (x : Externals) (cx : CaptureExternals) (file : String)
    (line : Int) (function : String) (level : LEVELS) (text : String) (w : World)
    (r : World × Outcome) (h : LOG fuel x cx file line function level text w = some r) :
    SaveFrame w r.1 := by
  unfold LOG at h
  split at h
  · simp only [Option.some.injEq] at h
    rw [← h]; exact SaveFrame.refl w
  · exact saveMessage_frame fuel x _ _ _ _ _ _ _ _ w r h

theorem initializeLogging_slot (x : Externals) (bgworker : Option Nat) (w : World) :
    (initializeLogging x bgworker w).1.g_logger_instance
      = if w.g_logger_instance = none then bgworker else w.g_logger_instance := by
  cases bgworker with
  | none =>
    cases hc : w.g_logger_instance <;> simp [initializeLogging, World.cerr, hc]
  | some k =>
    cases hc : w.g_logger_instance with
    | some j => simp [initializeLogging, World.cerr, internal.isLoggingInitialized, hc]
    | none =>
      cases hs : w.g_save_first_unintialized_flag <;>
        cases hm : w.g_first_unintialized_msg <;>
        simp [initializeLogging, internal.isLoggingInitialized, hc, hs, hm,
          setFatalPreLoggingHook, LogWorker.save, Active.send, World.setWorker]

theorem shutDownLoggingForActiveOnly_shuts (fuel : Nat) (x : Externals) (cx : CaptureExternals)
    (active : Option Nat) (w : World)
    (h : w.g_logger_instance = none ∨ active = none ∨ active = w.g_logger_instance) :
    internal.shutDownLoggingForActiveOnly fuel x cx active w
      = some (internal.shutDownLogging w, Outcome.returned, some true) := by
  unfold internal.shutDownLoggingForActiveOnly
  rcases h with h | h | h
  · simp [internal.isLoggingInitialized, h]
  · simp [h]
  · simp [h]

theorem shutDownLoggingForActiveOnly_wrong (fuel : Nat) (x : Externals) (cx : CaptureExternals)
    (a k : Nat) (w : World) (hcur : w.g_logger_instance = some k) (hne : a ≠ k) :
    internal.shutDownLoggingForActiveOnly fuel x cx (some a) w
      = match LOG fuel x cx x.source_file 187 cx.pretty_function cx.G3LOG_WARNING
          wrongWorkerWarning w with
        | none => none
        | some (w', Outcome.returned) => some (w', Outcome.returned, some false)
        | some (w', o) => some (w', o, none) := by
  unfold internal.shutDownLoggingForActiveOnly
  simp [internal.isLoggingInitialized, hcur, hne]

theorem shutDownLoggingForActiveOnly_slot (fuel : Nat) (x : Externals) (cx : CaptureExternals)
    (active : Option Nat) (w : World) (r : World × Outcome × Option Bool)
    (h : internal.shutDownLoggingForActiveOnly fuel x cx active w = some r) :
    r.1.g_logger_instance = w.g_logger_instance ∨ r.1.g_logger_instance = none := by
  by_cases hc : w.g_logger_instance = none ∨ active = none ∨ active = w.g_logger_instance
  · rw [shutDownLoggingForActiveOnly_shuts fuel x cx active w hc] at h
    simp only [Option.some.injEq] at h
    rw [← h]
    exact Or.inr rfl
  · simp only [not_or] at hc
    obtain ⟨h1, h2, h3⟩ := hc
    cases hk : w.g_logger_instance with
    | none => exact absurd hk h1
    | some k =>
      cases ha : active with
      | none => exact absurd ha h2
      | some a =>
        have hne : a ≠ k := by
          intro e; apply h3; rw [ha, hk, e]
        rw [ha, shutDownLoggingForActiveOnly_wrong fuel x cx a k w hk hne] at h
        cases hl : LOG fuel x cx x.source_file 187 cx.pretty_function cx.G3LOG_WARNING
            wrongWorkerWarning w with
        | none => rw [hl] at h; simp at h
        | some rl =>
          have hfr := LOG_frame fuel x cx _ _ _ _ _ w rl hl
          rw [hl] at h
          obtain ⟨wl, o⟩ := rl
          left
          cases o <;> simp only [Option.some.injEq] at h <;> rw [← h, ← hk] <;> exact hfr.slot

theorem shutDownLoggingForActiveOnly_step (fuel : Nat) (x : Externals) (cx : CaptureExternals)
    (active : Option Nat) (w : World) (r : World × Outcome × Option Bool)
    (h : internal.shutDownLoggingForActiveOnly fuel x cx active w = some r) :
    SlotStep w.g_logger_instance r.1.g_logger_instance := by
  rcases shutDownLoggingForActiveOnly_slot fuel x cx active w r h with h1 | h1
  · exact Or.inl h1
  · exact Or.inr (Or.inr h1)

theorem lifecycle_step (fuel : Nat) (x : Externals) (cx : CaptureExternals)
    (c : LifecycleCall) (w : World) (r : World × Outcome)
    (h : c.run fuel x cx w = some r) : SlotStep w.g_logger_instance r.1.g_logger_instance := by
  cases c with
  | initializeLogging b =>
    simp only [LifecycleCall.run, Option.some.injEq] at h
    rw [← h, initializeLogging_slot]
    by_cases hc : w.g_logger_instance = none
    · exact Or.inr (Or.inl hc)
    · simp only [hc, if_false]; exact Or.inl rfl
  | shutDownLogging =>
    simp only [LifecycleCall.run, Option.some.injEq] at h
    rw [← h]
    exact Or.inr (Or.inr rfl)
  | shutDownLoggingForActiveOnly active =>
    simp only [LifecycleCall.run, Option.map_eq_some'] at h
    obtain ⟨r', h1, h2⟩ := h
    rw [← h2]
    exact shutDownLoggingForActiveOnly_step fuel x cx active w r' h1

theorem slotHistory_head (fuel : Nat) (x : Externals) (cx : CaptureExternals)
    (calls : List LifecycleCall) (w : World) :
    ∃ t, slotHistory fuel x cx calls w = w.g_logger_instance :: t := by
  cases calls with
  | nil => exact ⟨[], rfl⟩
  | cons c cs => exact ⟨_, rfl⟩

theorem slotHistory_chain (fuel : Nat) (x : Externals) (cx : CaptureExternals)
    (calls : List LifecycleCall) :
    ∀ w : World, List.Chain' SlotStep (slotHistory fuel x cx calls w) := by
  induction calls with
  | nil => intro w; simp [slotHistory]
  | cons c cs ih =>
    intro w
    simp only [slotHistory]
    cases hr : c.run fuel x cx w with
    | none => simp
    | some r =>
      have hstep := lifecycle_step fuel x cx c w r hr
      obtain ⟨w', o⟩ := r
      cases o with
      | returned =>
        simp only
        obtain ⟨t, ht⟩ := slotHistory_head fuel x cx cs w'
        have hc := ih w'
        rw [ht] at hc ⊢
        exact List.Chain'.cons hstep hc
      | threw => simp only [List.chain'_pair]; exact hstep
      | parked => simp only [List.chain'_pair]; exact hstep
      | exited => simp only [List.chain'_pair]; exact hstep

/-- C11, counterexample. Initialization with worker 0, shutdown, initialization
with worker 1: the slot goes null, worker 0, null, worker 1, so it becomes
initialized a second time, and `isLoggingInitialized()` is true after the call
of `initializeLogging` that follows the shutdown. -/
theorem slot_lifecycle_counterexample :
    slotHistory 2 sampleExternals sampleCapture
        [LifecycleCall.initializeLogging (some 0), LifecycleCall.shutDownLogging,
          LifecycleCall.initializeLogging (some 1)] (startWorld [1, 2])
      = [none, some 0, none, some 1]
    ∧ (initializeLogging sampleExternals (some 1)
        (internal.shutDownLogging
          (initializeLogging sampleExternals (some 0) (startWorld [1, 2])).1)).2
      = Outcome.returned
    ∧ internal.isLoggingInitialized (initializeLogging sampleExternals (some 1)
        (internal.shutDownLogging
          (initializeLogging sampleExternals (some 0) (startWorld [1, 2])).1)).1 = true := by
  refine ⟨?_, rfl, rfl⟩
  decide

/-- C11 (amended). Lifecycle of the global logger slot: over every sequence of
calls of `initializeLogging`, `shutDownLogging` and
`shutDownLoggingForActiveOnly`, each call leaves the slot as it is, sets it
from null, or clears it; it never goes from one worker to another in one step.
`initializeLogging` sets the slot to its argument exactly when the slot is
null and leaves it otherwise, `shutDownLogging` clears it, and a cleared slot
is a null slot again: a later `initializeLogging` with a worker returns and
makes `isLoggingInitialized()` true again. -/
theorem slot_lifecycle (fuel : Nat) (x : Externals) (cx : CaptureExternals)
    (calls : List LifecycleCall) (w : World) :
    List.Chain' SlotStep (slotHistory fuel x cx calls w)
    ∧ (∀ (bgworker : Option Nat) (v : World),
        (initializeLogging x bgworker v).1.g_logger_instance
          = if v.g_logger_instance = none then bgworker else v.g_logger_instance)
    ∧ (∀ v : World, (internal.shutDownLogging v).g_logger_instance = none)
    ∧ (∀ (active : Option Nat) (v : World) (r : World × Outcome × Option Bool),
        internal.shutDownLoggingForActiveOnly fuel x cx active v = some r →
        r.1.g_logger_instance = v.g_logger_instance ∨ r.1.g_logger_instance = none)
    ∧ (∀ (k : Nat) (v : World),
        (initializeLogging x (some k) (internal.shutDownLogging v)).2 = Outcome.returned
        ∧ (initializeLogging x (some k) (internal.shutDownLogging v)).1.g_logger_instance
            = some k
        ∧ internal.isLoggingInitialized
            (initializeLogging x (some k) (internal.shutDownLogging v)).1 = true) := by
  refine ⟨slotHistory_chain fuel x cx calls w, initializeLogging_slot x, fun _ => rfl,
    fun active v r h => shutDownLoggingForActiveOnly_slot fuel x cx active v r h, ?_⟩
  intro k v
  have hs := initializeLogging_slot x (some k) (internal.shutDownLogging v)
  have hn : (internal.shutDownLogging v).g_logger_instance = none := rfl
  simp only [hn, if_true] at hs
  refine ⟨?_, hs, ?_⟩
  · cases hf : v.g_save_first_unintialized_flag <;>
      cases hm : v.g_first_unintialized_msg <;>
      simp [initializeLogging, internal.isLoggingInitialized, internal.shutDownLogging, hf, hm,
        setFatalPreLoggingHook, LogWorker.save, Active.send, World.setWorker]
  · simp [internal.isLoggingInitialized, hs]

/-- C12, counterexample. Logger initialized with worker 0, threshold 2, WARNING
at value 1: `shutDownLoggingForActiveOnly` with worker 5 returns false and
leaves the slot, but no record is submitted: the FIFO of worker 0 is empty
after the call as before. -/
theorem shutDownLoggingForActiveOnly_wrong_worker_counterexample :
    quietWorld.g_logger_instance = some 0
    ∧ (quietWorld.workers 0)._bg = []
    ∧ (internal.shutDownLoggingForActiveOnly 2 sampleExternals sampleCapture (some 5)
        quietWorld).map (fun r => (r.2.2, r.1.g_logger_instance, (r.1.workers 0)._bg))
      = some (some false, some 0, []) := by
  refine ⟨rfl, rfl, ?_⟩
  decide

/-- C12 (amended). Shutdown of the wrong worker: with the logger initialized
with worker `k`, and WARNING not a fatal level, `shutDownLoggingForActiveOnly`
with a worker `a` other than `k` returns false and leaves the slot referring
to `k`. When WARNING is enabled and not below the threshold, it submits one
WARNING record with the warning text: one save closure is appended to the
FIFO of `k` and no other worker changes. Otherwise nothing is submitted: the
state is left as it was. -/
theorem shutDownLoggingForActiveOnly_wrong_worker (fuel : Nat) (x : Externals)
    (cx : CaptureExternals) (a k : Nat) (w : World)
    (hcur : w.g_logger_instance = some k) (hne : a ≠ k)
    (hnf : x.wasFatal cx.G3LOG_WARNING = false) :
    ∃ w', internal.shutDownLoggingForActiveOnly (fuel + 1) x cx (some a) w
        = some (w', Outcome.returned, some false)
      ∧ w'.g_logger_instance = some k
      ∧ ((cx.logLevel cx.G3LOG_WARNING w = true
            ∧ w.FLAGS_minloglevel ≤ cx.G3LOG_WARNING.value) →
          (w'.workers k)._bg = (w.workers k)._bg ++ [Job.bgSave
            { timestamp := w.clock, call_thread_id := w.thread_id, file := x.source_file,
              line := 187, function := cx.pretty_function, _level := cx.G3LOG_WARNING,
              expression := "", message := wrongWorkerWarning }]
          ∧ ∀ j, j ≠ k → w'.workers j = w.workers j)
      ∧ (¬ (cx.logLevel cx.G3LOG_WARNING w = true
            ∧ w.FLAGS_minloglevel ≤ cx.G3LOG_WARNING.value) → w' = w) := by
  rw [shutDownLoggingForActiveOnly_wrong (fuel + 1) x cx a k w hcur hne]
  unfold LOG
  cases hl : cx.logLevel cx.G3LOG_WARNING w with
  | false => exact ⟨w, by simp, hcur, by simp, fun _ => rfl⟩
  | true =>
    by_cases hthr : w.FLAGS_minloglevel ≤ cx.G3LOG_WARNING.value
    · rw [nonfatal_saveMessage_eq fuel x _ _ _ _ _ _ _ _ w hnf hthr]
      refine ⟨internal.pushMessageToLogger ⟨w.clock, w.thread_id, x.source_file, 187,
        cx.pretty_function, cx.G3LOG_WARNING, "", wrongWorkerWarning⟩ w, by simp, ?_, ?_,
        fun h => absurd ⟨rfl, hthr⟩ h⟩
      · simp [internal.pushMessageToLogger, internal.isLoggingInitialized, hcur, LogWorker.save,
          Active.send, World.setWorker]
      · intro _
        simp [internal.pushMessageToLogger, internal.isLoggingInitialized, hcur, LogWorker.save,
          Active.send, World.setWorker]
        intro j hj
        simp [hj]
    · have hlt : cx.G3LOG_WARNING.value < w.FLAGS_minloglevel := not_le.mp hthr
      refine ⟨w, ?_, hcur, fun h => absurd h.2 hthr, fun _ => rfl⟩
      simp [internal.saveMessage, hlt]

/-- Witness of C12 (amended): worker 5 while worker 0 is the current one. -/
theorem shutDownLoggingForActiveOnly_wrong_worker_witness :
    sampleWorld.g_logger_instance = some 0 ∧ (5 : Nat) ≠ 0
    ∧ sampleExternals.wasFatal sampleCapture.G3LOG_WARNING = false
    ∧ ∃ w', internal.shutDownLoggingForActiveOnly 1 sampleExternals sampleCapture (some 5)
          sampleWorld = some (w', Outcome.returned, some false)
      ∧ w'.g_logger_instance = some 0
      ∧ ((sampleCapture.logLevel sampleCapture.G3LOG_WARNING sampleWorld = true
            ∧ sampleWorld.FLAGS_minloglevel ≤ sampleCapture.G3LOG_WARNING.value) →
          (w'.workers 0)._bg = (sampleWorld.workers 0)._bg ++ [Job.bgSave
            { timestamp := sampleWorld.clock, call_thread_id := sampleWorld.thread_id,
              file := sampleExternals.source_file, line := 187,
              function := sampleCapture.pretty_function,
              _level := sampleCapture.G3LOG_WARNING, expression := "",
              message := wrongWorkerWarning }]
          ∧ ∀ j, j ≠ 0 → w'.workers j = sampleWorld.workers j)
      ∧ (¬ (sampleCapture.logLevel sampleCapture.G3LOG_WARNING sampleWorld = true
            ∧ sampleWorld.FLAGS_minloglevel ≤ sampleCapture.G3LOG_WARNING.value) →
          w' = sampleWorld) :=
  ⟨rfl, by decide, rfl,
    shutDownLoggingForActiveOnly_wrong_worker 0 sampleExternals sampleCapture 5 0 sampleWorld
      rfl (by decide) rfl⟩

/-- C13. The comment of `shutDownLoggingForActiveOnly` says that a call whose
argument is not the worker initialized for logging is ignored and logging
stays active. At these inputs it is not ignored: with the logger initialized
with worker 0 the call with the null pointer clears the slot and returns
true, and with no logger initialized the call with worker 0 returns true. -/
theorem shutDownLoggingForActiveOnly_nullptr :
    sampleWorld.g_logger_instance = some 0
    ∧ (internal.shutDownLoggingForActiveOnly 2 sampleExternals sampleCapture none
        sampleWorld).map (fun r => (r.2.1, r.2.2, r.1.g_logger_instance))
      = some (Outcome.returned, some true, none)
    ∧ (startWorld [1, 2]).g_logger_instance = none
    ∧ (internal.shutDownLoggingForActiveOnly 2 sampleExternals sampleCapture (some 0)
        (startWorld [1, 2])).map (fun r => (r.2.1, r.2.2, r.1.g_logger_instance))
      = some (Outcome.returned, some true, none) := by
  refine ⟨rfl, ?_, rfl, ?_⟩ <;> decide

/-- What the code of `shutDownLoggingForActiveOnly(active)` does in each case:
the call is ignored (returns false, slot unchanged) when a logger is
initialized, `active` is not null and `active` is not the current worker
(WARNING not being a fatal level). In every other case, that is when `active`
is the current worker and also, against the comment of the function, when
`active` is null and when no logger is initialized, it calls
`shutDownLogging` and returns true, and the slot is null afterwards. -/
theorem shutDownLoggingForActiveOnly_cases (fuel : Nat) (x : Externals)
    (cx : CaptureExternals) (active : Option Nat) (w : World) :
    ((w.g_logger_instance = none ∨ active = none ∨ active = w.g_logger_instance) →
        internal.shutDownLoggingForActiveOnly fuel x cx active w
          = some (internal.shutDownLogging w, Outcome.returned, some true)
        ∧ (internal.shutDownLogging w).g_logger_instance = none)
    ∧ (∀ k a, w.g_logger_instance = some k → active = some a → a ≠ k →
        x.wasFatal cx.G3LOG_WARNING = false →
        ∃ w', internal.shutDownLoggingForActiveOnly (fuel + 1) x cx active w
            = some (w', Outcome.returned, some false)
          ∧ w'.g_logger_instance = w.g_logger_instance) := by
  refine ⟨fun h => ⟨shutDownLoggingForActiveOnly_shuts fuel x cx active w h, rfl⟩, ?_⟩
  intro k a hcur ha hne hnf
  rw [ha, shutDownLoggingForActiveOnly_wrong (fuel + 1) x cx a k w hcur hne]
  unfold LOG
  cases hl : cx.logLevel cx.G3LOG_WARNING w with
  | false => exact ⟨w, by simp, rfl⟩
  | true =>
    by_cases hthr : w.FLAGS_minloglevel ≤ cx.G3LOG_WARNING.value
    · rw [nonfatal_saveMessage_eq fuel x _ _ _ _ _ _ _ _ w hnf hthr]
      exact ⟨internal.pushMessageToLogger ⟨w.clock, w.thread_id, x.source_file, 187,
        cx.pretty_function, cx.G3LOG_WARNING, "", wrongWorkerWarning⟩ w, by simp,
        (push_frame _ w).slot⟩
    · have hlt : cx.G3LOG_WARNING.value < w.FLAGS_minloglevel := not_le.mp hthr
      exact ⟨w, by simp [internal.saveMessage, hlt], rfl⟩

/-! ## The recursion guard -/

theorem saveMessage_hook_returned (fuel : Nat) (x : Externals) (entry file : String)
    (line : Int) (function : String) (level : LEVELS) (boolean_expression : String)
    (fatal_signal : Int) (stack_trace : String) (w wn : World)
    (hf : x.wasFatal level = true) (hthr : w.FLAGS_minloglevel ≤ level.value)
    (hcall : internal.saveMessage.hookCall fuel x stack_trace w = some (wn, Outcome.returned)) :
    internal.saveMessage (fuel + 1) x entry file line function level boolean_expression
        fatal_signal stack_trace w
      = some (internal.fatalCall x (internal.saveMessage.fatalRecord entry file line function
          level boolean_expression fatal_signal stack_trace w wn) wn) := by
  have hlt : ¬ level.value < w.FLAGS_minloglevel := not_lt.mpr hthr
  unfold internal.saveMessage.hookCall internal.saveMessage.atHook at hcall
  rw [internal.saveMessage]
  simp only [hlt, if_false, hf, if_true, setFatalPreLoggingHook]
  rw [hcall]
  rfl

theorem saveMessage_hook_not_returned (fuel : Nat) (x : Externals) (entry file : String)
    (line : Int) (function : String) (level : LEVELS) (boolean_expression : String)
    (fatal_signal : Int) (stack_trace : String) (w wn : World) (o : Outcome)
    (hf : x.wasFatal level = true) (hthr : w.FLAGS_minloglevel ≤ level.value)
    (hcall : internal.saveMessage.hookCall fuel x stack_trace w = some (wn, o))
    (ho : o ≠ Outcome.returned) :
    internal.saveMessage (fuel + 1) x entry file line function level boolean_expression
        fatal_signal stack_trace w = some (wn, o) := by
  have hlt : ¬ level.value < w.FLAGS_minloglevel := not_lt.mpr hthr
  unfold internal.saveMessage.hookCall internal.saveMessage.atHook at hcall
  rw [internal.saveMessage]
  simp only [hlt, if_false, hf, if_true, setFatalPreLoggingHook]
  rw [hcall]
  cases o <;> first | rfl | exact absurd rfl ho

theorem atHook_saveFrame (stack_trace : String) (w : World) :
    SaveFrame w (internal.saveMessage.atHook stack_trace w) :=
  atHook_frame w.g_fatal_pre_logging_hook stack_trace w

theorem hookCall_frame (fuel : Nat) (x : Externals) (stack_trace : String) (w : World)
    (r : World × Outcome) (h : internal.saveMessage.hookCall fuel x stack_trace w = some r) :
    SaveFrame (internal.saveMessage.atHook stack_trace w) r.1 := by
  unfold internal.saveMessage.hookCall at h
  cases hk : w.g_fatal_pre_logging_hook with
  | empty =>
    simp only [hk, Hook.invoke, Option.some.injEq] at h
    rw [← h]; exact SaveFrame.refl _
  | g_pre_fatal_hook_that_does_nothing =>
    simp only [hk, Hook.invoke, Option.some.injEq] at h
    rw [← h]; exact SaveFrame.refl _
  | callback id =>
    simp only [hk, Hook.invoke, Option.some.injEq] at h
    rw [← h]; exact SaveFrame.refl _
  | logs c =>
    simp only [hk, Hook.invoke] at h
    exact saveMessage_frame fuel x _ _ _ _ _ _ _ _ _ r h

theorem fatalRecord_message (entry file : String) (line : Int) (function : String)
    (level : LEVELS) (boolean_expression : String) (fatal_signal : Int) (stack_trace : String)
    (w wn : World) :
    (internal.saveMessage.fatalRecord entry file line function level boolean_expression
        fatal_signal stack_trace w wn).message
      = if wn.g_fatal_hook_recursive_counter > 1 then
          (entry ++ stack_trace) ++ recursiveCrashBanner (wn.first_stack_trace.getD "")
        else entry ++ stack_trace := by
  unfold internal.saveMessage.fatalRecord
  split <;>
    simp [FatalMessage.create, LogMessage.copy, LogMessage.append, LogMessage.setExpression,
      LogMessage.create]

/-- C15, counterexample. The hook makes a fatal check and the fatal dispatch
returns. The counter is 0 before the outer call, hence 1 after its increment,
yet the record the outer call builds (file main.cpp) has the banner and the
first stack trace after entry and stack trace: the counter is read after the
hook has run, when the nested fatal has raised it to 2. -/
theorem saveMessage_recursion_guard_counterexample :
    returningDispatchWorld.g_fatal_hook_recursive_counter = 0
    ∧ (internal.saveMessage 2 sampleExternals "outer" "main.cpp" 20 "main" sampleFATAL "" 6
        "trace-outer" returningDispatchWorld).map
          (fun r => (r.1.fatal_calls.map (fun p => (p.2.file, p.2.message)), r.2))
      = some ([("hook.cpp", "innertrace-inner" ++ recursiveCrashBanner "trace-outer"),
          ("main.cpp", "outertrace-outer" ++ recursiveCrashBanner "trace-outer")],
          Outcome.returned)
    ∧ "outertrace-outer" ++ recursiveCrashBanner "trace-outer" ≠ "outertrace-outer" := by
  refine ⟨rfl, rfl, ?_⟩
  apply String.append_ne_self
  simp only [recursiveCrashBanner, String.length_append]
  have : 0 < "\n---End of first stacktrace\n".length := by decide
  omega

/-- C15 (amended). Recursion guard, for a call of `saveMessage` at a fatal level
that is not below the threshold. (1) When the pre-fatal hook has returned, in
state `wn`, the body of the fatal record handed to the dispatch is entry
followed by the given stack trace when the recursive-fatal counter read at
that moment is at most 1, and when it exceeds 1 it is additionally followed
by the recursive-crash banner with the first stack trace stored (the one
stored before this call, else the one of this call). (2) When the hook returns
without itself taking the fatal path, the counter read is the counter after
the increment of this call. (3) When the hook itself makes a fatal check, the
record of that nested fatal is handed to the dispatch with a body that ends
with the banner and the first stack trace. -/
theorem saveMessage_recursion_guard (fuel : Nat) (x : Externals) (entry file : String)
    (line : Int) (function : String) (level : LEVELS) (boolean_expression : String)
    (fatal_signal : Int) (stack_trace : String) (w : World)
    (hf : x.wasFatal level = true) (hthr : w.FLAGS_minloglevel ≤ level.value) :
    (∀ wn, internal.saveMessage.hookCall (fuel + 1) x stack_trace w
          = some (wn, Outcome.returned) →
        ∃ F, internal.saveMessage (fuel + 2) x entry file line function level
            boolean_expression fatal_signal stack_trace w = some (internal.fatalCall x F wn)
          ∧ (wn.g_fatal_hook_recursive_counter ≤ 1 → F.message = entry ++ stack_trace)
          ∧ (1 < wn.g_fatal_hook_recursive_counter →
              F.message = (entry ++ stack_trace)
                ++ recursiveCrashBanner (w.first_stack_trace.getD stack_trace)))
    ∧ (w.g_fatal_pre_logging_hook.returnsOffFatalPath x w.FLAGS_minloglevel = true →
        ∃ wn, internal.saveMessage.hookCall (fuel + 1) x stack_trace w
            = some (wn, Outcome.returned)
          ∧ wn.g_fatal_hook_recursive_counter = w.g_fatal_hook_recursive_counter + 1)
    ∧ (∀ c, w.g_fatal_pre_logging_hook = Hook.logs c → x.wasFatal c.level = true →
        w.FLAGS_minloglevel ≤ c.level.value →
        ∃ wn o Fn, internal.saveMessage.hookCall (fuel + 1) x stack_trace w = some (wn, o)
          ∧ wn.fatal_calls = w.fatal_calls ++ [(w.g_fatal_to_g3logworker_function_ptr, Fn)]
          ∧ Fn._level = c.level
          ∧ Fn.message = (c.entry ++ c.stack_trace)
              ++ recursiveCrashBanner (w.first_stack_trace.getD stack_trace)) := by
  refine ⟨?_, ?_, ?_⟩
  · intro wn hcall
    refine ⟨_, saveMessage_hook_returned (fuel + 1) x entry file line function level
      boolean_expression fatal_signal stack_trace w wn hf hthr hcall, ?_, ?_⟩
    · intro hc
      rw [fatalRecord_message]
      have : ¬ wn.g_fatal_hook_recursive_counter > 1 := by omega
      simp only [this, if_false]
    · intro hc
      rw [fatalRecord_message]
      have hfirst := (hookCall_frame (fuel + 1) x stack_trace w _ hcall).first
        (w.first_stack_trace.getD stack_trace) rfl
      simp only at hfirst
      have : wn.g_fatal_hook_recursive_counter > 1 := hc
      simp only [this, if_true, hfirst, Option.getD_some]
  · intro hh
    obtain ⟨wn, hcall, _, _, q3, _⟩ := hook_invoke_off_fatal_path fuel x
      w.g_fatal_pre_logging_hook (internal.saveMessage.atHook stack_trace w) hh
    exact ⟨wn, hcall, q3⟩
  · intro c hk hfc hthrc
    have hinner : internal.saveMessage.hookCall fuel x c.stack_trace
        (internal.saveMessage.atHook stack_trace w)
        = some (internal.saveMessage.atHook c.stack_trace
            (internal.saveMessage.atHook stack_trace w), Outcome.returned) := rfl
    have hnested := saveMessage_hook_returned fuel x c.entry c.file c.line c.function c.level
      c.boolean_expression c.fatal_signal c.stack_trace
      (internal.saveMessage.atHook stack_trace w) _ hfc hthrc hinner
    have hcall : internal.saveMessage.hookCall (fuel + 1) x stack_trace w
        = internal.saveMessage (fuel + 1) x c.entry c.file c.line c.function c.level
            c.boolean_expression c.fatal_signal c.stack_trace
            (internal.saveMessage.atHook stack_trace w) := by
      unfold internal.saveMessage.hookCall
      rw [hk]
      rfl
    rw [hcall, hnested]
    obtain ⟨r1, _⟩ := fatalCall_effects x
      (internal.saveMessage.fatalRecord c.entry c.file c.line c.function c.level
        c.boolean_expression c.fatal_signal c.stack_trace
        (internal.saveMessage.atHook stack_trace w)
        (internal.saveMessage.atHook c.stack_trace (internal.saveMessage.atHook stack_trace w)))
      (internal.saveMessage.atHook c.stack_trace (internal.saveMessage.atHook stack_trace w))
    refine ⟨_, _, _, rfl, r1, ?_, ?_⟩
    · unfold internal.saveMessage.fatalRecord
      split <;> rfl
    · rw [fatalRecord_message]
      simp [internal.saveMessage.atHook]

/-- Witness of C15 (amended): a fatal call right after initialization; the hook
is the no-op, the counter read after the hook is 1. -/
theorem saveMessage_recursion_guard_witness :
    sampleExternals.wasFatal sampleFATAL = true
    ∧ sampleWorld.FLAGS_minloglevel ≤ sampleFATAL.value
    ∧ ∃ wn, internal.saveMessage.hookCall 1 sampleExternals "trace" sampleWorld
          = some (wn, Outcome.returned)
        ∧ wn.g_fatal_hook_recursive_counter = sampleWorld.g_fatal_hook_recursive_counter + 1 :=
  ⟨rfl, by decide,
    (saveMessage_recursion_guard 0 sampleExternals "boom" "main.cpp" 20 "main" sampleFATAL ""
      6 "trace" sampleWorld rfl (by decide)).2.1 rfl⟩

/-! ## The comparison checks -/

theorem MakeCheckOpString_eq (v1 v2 : Int) (e : String) :
    MakeCheckOpString v1 v2 e
      = ((((e ++ " (") ++ decimal v1) ++ " vs. ") ++ decimal v2) ++ ")" := by
  simp [MakeCheckOpString, CheckOpMessageBuilder.create, CheckOpMessageBuilder.ForVar1,
    CheckOpMessageBuilder.ForVar2, CheckOpMessageBuilder.NewString, MakeCheckOpValueString]

/-- C17. Check message format: for all integers `v1`, `v2` and every expression
text `e`, `MakeCheckOpString(v1, v2, e)` is `e`, ` (`, the decimal text of
`v1`, ` vs. `, the decimal text of `v2` and `)`. For the failed check
`CHECK_EQ(2, 3)` the message is `2 == 3 (2 vs. 3)`, which contains `2 vs. 3`
and begins with the predicate text `2 == 3`. -/
theorem MakeCheckOpString_format (v1 v2 : Int) (e : String) :
    MakeCheckOpString v1 v2 e
      = ((((e ++ " (") ++ decimal v1) ++ " vs. ") ++ decimal v2) ++ ")"
    ∧ decimal 2 = "2" ∧ decimal 3 = "3" ∧ decimal (-17) = "-17"
    ∧ CHECK_OP_LOG.exprtext "2" "==" "3" = "2 == 3"
    ∧ CHECK_EQ "2" "3" 2 3 = some "2 == 3 (2 vs. 3)"
    ∧ "2 == 3 (2 vs. 3)" = ("2 == 3 (" ++ "2 vs. 3") ++ ")"
    ∧ "2 == 3 (2 vs. 3)" = "2 == 3" ++ " (2 vs. 3)" := by
  refine ⟨MakeCheckOpString_eq v1 v2 e, ?_, ?_, ?_, ?_, ?_, ?_, ?_⟩ <;> decide

theorem DEFINE_CHECK_OP_IMPL_spec (op : Int → Int → Bool) (a b : Int) (text : String) :
    (DEFINE_CHECK_OP_IMPL op a b text = none ↔ op a b = true)
    ∧ (op a b = false →
        DEFINE_CHECK_OP_IMPL op a b text = some (MakeCheckOpString a b text)) := by
  unfold DEFINE_CHECK_OP_IMPL
  cases h : op a b <;> simp

/-- C18. Comparison checks fire exactly on a false predicate: for each of the
six operators and all integers `a`, `b`, the function `Check_XXImpl(a, b,
text)` returns `NULL` if and only if `a op b` holds, and otherwise returns
`MakeCheckOpString(a, b, text)`, the text followed by both operand values in
decimal. -/
theorem Check_OpImpl_fires (a b : Int) (text : String) :
    ((Check_EQImpl a b text = none ↔ a = b)
      ∧ (¬ a = b → Check_EQImpl a b text = some (MakeCheckOpString a b text)))
    ∧ ((Check_NEImpl a b text = none ↔ a ≠ b)
      ∧ (¬ a ≠ b → Check_NEImpl a b text = some (MakeCheckOpString a b text)))
    ∧ ((Check_LEImpl a b text = none ↔ a ≤ b)
      ∧ (¬ a ≤ b → Check_LEImpl a b text = some (MakeCheckOpString a b text)))
    ∧ ((Check_LTImpl a b text = none ↔ a < b)
      ∧ (¬ a < b → Check_LTImpl a b text = some (MakeCheckOpString a b text)))
    ∧ ((Check_GEImpl a b text = none ↔ a ≥ b)
      ∧ (¬ a ≥ b → Check_GEImpl a b text = some (MakeCheckOpString a b text)))
    ∧ ((Check_GTImpl a b text = none ↔ a > b)
      ∧ (¬ a > b → Check_GTImpl a b text = some (MakeCheckOpString a b text)))
    ∧ MakeCheckOpString a b text
        = ((((text ++ " (") ++ decimal a) ++ " vs. ") ++ decimal b) ++ ")" := by
  refine ⟨?_, ?_, ?_, ?_, ?_, ?_, MakeCheckOpString_eq a b text⟩
  · have h := DEFINE_CHECK_OP_IMPL_spec (fun v1 v2 => decide (v1 = v2)) a b text
    exact ⟨by simpa [Check_EQImpl] using h.1, fun hn => h.2 (by simpa using hn)⟩
  · have h := DEFINE_CHECK_OP_IMPL_spec (fun v1 v2 => decide (v1 ≠ v2)) a b text
    exact ⟨by simpa [Check_NEImpl] using h.1, fun hn => h.2 (by simpa using hn)⟩
  · have h := DEFINE_CHECK_OP_IMPL_spec (fun v1 v2 => decide (v1 ≤ v2)) a b text
    exact ⟨by simpa [Check_LEImpl] using h.1, fun hn => h.2 (by simpa using hn)⟩
  · have h := DEFINE_CHECK_OP_IMPL_spec (fun v1 v2 => decide (v1 < v2)) a b text
    exact ⟨by simpa [Check_LTImpl] using h.1, fun hn => h.2 (by simpa using hn)⟩
  · have h := DEFINE_CHECK_OP_IMPL_spec (fun v1 v2 => decide (v1 ≥ v2)) a b text
    exact ⟨by simpa [Check_GEImpl] using h.1, fun hn => h.2 (by simpa using hn)⟩
  · have h := DEFINE_CHECK_OP_IMPL_spec (fun v1 v2 => decide (v1 > v2)) a b text
    exact ⟨by simpa [Check_GTImpl] using h.1, fun hn => h.2 (by simpa using hn)⟩

theorem toShort_eq (v : Int) (h1 : -128 ≤ v) (h2 : v ≤ 255) : toShort v = v := by
  unfold toShort
  omega

theorem toUnsignedShort_eq (v : Int) (h1 : 0 ≤ v) (h2 : v ≤ 255) : toUnsignedShort v = v := by
  unfold toUnsignedShort
  omega

theorem characterOf_eq (v : Int) (h1 : 0 ≤ v) (h2 : v ≤ 255) :
    characterOf v = String.singleton (Char.ofNat v.toNat) := by
  unfold characterOf
  have : v % 256 = v := by omega
  rw [this]

/-- C19. Character operands: for a value `v` of type `char` (between -128 and
255, its signedness being left to the platform), `signed char` (at most 127)
or `unsigned char` (at least 0), `MakeCheckOpValueString` writes the character
between single quotes when `32 <= v <= 126`, and otherwise writes `char
value`, `signed char value` or `unsigned char value` and the decimal numeric
value of `v`. -/
theorem MakeCheckOpValueString_characters (os : String) (v : Int)
    (hlo : -128 ≤ v) (hhi : v ≤ 255) :
    ((32 ≤ v ∧ v ≤ 126) →
        MakeCheckOpValueString.char os v
          = ((os ++ "'") ++ String.singleton (Char.ofNat v.toNat)) ++ "'"
        ∧ MakeCheckOpValueString.signed_char os v
          = ((os ++ "'") ++ String.singleton (Char.ofNat v.toNat)) ++ "'"
        ∧ MakeCheckOpValueString.unsigned_char os v
          = ((os ++ "'") ++ String.singleton (Char.ofNat v.toNat)) ++ "'")
    ∧ (¬ (32 ≤ v ∧ v ≤ 126) →
        MakeCheckOpValueString.char os v = (os ++ "char value ") ++ decimal v
        ∧ (v ≤ 127 →
            MakeCheckOpValueString.signed_char os v = (os ++ "signed char value ") ++ decimal v)
        ∧ (0 ≤ v →
            MakeCheckOpValueString.unsigned_char os v
              = (os ++ "unsigned char value ") ++ decimal v)) := by
  constructor
  · intro h
    have hc := characterOf_eq v (by omega) hhi
    have h' : v ≥ 32 ∧ v ≤ 126 := h
    simp only [MakeCheckOpValueString.char, MakeCheckOpValueString.signed_char,
      MakeCheckOpValueString.unsigned_char, h', and_self, if_true, hc]
  · intro h
    have h' : ¬ (v ≥ 32 ∧ v ≤ 126) := h
    refine ⟨?_, ?_, ?_⟩
    · simp only [MakeCheckOpValueString.char, h', if_false, toShort_eq v hlo hhi]
    · intro _
      simp only [MakeCheckOpValueString.signed_char, h', if_false, toShort_eq v hlo hhi]
    · intro h0
      simp only [MakeCheckOpValueString.unsigned_char, h', if_false,
        toUnsignedShort_eq v h0 hhi]

/-- Witness of C19: the letter A, a negative signed value and the unsigned
value 200. -/
theorem MakeCheckOpValueString_characters_witness :
    ((-128 : Int) ≤ 65 ∧ (65 : Int) ≤ 255)
    ∧ MakeCheckOpValueString.char "" 65 = "'A'"
    ∧ MakeCheckOpValueString.signed_char "" (-3) = "signed char value -3"
    ∧ MakeCheckOpValueString.unsigned_char "" 200 = "unsigned char value 200" := by
  refine ⟨⟨by decide, by decide⟩, ?_, ?_, ?_⟩
  · rw [((MakeCheckOpValueString_characters "" 65 (by decide) (by decide)).1
      ⟨by decide, by decide⟩).1]
    decide
  · rw [((MakeCheckOpValueString_characters "" (-3) (by decide) (by decide)).2
      (by decide)).2.1 (by decide)]
    decide
  · rw [((MakeCheckOpValueString_characters "" 200 (by decide) (by decide)).2
      (by decide)).2.2 (by decide)]
    decide

theorem strcmpLoop_refl (fold : Char → Char) (l : List Char) : strcmpLoop fold l l = 0 := by
  induction l with
  | nil => rfl
  | cons a as ih => simp [strcmpLoop, ih]

theorem strcmp_refl (s : String) : strcmp s s = 0 := strcmpLoop_refl id s.data

theorem strcasecmp_refl (s : String) : strcasecmp s s = 0 := strcmpLoop_refl Char.toLower s.data

theorem DEFINE_CHECK_STROP_IMPL_spec (name : String) (func : String → String → Int)
    (expected : Bool) (s1 s2 : Option CString) (names : String)
    (hrefl : ∀ s, func s s = 0)
    (halias : ∀ a b, s1 = some a → s2 = some b → a.addr = b.addr → a.chars = b.chars) :
    DEFINE_CHECK_STROP_IMPL name func expected s1 s2 names = none
      ↔ operandsEqual func s1 s2 = expected := by
  cases s1 with
  | none =>
    cases s2 <;> cases expected <;>
      simp [DEFINE_CHECK_STROP_IMPL, CString.ptrEq, operandsEqual]
  | some a =>
    cases s2 with
    | none => cases expected <;> simp [DEFINE_CHECK_STROP_IMPL, CString.ptrEq, operandsEqual]
    | some b =>
      by_cases he : a.addr = b.addr
      · have hc := halias a b rfl rfl he
        cases expected <;>
          simp [DEFINE_CHECK_STROP_IMPL, CString.ptrEq, operandsEqual, he, hc, hrefl]
      · cases h1 : (func a.chars b.chars == 0) <;> cases expected <;>
          simp [DEFINE_CHECK_STROP_IMPL, CString.ptrEq, operandsEqual, he, h1]

/-- C20, counterexample. The first operand is the null pointer, the second the
empty string. `CHECK_STREQ` fails (its function returns the failure message,
in which the null pointer is printed as the empty string), while with the
null pointer replaced by an empty string it passes; `CHECK_STRNE` passes,
while with the null pointer replaced it fails. The same holds for the
case-insensitive pair. -/
theorem string_checks_null_operands_counterexample :
    CheckstrcmptrueImpl none (some { addr := 64, chars := "" }) "p == q"
      = some "CHECK_STREQ failed: p == q ( vs. )"
    ∧ CheckstrcmptrueImpl (CString.nullAsEmpty 32 none) (some { addr := 64, chars := "" })
        "p == q" = none
    ∧ CheckstrcmpfalseImpl none (some { addr := 64, chars := "" }) "p != q" = none
    ∧ CheckstrcmpfalseImpl (CString.nullAsEmpty 32 none) (some { addr := 64, chars := "" })
        "p != q" = some "CHECK_STRNE failed: p != q ( vs. )"
    ∧ CheckstrcasecmptrueImpl none (some { addr := 64, chars := "" }) "p == q"
      = some "CHECK_STRCASEEQ failed: p == q ( vs. )"
    ∧ CheckstrcasecmpfalseImpl none (some { addr := 64, chars := "" }) "p != q" = none := by
  refine ⟨?_, ?_, ?_, ?_, ?_, ?_⟩ <;> decide

/-- C20 (amended). String checks with null operands: each of the four string
comparison checks accepts null pointers without reading through them; it
passes exactly when the relation of its operands is the expected one, where
two null pointers are equal, a null pointer and a string (also the empty one)
are not, and two strings are equal when the comparison function gives zero.
A null operand is replaced by the empty string only in the failure message.
So `CHECK_STREQ(null, s)` fails and `CHECK_STRNE(null, s)` passes for every
string `s`, the empty one included. -/
theorem string_checks_null_operands (s1 s2 : Option CString) (names : String)
    (halias : ∀ a b, s1 = some a → s2 = some b → a.addr = b.addr → a.chars = b.chars) :
    (CheckstrcmptrueImpl s1 s2 names = none ↔ operandsEqual strcmp s1 s2 = true)
    ∧ (CheckstrcmpfalseImpl s1 s2 names = none ↔ operandsEqual strcmp s1 s2 = false)
    ∧ (CheckstrcasecmptrueImpl s1 s2 names = none ↔ operandsEqual strcasecmp s1 s2 = true)
    ∧ (CheckstrcasecmpfalseImpl s1 s2 names = none ↔ operandsEqual strcasecmp s1 s2 = false)
    ∧ (∀ (func : String → String → Int) (b : CString),
        operandsEqual func none none = true
        ∧ operandsEqual func none (some b) = false
        ∧ operandsEqual func (some b) none = false)
    ∧ (∀ b : CString,
        CheckstrcmptrueImpl none (some b) names
          = some (((((("CHECK_STREQ failed: " ++ names) ++ " (") ++ "") ++ " vs. ")
              ++ b.chars) ++ ")")
        ∧ CheckstrcmpfalseImpl none (some b) names = none
        ∧ CheckstrcasecmptrueImpl none (some b) names
          = some (((((("CHECK_STRCASEEQ failed: " ++ names) ++ " (") ++ "") ++ " vs. ")
              ++ b.chars) ++ ")")
        ∧ CheckstrcasecmpfalseImpl none (some b) names = none) := by
  refine ⟨DEFINE_CHECK_STROP_IMPL_spec _ strcmp true s1 s2 names strcmp_refl halias,
    DEFINE_CHECK_STROP_IMPL_spec _ strcmp false s1 s2 names strcmp_refl halias,
    DEFINE_CHECK_STROP_IMPL_spec _ strcasecmp true s1 s2 names strcasecmp_refl halias,
    DEFINE_CHECK_STROP_IMPL_spec _ strcasecmp false s1 s2 names strcasecmp_refl halias,
    fun _ _ => ⟨rfl, rfl, rfl⟩, ?_⟩
  intro b
  refine ⟨?_, ?_, ?_, ?_⟩ <;>
    simp [CheckstrcmptrueImpl, CheckstrcmpfalseImpl, CheckstrcasecmptrueImpl,
      CheckstrcasecmpfalseImpl, DEFINE_CHECK_STROP_IMPL, CString.ptrEq, CString.printed]

/-- Witness of C20 (amended): the null pointer against the empty string. -/
theorem string_checks_null_operands_witness :
    (∀ a b : CString, (none : Option CString) = some a →
        some ({ addr := 64, chars := "" } : CString) = some b → a.addr = b.addr →
        a.chars = b.chars)
    ∧ ¬ (CheckstrcmptrueImpl none (some { addr := 64, chars := "" }) "p == q" = none)
    ∧ CheckstrcmpfalseImpl none (some { addr := 64, chars := "" }) "p != q" = none := by
  have halias : ∀ a b : CString, (none : Option CString) = some a →
      some ({ addr := 64, chars := "" } : CString) = some b → a.addr = b.addr →
      a.chars = b.chars := fun a _ h => by cases h
  have h := string_checks_null_operands none (some { addr := 64, chars := "" }) "p == q" halias
  have h' := string_checks_null_operands none (some { addr := 64, chars := "" }) "p != q" halias
  refine ⟨halias, ?_, ?_⟩
  · rw [h.1]; decide
  · rw [h'.2.1]; decide

/-! ## The state after initialization -/

/-- C24. After every call of `initializeLogging` that returns, the installed
pre-fatal hook is the do-nothing hook and the recursive-fatal counter is 0,
whatever hook was installed and whatever value the counter had before. -/
theorem initializeLogging_resets_hook (x : Externals) (bgworker : Option Nat) (w : World)
    (h : (initializeLogging x bgworker w).2 = Outcome.returned) :
    (initializeLogging x bgworker w).1.g_fatal_pre_logging_hook
        = Hook.g_pre_fatal_hook_that_does_nothing
    ∧ (initializeLogging x bgworker w).1.g_fatal_hook_recursive_counter = 0 := by
  cases bgworker with
  | none => simp [initializeLogging] at h
  | some k =>
    cases hc : w.g_logger_instance with
    | some j => simp [initializeLogging, internal.isLoggingInitialized, hc] at h
    | none =>
      cases hs : w.g_save_first_unintialized_flag <;>
        cases hm : w.g_first_unintialized_msg <;>
        simp [initializeLogging, internal.isLoggingInitialized, hc, hs, hm,
          setFatalPreLoggingHook, LogWorker.save, Active.send, World.setWorker]

/-- Witness of C24: a user hook and the counter at 5 before the call. -/
theorem initializeLogging_resets_hook_witness :
    (initializeLogging sampleExternals (some 0) usedWorld).2 = Outcome.returned
    ∧ usedWorld.g_fatal_pre_logging_hook = Hook.callback 7
    ∧ usedWorld.g_fatal_hook_recursive_counter = 5
    ∧ (initializeLogging sampleExternals (some 0) usedWorld).1.g_fatal_pre_logging_hook
        = Hook.g_pre_fatal_hook_that_does_nothing
    ∧ (initializeLogging sampleExternals (some 0) usedWorld).1.g_fatal_hook_recursive_counter
        = 0 :=
  ⟨rfl, rfl, rfl, initializeLogging_resets_hook sampleExternals (some 0) usedWorld rfl⟩

/-! ## The terminal task, step by step -/

theorem bgFatal_eq (x : Externals) (self : Nat) (m : FatalMessage) (w : World) :
    LogWorkerImpl.bgFatal x self m w
      = internal.exitWithDefaultSignalHandler m._level m._signal_id
          ((fanOut (w.workers self)._sinks (fatalExitRecord x m)
              ((internal.shutDownLogging w).cerr (x.toString (fatalExitRecord x m)))).setWorker
            self { _bg := (w.workers self)._bg, _sinks := [] }) := by
  simp [LogWorkerImpl.bgFatal, fanOut_eq, World.cerr, internal.shutDownLogging,
    internal.exitWithDefaultSignalHandler, World.setWorker, fatalExitRecord, LogMessage.append,
    LogMessage.level, String.append_assoc]

/-- C26. Terminal task: `bgFatal` of worker `self` with fatal record `m` is, in
this order, the clearing of the global logger slot, the writing of the record
to stderr, one send to each sink of the registry, in registry order, of a
record that is `m` with the exit banner appended to its body (the banner names
the level and the reason of `m` and closes with `Log content flushed
sucessfully to sink` and two newlines), the emptying of the registry, and the
call of `exitWithDefaultSignalHandler` with the level and the signal id of
`m`. After the first step the slot is null while sends, workers and process
are untouched; after the sends the registry is still the old one and the
process has not exited; the exit call comes last. -/
theorem bgFatal_terminal_task (x : Externals) (self : Nat) (m : FatalMessage) (w : World) :
    LogWorkerImpl.bgFatal x self m w
      = internal.exitWithDefaultSignalHandler m._level m._signal_id
          ((fanOut (w.workers self)._sinks (fatalExitRecord x m)
              ((internal.shutDownLogging w).cerr (x.toString (fatalExitRecord x m)))).setWorker
            self { _bg := (w.workers self)._bg, _sinks := [] })
    ∧ ((internal.shutDownLogging w).g_logger_instance = none
        ∧ (internal.shutDownLogging w).sends = w.sends
        ∧ (internal.shutDownLogging w).workers = w.workers
        ∧ (internal.shutDownLogging w).exit_call = w.exit_call)
    ∧ ((fanOut (w.workers self)._sinks (fatalExitRecord x m)
            ((internal.shutDownLogging w).cerr (x.toString (fatalExitRecord x m)))).sends
          = w.sends ++ (w.workers self)._sinks.map (fun s => (s, fatalExitRecord x m))
        ∧ (fanOut (w.workers self)._sinks (fatalExitRecord x m)
            ((internal.shutDownLogging w).cerr (x.toString (fatalExitRecord x m)))).workers
          = w.workers
        ∧ (fanOut (w.workers self)._sinks (fatalExitRecord x m)
            ((internal.shutDownLogging w).cerr (x.toString (fatalExitRecord x m)))).exit_call
          = w.exit_call)
    ∧ ((LogWorkerImpl.bgFatal x self m w).g_logger_instance = none
        ∧ (LogWorkerImpl.bgFatal x self m w).sends
          = w.sends ++ (w.workers self)._sinks.map (fun s => (s, fatalExitRecord x m))
        ∧ ((LogWorkerImpl.bgFatal x self m w).workers self)._sinks = []
        ∧ (LogWorkerImpl.bgFatal x self m w).exit_call
          = some (ExitCall.exitWithDefaultSignalHandler m._level m._signal_id))
    ∧ (fatalExitRecord x m).message
        = m.message ++ ("\nExiting after fatal event  (" ++ (m._level.text
            ++ ("). Fatal type:  " ++ (x.reason m
            ++ "\nLog content flushed sucessfully to sink\n\n"))))
    ∧ (fatalExitRecord x m)._level = m._level := by
  refine ⟨bgFatal_eq x self m w, ⟨rfl, rfl, rfl, rfl⟩, ?_, ?_, rfl, rfl⟩
  · simp only [fanOut_eq]
    exact ⟨rfl, rfl, rfl⟩
  · rw [bgFatal_eq]
    simp only [fanOut_eq]
    refine ⟨rfl, rfl, ?_, rfl⟩
    simp [internal.exitWithDefaultSignalHandler, World.setWorker]

/-! ## The PREHOOK step -/

theorem fatalCall_hooks (x : Externals) (F : FatalMessage) (w : World) :
    (internal.fatalCall x F w).1.g_fatal_pre_logging_hook = w.g_fatal_pre_logging_hook
    ∧ (internal.fatalCall x F w).1.hook_calls = w.hook_calls := by
  unfold internal.fatalCall
  cases hh : w.g_fatal_to_g3logworker_function_ptr with
  | pushFatalMessageToLogger =>
    simp only [internal.pushFatalMessageToLogger]
    cases hk : w.g_logger_instance <;> exact ⟨rfl, rfl⟩
  | mock_throws id => exact ⟨rfl, rfl⟩
  | mock_returns id => exact ⟨rfl, rfl⟩

theorem saveMessage_noop_hook (fuel : Nat) (x : Externals) (entry file : String)
    (line : Int) (function : String) (level : LEVELS) (boolean_expression : String)
    (fatal_signal : Int) (stack_trace : String) (w : World) (r : World × Outcome)
    (hk : w.g_fatal_pre_logging_hook = Hook.g_pre_fatal_hook_that_does_nothing)
    (h : internal.saveMessage fuel x entry file line function level boolean_expression
      fatal_signal stack_trace w = some r) :
    r.1.g_fatal_pre_logging_hook = Hook.g_pre_fatal_hook_that_does_nothing
    ∧ ∃ rest, r.1.hook_calls = w.hook_calls ++ rest
        ∧ ∀ hc ∈ rest, hc.hook = Hook.g_pre_fatal_hook_that_does_nothing := by
  cases fuel with
  | zero => simp [internal.saveMessage] at h
  | succ fuel =>
    rw [internal.saveMessage] at h
    by_cases hlt : level.value < w.FLAGS_minloglevel
    · simp only [hlt, if_true, Option.some.injEq] at h
      rw [← h]
      exact ⟨hk, [], by simp, by simp⟩
    · cases hf : x.wasFatal level with
      | false =>
        simp only [hlt, if_false, hf, Bool.false_eq_true, Option.some.injEq] at h
        rw [← h]
        obtain ⟨_, _, _, _, p5, p6, _⟩ := push_effects
          (((LogMessage.create w.clock w.thread_id file line function level).append
            entry).setExpression boolean_expression) w
        exact ⟨p5.trans hk, [], by simp [p6], by simp⟩
      | true =>
        simp only [hlt, if_false, hf, if_true, setFatalPreLoggingHook, hk, Hook.invoke,
          Option.some.injEq] at h
        rw [← h]
        refine ⟨(fatalCall_hooks x _ _).1, [HookCall.mk Hook.g_pre_fatal_hook_that_does_nothing
          Hook.g_pre_fatal_hook_that_does_nothing (w.g_fatal_hook_recursive_counter + 1)],
          (fatalCall_hooks x _ _).2, ?_⟩
        intro hc hm
        simp only [List.mem_singleton] at hm
        rw [hm]

theorem hookCall_trace (fuel : Nat) (x : Externals) (stack_trace : String) (w : World) :
    ∃ wn o rest, internal.saveMessage.hookCall (fuel + 1) x stack_trace w = some (wn, o)
      ∧ wn.g_fatal_pre_logging_hook = Hook.g_pre_fatal_hook_that_does_nothing
      ∧ wn.hook_calls = w.hook_calls ++ HookCall.mk w.g_fatal_pre_logging_hook
          Hook.g_pre_fatal_hook_that_does_nothing (w.g_fatal_hook_recursive_counter + 1) :: rest
      ∧ (∀ hc ∈ rest, hc.hook = Hook.g_pre_fatal_hook_that_does_nothing)
      ∧ ((∀ c, w.g_fatal_pre_logging_hook ≠ Hook.logs c) → rest = []) := by
  unfold internal.saveMessage.hookCall
  cases hk : w.g_fatal_pre_logging_hook with
  | empty =>
    refine ⟨_, _, [], rfl, rfl, ?_, by simp, fun _ => rfl⟩
    simp [internal.saveMessage.atHook, hk]
  | g_pre_fatal_hook_that_does_nothing =>
    refine ⟨_, _, [], rfl, rfl, ?_, by simp, fun _ => rfl⟩
    simp [internal.saveMessage.atHook, hk]
  | callback id =>
    refine ⟨_, _, [], rfl, rfl, ?_, by simp, fun _ => rfl⟩
    simp [internal.saveMessage.atHook, hk]
  | logs c =>
    simp only [Hook.invoke]
    have hsome := (saveMessage_leaf_hook fuel x c.entry c.file c.line c.function c.level
      c.boolean_expression c.fatal_signal c.stack_trace
      (internal.saveMessage.atHook stack_trace w) (by intro c' h; cases h))
    cases hn : internal.saveMessage (fuel + 1) x c.entry c.file c.line c.function c.level
        c.boolean_expression c.fatal_signal c.stack_trace
        (internal.saveMessage.atHook stack_trace w) with
    | none =>
      rw [hsome.1] at hn
      rw [hn] at hsome
      simp at hsome
    | some r =>
      obtain ⟨h1, rest, h2, h3⟩ := saveMessage_noop_hook (fuel + 1) x _ _ _ _ _ _ _ _ _ r rfl hn
      refine ⟨r.1, r.2, rest, rfl, h1, ?_, h3, fun hno => absurd rfl (hno c)⟩
      rw [h2]
      simp [internal.saveMessage.atHook, hk]

/-- C25. PREHOOK step: for every call of `saveMessage` at a fatal level that is
not below the threshold, with installed pre-fatal hook `h`: `h` is invoked
once by this call (the trace of hook invocations grows by the invocation of
`h`, followed only by invocations of the no-op made by a log call from inside
`h`, and by nothing when `h` makes no log call); at the moment `h` runs the
installed hook is the no-op and the recursive-fatal counter is the old value
plus one; and when the hook has returned and the record is handed to the
fatal dispatch the installed hook is the no-op, before and after the
dispatch: `h` is not restored. -/
theorem saveMessage_prehook (fuel : Nat) (x : Externals) (entry file : String)
    (line : Int) (function : String) (level : LEVELS) (boolean_expression : String)
    (fatal_signal : Int) (stack_trace : String) (w : World)
    (hf : x.wasFatal level = true) (hthr : w.FLAGS_minloglevel ≤ level.value) :
    ∃ wn o rest, internal.saveMessage.hookCall (fuel + 1) x stack_trace w = some (wn, o)
      ∧ (internal.saveMessage.atHook stack_trace w).g_fatal_pre_logging_hook
          = Hook.g_pre_fatal_hook_that_does_nothing
      ∧ (internal.saveMessage.atHook stack_trace w).g_fatal_hook_recursive_counter
          = w.g_fatal_hook_recursive_counter + 1
      ∧ wn.hook_calls = w.hook_calls ++ HookCall.mk w.g_fatal_pre_logging_hook
          Hook.g_pre_fatal_hook_that_does_nothing (w.g_fatal_hook_recursive_counter + 1) :: rest
      ∧ (∀ hc ∈ rest, hc.hook = Hook.g_pre_fatal_hook_that_does_nothing)
      ∧ ((∀ c, w.g_fatal_pre_logging_hook ≠ Hook.logs c) → rest = [])
      ∧ wn.g_fatal_pre_logging_hook = Hook.g_pre_fatal_hook_that_does_nothing
      ∧ (o = Outcome.returned →
          ∃ F, internal.saveMessage (fuel + 2) x entry file line function level
              boolean_expression fatal_signal stack_trace w = some (internal.fatalCall x F wn)
            ∧ F._level = level
            ∧ (internal.fatalCall x F wn).1.g_fatal_pre_logging_hook
                = Hook.g_pre_fatal_hook_that_does_nothing
            ∧ (internal.fatalCall x F wn).1.hook_calls = wn.hook_calls)
      ∧ (o ≠ Outcome.returned →
          internal.saveMessage (fuel + 2) x entry file line function level
            boolean_expression fatal_signal stack_trace w = some (wn, o)) := by
  obtain ⟨wn, o, rest, hcall, h1, h2, h3, h4⟩ := hookCall_trace fuel x stack_trace w
  refine ⟨wn, o, rest, hcall, rfl, rfl, h2, h3, h4, h1, ?_, ?_⟩
  · intro ho
    rw [ho] at hcall
    refine ⟨_, saveMessage_hook_returned (fuel + 1) x entry file line function level
      boolean_expression fatal_signal stack_trace w wn hf hthr hcall, ?_, ?_, ?_⟩
    · unfold internal.saveMessage.fatalRecord
      split <;> rfl
    · rw [(fatalCall_hooks x _ wn).1]; exact h1
    · exact (fatalCall_hooks x _ wn).2
  · intro ho
    exact saveMessage_hook_not_returned (fuel + 1) x entry file line function level
      boolean_expression fatal_signal stack_trace w wn o hf hthr hcall ho

/-- Witness of C25: a fatal call while a user callback is installed. -/
theorem saveMessage_prehook_witness :
    sampleExternals.wasFatal sampleFATAL = true
    ∧ callbackHookWorld.FLAGS_minloglevel ≤ sampleFATAL.value
    ∧ ∃ wn o rest, internal.saveMessage.hookCall 1 sampleExternals "trace" callbackHookWorld
          = some (wn, o)
      ∧ wn.hook_calls = callbackHookWorld.hook_calls
          ++ HookCall.mk callbackHookWorld.g_fatal_pre_logging_hook
            Hook.g_pre_fatal_hook_that_does_nothing
            (callbackHookWorld.g_fatal_hook_recursive_counter + 1) :: rest
      ∧ rest = []
      ∧ wn.g_fatal_pre_logging_hook = Hook.g_pre_fatal_hook_that_does_nothing := by
  refine ⟨rfl, by decide, ?_⟩
  obtain ⟨wn, o, rest, h1, _, _, h4, _, h6, h7, _, _⟩ :=
    saveMessage_prehook 0 sampleExternals "boom" "main.cpp" 20 "main" sampleFATAL "" 6
      "trace" callbackHookWorld rfl (by decide)
  exact ⟨wn, o, rest, h1, h4, h6 (by intro c h; cases h), h7⟩

/-! ## The string checks -/

theorem strcmpLoop_id_eq_zero (l1 : List Char) :
    ∀ l2 : List Char, strcmpLoop id l1 l2 = 0 ↔ l1 = l2 := by
  induction l1 with
  | nil =>
    intro l2
    cases l2 <;> simp [strcmpLoop]
  | cons a as ih =>
    intro l2
    cases l2 with
    | nil => simp [strcmpLoop]
    | cons b bs =>
      by_cases hab : a = b
      · simp [strcmpLoop, hab, ih bs]
      · have : strcmpLoop id (a :: as) (b :: bs) ≠ 0 := by
          simp only [strcmpLoop, id, hab, if_false]
          split <;> decide
        simp [this, hab]

theorem strcmp_eq_zero (s1 s2 : String) : strcmp s1 s2 = 0 ↔ s1 = s2 := by
  unfold strcmp
  rw [strcmpLoop_id_eq_zero]
  exact ⟨fun h => String.ext h, fun h => by rw [h]⟩

theorem operandsEqual_strcmp (s1 s2 : Option CString) :
    operandsEqual strcmp s1 s2 = true
      ↔ (s1 = none ∧ s2 = none) ∨ ∃ a b, s1 = some a ∧ s2 = some b ∧ a.chars = b.chars := by
  cases s1 with
  | none => cases s2 <;> simp [operandsEqual]
  | some a =>
    cases s2 with
    | none => simp [operandsEqual]
    | some b => simp [operandsEqual, strcmp_eq_zero]

theorem DEFINE_CHECK_STROP_IMPL_message (name : String) (func : String → String → Int)
    (expected : Bool) (s1 s2 : Option CString) (names r : String)
    (h : DEFINE_CHECK_STROP_IMPL name func expected s1 s2 names = some r) :
    r = ((((((name ++ " failed: ") ++ names) ++ " (") ++ CString.printed s1) ++ " vs. ")
      ++ CString.printed s2) ++ ")" := by
  unfold DEFINE_CHECK_STROP_IMPL at h
  simp only at h
  split at h
  · simp at h
  · simp only [Option.some.injEq] at h
    exact h.symm

/-- C27. For all nullable C strings `s1`, `s2` (two pointers to the same address
holding the same characters): `CheckstrcmptrueImpl` returns `NULL` exactly
when both are null or both are strings with equal contents;
`CheckstrcmpfalseImpl` returns `NULL` exactly when `CheckstrcmptrueImpl` does
not; and a result that is not `NULL` is the name of the check, ` failed: `,
`names`, ` (`, the first operand, ` vs. `, the second operand and `)`, a null
operand being printed as the empty string. -/
theorem string_checks_relation (s1 s2 : Option CString) (names : String)
    (halias : ∀ a b, s1 = some a → s2 = some b → a.addr = b.addr → a.chars = b.chars) :
    (CheckstrcmptrueImpl s1 s2 names = none
      ↔ (s1 = none ∧ s2 = none) ∨ ∃ a b, s1 = some a ∧ s2 = some b ∧ a.chars = b.chars)
    ∧ (CheckstrcmpfalseImpl s1 s2 names = none ↔ CheckstrcmptrueImpl s1 s2 names ≠ none)
    ∧ (∀ r, CheckstrcmptrueImpl s1 s2 names = some r →
        r = (((((("CHECK_STREQ" ++ " failed: ") ++ names) ++ " (") ++ CString.printed s1)
          ++ " vs. ") ++ CString.printed s2) ++ ")")
    ∧ (∀ r, CheckstrcmpfalseImpl s1 s2 names = some r →
        r = (((((("CHECK_STRNE" ++ " failed: ") ++ names) ++ " (") ++ CString.printed s1)
          ++ " vs. ") ++ CString.printed s2) ++ ")")
    ∧ CString.printed none = ""
    ∧ (∀ a : CString, CString.printed (some a) = a.chars) := by
  have ht := DEFINE_CHECK_STROP_IMPL_spec "CHECK_STREQ" strcmp true s1 s2 names strcmp_refl halias
  have hf := DEFINE_CHECK_STROP_IMPL_spec "CHECK_STRNE" strcmp false s1 s2 names strcmp_refl
    halias
  refine ⟨?_, ?_, ?_, ?_, rfl, fun _ => rfl⟩
  · exact ht.trans (operandsEqual_strcmp s1 s2)
  · unfold CheckstrcmpfalseImpl CheckstrcmptrueImpl
    rw [hf, Ne, ht]
    simp
  · intro r h
    exact DEFINE_CHECK_STROP_IMPL_message _ _ _ _ _ _ _ h
  · intro r h
    exact DEFINE_CHECK_STROP_IMPL_message _ _ _ _ _ _ _ h

/-- Witness of C27: the strings `abc` and `ab` at two addresses. -/
theorem string_checks_relation_witness :
    (∀ a b : CString, some ({ addr := 1, chars := "abc" } : CString) = some a →
        some ({ addr := 64, chars := "ab" } : CString) = some b → a.addr = b.addr →
        a.chars = b.chars)
    ∧ CheckstrcmptrueImpl (some { addr := 1, chars := "abc" }) (some { addr := 64, chars := "ab" })
        "p == q" = some "CHECK_STREQ failed: p == q (abc vs. ab)"
    ∧ (CheckstrcmpfalseImpl (some { addr := 1, chars := "abc" })
        (some { addr := 64, chars := "ab" }) "p == q" = none
      ↔ CheckstrcmptrueImpl (some { addr := 1, chars := "abc" })
        (some { addr := 64, chars := "ab" }) "p == q" ≠ none) := by
  have halias : ∀ a b : CString, some ({ addr := 1, chars := "abc" } : CString) = some a →
      some ({ addr := 64, chars := "ab" } : CString) = some b → a.addr = b.addr →
      a.chars = b.chars := by
    intro a b ha hb he
    cases ha; cases hb
    exact absurd he (by decide)
  exact ⟨halias, by decide,
    (string_checks_relation (some { addr := 1, chars := "abc" })
      (some { addr := 64, chars := "ab" }) "p == q" halias).2.1⟩

/-! ## File names (filesinkhelper.ipp) -/

theorem find_first_of_eq_none (chars l : List Char) :
    find_first_of chars l = none ↔ ∀ c ∈ l, c ∉ chars := by
  induction l with
  | nil => simp [find_first_of]
  | cons a l ih =>
      by_cases h : a ∈ chars
      · simp [find_first_of, h]
      · simp [find_first_of, h, ih]

theorem illegal_characters_data :
    internal.isValidFilename.illegal_characters.data =
      ['/', ',', '|', '<', '>', ':', '#', '$', '%', '\x7b', '\x7d', '[', ']', '\x27', '\x22',
        '^', '!', '?', '+', '*', ' '] := by
  decide

theorem string_eq_empty_iff (s : String) : s = "" ↔ s.data = [] := by
  constructor
  · intro h
    subst h
    rfl
  · intro h
    cases s
    simp at h
    subst h
    rfl

theorem isValidFilename_iff (s : String) :
    (internal.isValidFilename s).1 = true ↔ acceptablePrefix s := by
  unfold internal.isValidFilename acceptablePrefix
  rw [← illegal_characters_data]
  cases hf : find_first_of internal.isValidFilename.illegal_characters.data s.data with
  | some pos =>
      have hn : ¬ ∀ c ∈ s.data, c ∉ internal.isValidFilename.illegal_characters.data := by
        rw [← find_first_of_eq_none, hf]
        simp
      simp only [Bool.false_eq_true, false_iff]
      exact fun h => hn h.2
  | none =>
      have hall := (find_first_of_eq_none _ _).1 hf
      by_cases he : s.data = []
      · simp [he, string_eq_empty_iff]
      · have he2 : s.data.isEmpty = false := by
          cases hd : s.data with
          | nil => exact absurd hd he
          | cons a l => rfl
        simp only [he2]
        simp only [Bool.false_eq_true, if_false, true_iff]
        exact ⟨fun h => he ((string_eq_empty_iff s).1 h), hall⟩

/-- C21: `isValidFilename` returns true exactly for the strings that are not
empty and hold none of the characters `/ , | < > : # $ % { } [ ] ' " ^ ! ? + *`
and the space; a rejected string gets a line on `std::cerr`, an accepted one
writes nothing. -/
theorem isValidFilename_accepts (s : String) :
    ((internal.isValidFilename s).1 = true ↔ acceptablePrefix s) ∧
    ((internal.isValidFilename s).1 = true → (internal.isValidFilename s).2 = "") ∧
    (s = "" → internal.isValidFilename s =
      (false, "Empty filename prefix is not allowed\n")) := by
  refine ⟨isValidFilename_iff s, ?_, ?_⟩
  · unfold internal.isValidFilename
    cases find_first_of internal.isValidFilename.illegal_characters.data s.data with
    | some pos => simp
    | none =>
        by_cases he : s.data.isEmpty = true
        · simp [he]
        · simp [he]
  · intro h
    subst h
    rfl

theorem prefixSanityFix_stripped (p : String) :
    erase_remove ':' (erase_remove '\\' (erase_remove '/' (erase_remove_if isspace p))) =
      strippedPrefix p := by
  unfold erase_remove erase_remove_if strippedPrefix
  simp only [List.filter_filter]
  congr 1
  apply List.filter_congr
  intro c _
  cases isspace c <;> cases (c == '/') <;> cases (c == '\\') <;> cases (c == ':') <;> rfl

theorem prefixSanityFix_eq (p : String) :
    internal.prefixSanityFix p =
      (if (internal.isValidFilename (strippedPrefix p)).1 then strippedPrefix p else "",
        (internal.isValidFilename (strippedPrefix p)).2) := by
  unfold internal.prefixSanityFix
  simp only [prefixSanityFix_stripped]
  cases (internal.isValidFilename (strippedPrefix p)).1 <;> simp

theorem strippedPrefix_idem (p : String) : strippedPrefix (strippedPrefix p) = strippedPrefix p := by
  unfold strippedPrefix
  simp only [List.filter_filter, Bool.and_self]

theorem prefixSanityFix_empty : (internal.prefixSanityFix "").1 = "" := by
  decide

/-- C22: `prefixSanityFix` returns the prefix with every whitespace character,
`/`, `\` and `:` removed when that stripped string is not empty and has no
character of the illegal set, and the empty string otherwise; so a result is
empty or accepted by `isValidFilename`, and a second application changes
nothing. -/
theorem prefixSanityFix_result (p : String) :
    (acceptablePrefix (strippedPrefix p) → (internal.prefixSanityFix p).1 = strippedPrefix p) ∧
    (¬ acceptablePrefix (strippedPrefix p) → (internal.prefixSanityFix p).1 = "") ∧
    ((internal.prefixSanityFix p).1 = "" ∨
      (internal.isValidFilename (internal.prefixSanityFix p).1).1 = true) ∧
    (internal.prefixSanityFix (internal.prefixSanityFix p).1).1 = (internal.prefixSanityFix p).1 := by
  have hiff := isValidFilename_iff (strippedPrefix p)
  cases hv : (internal.isValidFilename (strippedPrefix p)).1 with
  | false =>
      have hna : ¬ acceptablePrefix (strippedPrefix p) := by
        intro h
        rw [hiff.2 h] at hv
        exact Bool.noConfusion hv
      have e : (internal.prefixSanityFix p).1 = "" := by
        rw [prefixSanityFix_eq]
        simp [hv]
      refine ⟨fun h => absurd h hna, fun _ => e, Or.inl e, ?_⟩
      rw [e]
      exact prefixSanityFix_empty
  | true =>
      have ha : acceptablePrefix (strippedPrefix p) := hiff.1 hv
      have e : (internal.prefixSanityFix p).1 = strippedPrefix p := by
        rw [prefixSanityFix_eq]
        simp [hv]
      refine ⟨fun _ => e, fun h => absurd ha h, Or.inr (by rw [e]; exact hv), ?_⟩
      rw [e, prefixSanityFix_eq, strippedPrefix_idem]
      simp [hv]

/-- C23: `createLogFileName` gives `prefix.id.T.log` for a logger id that is
not empty and `prefix.T.log` for the empty id, where `T` is the current time
formatted with `%Y%m%d-%H%M%S`; the name starts with the prefix and has the
suffix `.log`. -/
theorem createLogFileName_format (localtime_formatted : Nat → String → String) (now : Nat)
    (verified_name logger_id : String) :
    (logger_id ≠ "" →
      internal.createLogFileName localtime_formatted now verified_name logger_id =
        verified_name ++ "." ++ logger_id ++ "." ++ localtime_formatted now "%Y%m%d-%H%M%S"
          ++ ".log") ∧
    (logger_id = "" →
      internal.createLogFileName localtime_formatted now verified_name logger_id =
        verified_name ++ "." ++ localtime_formatted now "%Y%m%d-%H%M%S" ++ ".log") ∧
    (∃ rest, internal.createLogFileName localtime_formatted now verified_name logger_id =
      verified_name ++ rest) ∧
    (∃ front, internal.createLogFileName localtime_formatted now verified_name logger_id =
      front ++ ".log") := by
  have h0 : ("" : String) ++ verified_name = verified_name := by
    apply String.ext
    simp
  refine ⟨?_, ?_, ?_, ?_⟩
  · intro h
    simp [internal.createLogFileName, internal.file_name_time_formatted, h, h0]
  · intro h
    simp [internal.createLogFileName, internal.file_name_time_formatted, h, h0]
  · by_cases h : logger_id = ""
    · exact ⟨"." ++ localtime_formatted now "%Y%m%d-%H%M%S" ++ ".log", by
        simp [internal.createLogFileName, internal.file_name_time_formatted, h, h0,
          String.append_assoc]⟩
    · exact ⟨"." ++ logger_id ++ "." ++ localtime_formatted now "%Y%m%d-%H%M%S" ++ ".log", by
        simp [internal.createLogFileName, internal.file_name_time_formatted, h, h0,
          String.append_assoc]⟩
  · exact ⟨_, rfl⟩

theorem contains_end_nil : internal.pathSanityFix.contains_end [] = false := rfl

theorem contains_end_concat (l : List Char) (b : Char) :
    internal.pathSanityFix.contains_end (l ++ [b]) = (b == '/' || b == ' ') := by
  simp [internal.pathSanityFix.contains_end]

theorem pathSanityFix_loop_eq (fuel : Nat) :
    ∀ l : List Char, l.length ≤ fuel →
      internal.pathSanityFix.loop fuel l =
        (l.reverse.dropWhile (fun c => c == '/' || c == ' ')).reverse := by
  induction fuel with
  | zero =>
      intro l h
      have : l = [] := List.length_eq_zero.1 (Nat.le_zero.1 h)
      subst this
      rfl
  | succ n ih =>
      intro l h
      rcases List.eq_nil_or_concat l with hl | ⟨L, b, hl⟩
      · subst hl
        rfl
      · rw [List.concat_eq_append] at hl
        subst hl
        have hlen : L.length ≤ n := by
          simp at h
          omega
        rw [internal.pathSanityFix.loop, contains_end_concat]
        by_cases hb : (b == '/' || b == ' ') = true
        · rw [if_pos hb, List.dropLast_concat, ih L hlen]
          simp [List.dropWhile, hb]
        · rw [if_neg hb]
          have hb2 : (b == '/' || b == ' ') = false := by simpa using hb
          simp [List.dropWhile, hb2]

theorem contains_end_trimmed (l : List Char) :
    internal.pathSanityFix.contains_end
      (l.reverse.dropWhile (fun c => c == '/' || c == ' ')).reverse = false := by
  have h := List.head?_dropWhile_not (fun c => c == '/' || c == ' ') l.reverse
  unfold internal.pathSanityFix.contains_end
  rw [List.getLast?_reverse]
  cases hd : (List.dropWhile (fun c => c == '/' || c == ' ') l.reverse).head? with
  | none => rfl
  | some x =>
      rw [hd] at h
      simpa using h

theorem dropWhile_all (p : Char → Bool) (l : List Char) (h : ∀ c ∈ l, p c = true) :
    l.dropWhile p = [] := by
  induction l with
  | nil => rfl
  | cons a l ih =>
      have ha : p a = true := h a (List.mem_cons_self _ _)
      simp only [List.dropWhile, ha]
      exact ih (fun c hc => h c (List.mem_cons_of_mem _ hc))

theorem pathSanityFix_eq (path file_name : String) :
    internal.pathSanityFix path file_name =
      String.mk ((if trimmedDirectory path = [] then [] else trimmedDirectory path ++ ['/'])
        ++ file_name.data) := by
  unfold internal.pathSanityFix
  simp only [pathSanityFix_loop_eq _ _ (Nat.le_refl _)]
  show String.mk ((if (!(trimmedDirectory path).isEmpty) = true then trimmedDirectory path ++ ['/']
    else trimmedDirectory path) ++ file_name.data) = _
  cases h : trimmedDirectory path with
  | nil => simp
  | cons a l => simp

/-- C29: the trimming loop of `pathSanityFix` stops, with the same path for any
number of rounds from the length of the path on, at the path `d` that has `/`
for every backslash and no trailing `/` or space; the function returns `d`,
one `/` and the file name when `d` is not empty and the file name alone when
`d` is empty, as it is for a path of slashes and spaces such as `/`. -/
theorem pathSanityFix_joins (path file_name : String) :
    (∀ fuel, path.data.length ≤ fuel →
      internal.pathSanityFix.loop fuel (std_replace '\\' '/' path.data) = trimmedDirectory path) ∧
    internal.pathSanityFix.contains_end (trimmedDirectory path) = false ∧
    (trimmedDirectory path ≠ [] →
      internal.pathSanityFix path file_name =
        String.mk (trimmedDirectory path) ++ "/" ++ file_name) ∧
    (trimmedDirectory path = [] → internal.pathSanityFix path file_name = file_name) ∧
    ((∀ c ∈ path.data, c = '/' ∨ c = '\\' ∨ c = ' ') →
      internal.pathSanityFix path file_name = file_name) ∧
    internal.pathSanityFix "/" file_name = file_name := by
  have hempty : trimmedDirectory path = [] → internal.pathSanityFix path file_name = file_name := by
    intro h
    rw [pathSanityFix_eq, if_pos h]
    rfl
  refine ⟨?_, contains_end_trimmed _, ?_, hempty, ?_, ?_⟩
  · intro fuel h
    exact pathSanityFix_loop_eq fuel _ (by simpa [std_replace] using h)
  · intro h
    rw [pathSanityFix_eq, if_neg h]
    apply String.ext
    simp
  · intro h
    apply hempty
    unfold trimmedDirectory
    rw [dropWhile_all]
    · rfl
    · intro c hc
      rw [List.mem_reverse] at hc
      unfold std_replace at hc
      rw [List.mem_map] at hc
      obtain ⟨a, ha, hac⟩ := hc
      rcases h a ha with h1 | h1 | h1 <;> subst h1 <;> subst hac <;> decide
  · rw [pathSanityFix_eq]
    rfl

/-! ## LOG_EVERY_N -/

theorem wrapInt32_of_range (v : Int) (h1 : -2147483648 ≤ v) (h2 : v ≤ 2147483647) :
    wrapInt32 v = v := by
  unfold wrapInt32
  omega

theorem emod_succ (a n : Int) (hn : 1 ≤ n) :
    (a + 1) % n = if a % n + 1 = n then 0 else a % n + 1 := by
  have h1 := Int.emod_add_ediv a n
  have h2 := Int.emod_nonneg a (show n ≠ 0 by omega)
  have h3 := Int.emod_lt_of_pos a (show 0 < n by omega)
  split
  · rename_i h
    have e : a + 1 = n * (a / n + 1) := by
      rw [mul_add, mul_one]
      omega
    rw [e]
    exact Int.mul_emod_right _ _
  · rename_i h
    have e : a + 1 = (a % n + 1) + n * (a / n) := by omega
    rw [e, Int.add_mul_emod_self_left]
    exact Int.emod_eq_of_lt (by omega) (by omega)

theorem LOG_EVERY_N_occurrences (n : Int) (k : Nat) :
    (LOG_EVERY_N n k).1.LOG_OCCURRENCES = wrapInt32 k := by
  induction k with
  | zero => rfl
  | succ k ih =>
      simp only [LOG_EVERY_N, SOME_KIND_OF_LOG_EVERY_N, ih]
      unfold wrapInt32
      push_cast
      omega

theorem LOG_EVERY_N_state (n : Int) (hn : 1 ≤ n) (k : Nat) (hk : k ≤ 2147483647) :
    (LOG_EVERY_N n k).1.LOG_OCCURRENCES = k ∧
    (LOG_EVERY_N n k).1.LOG_OCCURRENCES_MOD_N ≤ k ∧
    (k = 0 → (LOG_EVERY_N n k).1.LOG_OCCURRENCES_MOD_N = 0) ∧
    (1 ≤ k → (LOG_EVERY_N n k).1.LOG_OCCURRENCES_MOD_N = ((k : Int) - 1) % n + 1) := by
  induction k with
  | zero => exact ⟨rfl, Int.le_refl 0, fun _ => rfl, fun h => absurd h (by decide)⟩
  | succ k ih =>
      obtain ⟨hocc, hle, h0, h1⟩ := ih (by omega)
      have hmod0 : 0 ≤ (LOG_EVERY_N n k).1.LOG_OCCURRENCES_MOD_N := by
        rcases Nat.eq_zero_or_pos k with hk0 | hk0
        · rw [h0 hk0]
        · rw [h1 hk0]
          have := Int.emod_nonneg ((k : Int) - 1) (show n ≠ 0 by omega)
          omega
      have hw : wrapInt32 ((LOG_EVERY_N n k).1.LOG_OCCURRENCES_MOD_N + 1) =
          (LOG_EVERY_N n k).1.LOG_OCCURRENCES_MOD_N + 1 :=
        wrapInt32_of_range _ (by omega) (by omega)
      have hocc2 : (LOG_EVERY_N n (k + 1)).1.LOG_OCCURRENCES = ((k + 1 : Nat) : Int) := by
        simp only [LOG_EVERY_N, SOME_KIND_OF_LOG_EVERY_N, hocc]
        rw [wrapInt32_of_range _ (by omega) (by omega)]
        push_cast
        rfl
      have hstep : (LOG_EVERY_N n (k + 1)).1.LOG_OCCURRENCES_MOD_N =
          if (LOG_EVERY_N n k).1.LOG_OCCURRENCES_MOD_N + 1 > n then
            (LOG_EVERY_N n k).1.LOG_OCCURRENCES_MOD_N + 1 - n
          else (LOG_EVERY_N n k).1.LOG_OCCURRENCES_MOD_N + 1 := by
        simp only [LOG_EVERY_N, SOME_KIND_OF_LOG_EVERY_N, hw]
        split
        · exact wrapInt32_of_range _ (by omega) (by omega)
        · rfl
      refine ⟨hocc2, ?_, fun h => absurd h (Nat.succ_ne_zero k), fun _ => ?_⟩
      · rw [hstep]
        push_cast
        split <;> omega
      · rw [hstep]
        have hcast : (((k + 1 : Nat) : Int) - 1) = (k : Int) := by
          push_cast
          omega
        rw [hcast]
        rcases Nat.eq_zero_or_pos k with hk0 | hk0
        · subst hk0
          rw [h0 rfl]
          have : ¬ ((0 : Int) + 1 > n) := by omega
          rw [if_neg this]
          simp
        · rw [h1 hk0]
          have hs := emod_succ ((k : Int) - 1) n hn
          have e : (k : Int) - 1 + 1 = k := by omega
          rw [e] at hs
          have h3 := Int.emod_lt_of_pos ((k : Int) - 1) (show 0 < n by omega)
          rw [hs]
          by_cases hc : ((k : Int) - 1) % n + 1 = n
          · rw [if_pos hc, if_pos (by omega)]
            omega
          · rw [if_neg hc, if_neg (by omega)]

theorem LOG_EVERY_N_fires (n : Int) (k : Nat) :
    (LOG_EVERY_N n (k + 1)).2 = ((LOG_EVERY_N n (k + 1)).1.LOG_OCCURRENCES_MOD_N == 1) := rfl

/-- C28 (counterexample): with `n = 1`, execution number 2147483648 leaves
`-2147483648` in `LOG_OCCURRENCES`, which is not the number of the execution:
the counter is an `int`. -/
theorem LOG_EVERY_N_counters_counterexample :
    (1 : Int) ≤ 1 ∧ 1 ≤ 2147483648 ∧
    (LOG_EVERY_N 1 2147483648).1.LOG_OCCURRENCES = -2147483648 ∧
    (LOG_EVERY_N 1 2147483648).1.LOG_OCCURRENCES ≠ ((2147483648 : Nat) : Int) := by
  rw [LOG_EVERY_N_occurrences]
  unfold wrapInt32
  refine ⟨by decide, by decide, by omega, by omega⟩

/-- C28 (amended): for `n ≥ 1` and an execution number `k` from 1 to
2147483647, the largest `int`, the `k`-th execution of a `LOG_EVERY_N`
statement opens a log capture exactly when `(k - 1) mod n = 0`, and leaves
`LOG_OCCURRENCES_MOD_N` in `1 .. n` and `LOG_OCCURRENCES` equal to `k`. -/
theorem LOG_EVERY_N_counters (n : Int) (k : Nat) (hn : 1 ≤ n) (hk : 1 ≤ k)
    (hmax : k ≤ 2147483647) :
    ((LOG_EVERY_N n k).2 = true ↔ ((k : Int) - 1) % n = 0) ∧
    1 ≤ (LOG_EVERY_N n k).1.LOG_OCCURRENCES_MOD_N ∧
    (LOG_EVERY_N n k).1.LOG_OCCURRENCES_MOD_N ≤ n ∧
    (LOG_EVERY_N n k).1.LOG_OCCURRENCES = k := by
  obtain ⟨hocc, _, _, h1⟩ := LOG_EVERY_N_state n hn k hmax
  have hm := h1 hk
  have h2 := Int.emod_nonneg ((k : Int) - 1) (show n ≠ 0 by omega)
  have h3 := Int.emod_lt_of_pos ((k : Int) - 1) (show 0 < n by omega)
  refine ⟨?_, by omega, by omega, hocc⟩
  obtain ⟨j, rfl⟩ : ∃ j, k = j + 1 := ⟨k - 1, by omega⟩
  rw [LOG_EVERY_N_fires, hm]
  constructor
  · intro h
    have := eq_of_beq h
    omega
  · intro h
    rw [h]
    rfl

theorem LOG_EVERY_N_counters_witness :
    (1 : Int) ≤ 3 ∧ 1 ≤ 4 ∧ (LOG_EVERY_N 3 4).2 = true ∧
    (LOG_EVERY_N 3 4).1 = { LOG_OCCURRENCES := 4, LOG_OCCURRENCES_MOD_N := 1 } ∧
    (LOG_EVERY_N 3 3).2 = false ∧
    (((LOG_EVERY_N 3 4).2 = true ↔ (((4 : Nat) : Int) - 1) % 3 = 0) ∧
      1 ≤ (LOG_EVERY_N 3 4).1.LOG_OCCURRENCES_MOD_N ∧
      (LOG_EVERY_N 3 4).1.LOG_OCCURRENCES_MOD_N ≤ 3 ∧
      (LOG_EVERY_N 3 4).1.LOG_OCCURRENCES = ((4 : Nat) : Int)) :=
  ⟨by decide, by decide, by decide, by decide, by decide,
    LOG_EVERY_N_counters 3 4 (by decide) (by decide) (by decide)⟩

end g3
